import Mathlib

/-!
# Gerstner-Waves-OpenGL: shader pipeline, geometry, cubemap, frame and input

A shallow embedding of `src/main.cpp`.  The program talks to an OpenGL driver;
the driver is an external collaborator and is represented by

* `Driver`: the answers the driver is free to choose (does a source compile, does
  a set of stages link, where does a uniform live), and
* `GLState`: the part of the context state that decides what the driver hands
  back to the program (object names, shader objects, program objects), together
  with the chronological log `calls` of every GL command the program issued.

Program functions are written in the `Prog` monad: explicit passing of the
`World` (the globals of `main.cpp`, the GL context, standard output) with three
outcomes: the function returned, the process was ended by `exit`, or an
indeterminate value was read.
-/

namespace GerstnerWaves

/-! ## GL scalar types and enumerants (values of `glad.h`) -/

abbrev GLuint := Nat
abbrev GLenum := Nat
abbrev GLint := Int

/-- A `float` of the program.  The host code only negates and adds them, so they
are kept as exact rationals; values that the GPU or `glm` computes are kept
symbolic (see `GLfloat`). -/
abbrev CFloat := ℚ

def GL_FALSE : Nat := 0
def GL_TRUE : Nat := 1
def GL_TRIANGLES : GLenum := 0x0004
def GL_PATCHES : GLenum := 0x000E
def GL_DEPTH_BUFFER_BIT : Nat := 0x00000100
def GL_COLOR_BUFFER_BIT : Nat := 0x00004000
def GL_LESS : GLenum := 0x0201
def GL_LEQUAL : GLenum := 0x0203
def GL_FRONT_AND_BACK : GLenum := 0x0408
def GL_INVALID_ENUM : GLenum := 0x0500
def GL_INVALID_VALUE : GLenum := 0x0501
def GL_INVALID_OPERATION : GLenum := 0x0502
def GL_DEPTH_TEST : GLenum := 0x0B71
def GL_UNSIGNED_BYTE : GLenum := 0x1401
def GL_FLOAT : GLenum := 0x1406
def GL_RGB : GLenum := 0x1907
def GL_LINE : GLenum := 0x1B01
def GL_FILL : GLenum := 0x1B02
def GL_LINEAR : GLenum := 0x2601
def GL_TEXTURE_MAG_FILTER : GLenum := 0x2800
def GL_TEXTURE_MIN_FILTER : GLenum := 0x2801
def GL_TEXTURE_WRAP_S : GLenum := 0x2802
def GL_TEXTURE_WRAP_T : GLenum := 0x2803
def GL_TEXTURE_WRAP_R : GLenum := 0x8072
def GL_CLAMP_TO_EDGE : GLenum := 0x812F
def GL_TEXTURE0 : GLenum := 0x84C0
def GL_TEXTURE_CUBE_MAP : GLenum := 0x8513
def GL_TEXTURE_CUBE_MAP_POSITIVE_X : GLenum := 0x8515
def GL_TEXTURE_CUBE_MAP_NEGATIVE_X : GLenum := 0x8516
def GL_TEXTURE_CUBE_MAP_POSITIVE_Y : GLenum := 0x8517
def GL_TEXTURE_CUBE_MAP_NEGATIVE_Y : GLenum := 0x8518
def GL_TEXTURE_CUBE_MAP_POSITIVE_Z : GLenum := 0x8519
def GL_TEXTURE_CUBE_MAP_NEGATIVE_Z : GLenum := 0x851A
def GL_ARRAY_BUFFER : GLenum := 0x8892
def GL_STATIC_DRAW : GLenum := 0x88E4
def GL_FRAGMENT_SHADER : GLenum := 0x8B30
def GL_VERTEX_SHADER : GLenum := 0x8B31
def GL_COMPILE_STATUS : GLenum := 0x8B81
def GL_INFO_LOG_LENGTH : GLenum := 0x8B84
def GL_PATCH_VERTICES : GLenum := 0x8E72
def GL_TESS_EVALUATION_SHADER : GLenum := 0x8E87
def GL_TESS_CONTROL_SHADER : GLenum := 0x8E88

/-- The value of `sizeof(GL_FLOAT)` in `main.cpp`.  `GL_FLOAT` is the integer
constant `0x1406`, so this is `sizeof(int)`, 4 bytes on the platforms the
program is built for (g++ on Linux). -/
def sizeof_GL_FLOAT : Nat := 4

def EXIT_FAILURE : Int := 1

/-! ## Values sent to the GPU -/

/-- A scalar handed to `glUniform*f`: a literal of the source, or the sine or
cosine that `glm` takes of a literal (not evaluated). -/
inductive GLfloat where
  | lit (q : ℚ)
  | sin (q : ℚ)
  | cos (q : ℚ)
deriving DecidableEq, Repr

structure Vec3 where
  x : CFloat
  y : CFloat
  z : CFloat
deriving DecidableEq, Repr

structure Vec4 where
  x : CFloat
  y : CFloat
  z : CFloat
  w : CFloat
deriving DecidableEq, Repr

/-- A `glm::mat4`: four columns, `m[c][r]` is row `r` of column `c`. -/
structure Mat4 where
  c0 : Vec4
  c1 : Vec4
  c2 : Vec4
  c3 : Vec4
deriving DecidableEq, Repr

/-- A matrix handed to `glUniformMatrix4fv`: one the host code builds entry by
entry, or the result of `glm::perspective`, kept symbolic with its arguments
(field of view in degrees, the two screen dimensions whose quotient is the
aspect ratio, near and far plane). -/
inductive MatValue where
  | mat (m : Mat4)
  | perspective (fovyDegrees : ℚ) (width height : Int) (zNear zFar : ℚ)
deriving DecidableEq, Repr

/-- A decoded image, as the `PPM` class exposes it: `getWidth`, `getHeight`,
`pixelData`. -/
structure PPM where
  width : Int
  height : Int
  pixelData : List Nat
deriving DecidableEq, Repr

/-- The part of the external `Camera` class that `main.cpp` reads. -/
structure Camera where
  viewMatrix : Mat4
  eye : Vec3
  viewDirection : Vec3
deriving DecidableEq, Repr

/-! ## The OpenGL context -/

/-- Every GL command of `main.cpp`, with the arguments it was issued with.
Commands that hand a value back carry that value last. -/
inductive GLCall where
  | glCreateProgram (name : GLuint)
  | glCreateShader (kind : GLenum) (name : GLuint)
  | glShaderSource (shader : GLuint) (source : String)
  | glCompileShader (shader : GLuint)
  | glGetShaderiv (shader : GLuint) (pname : GLenum)
  | glGetShaderInfoLog (shader : GLuint) (maxLength : Int)
  | glDeleteShader (shader : GLuint)
  | glAttachShader (program shader : GLuint)
  | glLinkProgram (program : GLuint)
  | glValidateProgram (program : GLuint)
  | glDetachShader (program shader : GLuint)
  | glGenTextures (name : GLuint)
  | glBindTexture (target : GLenum) (texture : GLuint)
  | glTexImage2D (target : GLenum) (level : Int) (internalformat : GLenum)
      (width height : Int) (border : Int) (format type : GLenum) (data : List Nat)
  | glTexParameteri (target pname param : GLenum)
  | glGenVertexArrays (name : GLuint)
  | glBindVertexArray (array : GLuint)
  | glGenBuffers (name : GLuint)
  | glBindBuffer (target : GLenum) (buffer : GLuint)
  | glBufferData (target : GLenum) (size : Nat) (data : List CFloat) (usage : GLenum)
  | glEnableVertexAttribArray (index : GLuint)
  | glVertexAttribPointer (index : GLuint) (size : Int) (type : GLenum)
      (normalized : Nat) (stride : Nat) (pointer : Nat)
  | glDisableVertexAttribArray (index : GLuint)
  | glEnable (cap : GLenum)
  | glPolygonMode (face mode : GLenum)
  | glViewport (x y width height : Int)
  | glClearColor (r g b a : CFloat)
  | glClear (mask : Nat)
  | glUseProgram (program : GLuint)
  | glPatchParameteri (pname : GLenum) (value : Int)
  | glGetUniformLocation (program : GLuint) (name : String) (location : GLint)
  | glUniformMatrix4fv (location : GLint) (value : MatValue)
  | glUniform1i (location : GLint) (v0 : Int)
  | glUniform1ui (location : GLint) (v0 : Int)
  | glUniform1f (location : GLint) (v0 : GLfloat)
  | glUniform2f (location : GLint) (v0 v1 : GLfloat)
  | glUniform3fv (location : GLint) (value : Vec3)
  | glActiveTexture (texture : GLenum)
  | glDrawArrays (mode : GLenum) (first : Int) (count : Nat)
  | glDepthFunc (func : GLenum)
deriving DecidableEq, Repr

/-- A shader object of the context. -/
structure ShaderObject where
  name : GLuint
  kind : GLenum
  source : String
  compiled : Bool
  infoLog : String
  deleteFlagged : Bool
deriving DecidableEq, Repr

/-- A program object of the context.  `executable` lists the stages (kind and
source) of the last successful link. -/
structure ProgramObject where
  name : GLuint
  attached : List GLuint
  linkStatus : Bool
  validateStatus : Bool
  executable : List (GLenum × String)
deriving DecidableEq, Repr

/-- What the driver decides: whether a source of a given stage kind compiles and
the diagnostic it writes, whether a set of compiled stages links and validates,
and the location of a uniform name in a linked executable. -/
structure Driver where
  compiles : GLenum → String → Bool
  infoLog : GLenum → String → String
  links : List (GLenum × String) → Bool
  validates : List (GLenum × String) → Bool
  uniformLocation : List (GLenum × String) → String → GLint

/-- The context state the program can observe, the error flags raised so far,
and the log of commands issued.  `nextName` is the next unused object name. -/
structure GLState where
  nextName : GLuint
  shaders : List ShaderObject
  programs : List ProgramObject
  errors : List GLenum
  calls : List GLCall
deriving DecidableEq, Repr

/-! ### Object tables -/

/-- The shader object with a given name, if any. -/
def shaderNamed : List ShaderObject → GLuint → Option ShaderObject
  | [], _ => none
  | o :: l, h => if o.name = h then some o else shaderNamed l h

/-- The program object with a given name, if any. -/
def programNamed : List ProgramObject → GLuint → Option ProgramObject
  | [], _ => none
  | o :: l, p => if o.name = p then some o else programNamed l p

/-- Change the shader object(s) with a given name. -/
def updateShaderNamed (f : ShaderObject → ShaderObject) : List ShaderObject → GLuint → List ShaderObject
  | [], _ => []
  | o :: l, h => (if o.name = h then f o else o) :: updateShaderNamed f l h

/-- Change the program object(s) with a given name. -/
def updateProgramNamed (f : ProgramObject → ProgramObject) :
    List ProgramObject → GLuint → List ProgramObject
  | [], _ => []
  | o :: l, p => (if o.name = p then f o else o) :: updateProgramNamed f l p

/-- Remove the shader object(s) with a given name. -/
def removeShaderNamed : List ShaderObject → GLuint → List ShaderObject
  | [], _ => []
  | o :: l, h => if o.name = h then removeShaderNamed l h else o :: removeShaderNamed l h

/-- Is shader `h` attached to some program object of the table? -/
def attachedSomewhere : List ProgramObject → GLuint → Bool
  | [], _ => false
  | p :: l, h => if h ∈ p.attached then true else attachedSomewhere l h

/-- The stages (kind, source) of the shader objects named in `attached`. -/
def stagesOf (shaders : List ShaderObject) : List GLuint → List (GLenum × String)
  | [] => []
  | h :: hs => match shaderNamed shaders h with
    | some o => (o.kind, o.source) :: stagesOf shaders hs
    | none => stagesOf shaders hs

/-- Are all shader objects named in `attached` compiled? -/
def allCompiled (shaders : List ShaderObject) : List GLuint → Bool
  | [] => true
  | h :: hs => match shaderNamed shaders h with
    | some o => o.compiled && allCompiled shaders hs
    | none => false

namespace GLState

/-- A fresh context. -/
def initial : GLState :=
  { nextName := 1, shaders := [], programs := [], errors := [], calls := [] }

def record (s : GLState) (c : GLCall) : GLState :=
  { s with calls := s.calls ++ [c] }

def raise (s : GLState) (e : GLenum) : GLState :=
  { s with errors := s.errors ++ [e] }

/-- Names of the shader objects that exist. -/
def shaderNames (s : GLState) : List GLuint := s.shaders.map (fun o => o.name)

/-- Names are handed out in increasing order and name 0 is never handed out:
every shader object has a non-zero name below `nextName`, and every program
object and every attachment refers to a name below `nextName`. -/
def WellFormed (s : GLState) : Prop :=
  0 < s.nextName ∧ (∀ o ∈ s.shaders, 0 < o.name ∧ o.name < s.nextName) ∧
    (∀ p ∈ s.programs, p.name < s.nextName ∧ ∀ h ∈ p.attached, h < s.nextName)

instance (s : GLState) : Decidable s.WellFormed := by
  unfold WellFormed; infer_instance

end GLState

/-! ### Driver commands on the context state -/

namespace GLCmd

/-- The command `glCreateProgram`: a new empty program object under a fresh name. -/
def createProgram (s : GLState) : GLuint × GLState :=
  (s.nextName,
    { s with
      nextName := s.nextName + 1
      programs := s.programs ++ [{ name := s.nextName, attached := [], linkStatus := false,
                                   validateStatus := false, executable := [] }]
      calls := s.calls ++ [.glCreateProgram s.nextName] })

/-- The command `glCreateShader`: a new empty shader object of the given kind
under a fresh name. -/
def createShader (kind : GLenum) (s : GLState) : GLuint × GLState :=
  (s.nextName,
    { s with
      nextName := s.nextName + 1
      shaders := s.shaders ++ [{ name := s.nextName, kind := kind, source := "", compiled := false,
                                 infoLog := "", deleteFlagged := false }]
      calls := s.calls ++ [.glCreateShader kind s.nextName] })

/-- The command `glShaderSource`: `INVALID_VALUE` when `shader` is not an object. -/
def shaderSource (shader : GLuint) (source : String) (s : GLState) : GLState :=
  let s1 := s.record (.glShaderSource shader source)
  match shaderNamed s.shaders shader with
  | some _ =>
    { s1 with shaders := updateShaderNamed (fun o => { o with source := source }) s.shaders shader }
  | none => s1.raise GL_INVALID_VALUE

/-- The command `glCompileShader`: the driver decides the compile status and the
info log from the kind and the source of the object. -/
def compileShader (d : Driver) (shader : GLuint) (s : GLState) : GLState :=
  let s1 := s.record (.glCompileShader shader)
  match shaderNamed s.shaders shader with
  | some _ =>
    let shaders := updateShaderNamed (fun o =>
      { o with compiled := d.compiles o.kind o.source, infoLog := d.infoLog o.kind o.source })
      s.shaders shader
    { s1 with shaders := shaders }
  | none => s1.raise GL_INVALID_VALUE

/-- The command `glGetShaderiv` for the two parameters the program asks for.
`none`: an error was raised and the output variable was not written.  The info
log length counts the terminating null, and is 0 when there is no info log. -/
def getShaderiv (shader : GLuint) (pname : GLenum) (s : GLState) : Option GLint × GLState :=
  let s1 := s.record (.glGetShaderiv shader pname)
  match shaderNamed s.shaders shader with
  | some o =>
    if pname = GL_COMPILE_STATUS then (some (if o.compiled then 1 else 0), s1)
    else if pname = GL_INFO_LOG_LENGTH then
      (some (if o.infoLog.data = [] then 0 else (o.infoLog.data.length : Int) + 1), s1)
    else (none, s1.raise GL_INVALID_ENUM)
  | none => (none, s1.raise GL_INVALID_VALUE)

/-- The command `glGetShaderInfoLog` on a buffer of `maxLength` characters: the
characters the driver wrote in front of the terminating null, i.e. at most
`maxLength - 1` characters of the info log.  `none`: the driver wrote nothing,
not even the terminating null, and the buffer is as it was allocated
(`maxLength = 0`; `INVALID_VALUE` for a negative `maxLength` or when `shader`
is not an object). -/
def getShaderInfoLog (shader : GLuint) (maxLength : Int) (s : GLState) :
    Option String × GLState :=
  let s1 := s.record (.glGetShaderInfoLog shader maxLength)
  match shaderNamed s.shaders shader with
  | some o =>
    if 0 < maxLength then (some (String.mk (o.infoLog.data.take (maxLength - 1).toNat)), s1)
    else if maxLength = 0 then (none, s1)
    else (none, s1.raise GL_INVALID_VALUE)
  | none => (none, s1.raise GL_INVALID_VALUE)

/-- The command `glDeleteShader`: name 0 is silently ignored; an object attached
to a program is only flagged for deletion; any other object is deleted. -/
def deleteShader (shader : GLuint) (s : GLState) : GLState :=
  let s1 := s.record (.glDeleteShader shader)
  if shader = 0 then s1
  else match shaderNamed s.shaders shader with
    | some _ =>
      if attachedSomewhere s.programs shader then
        let shaders := updateShaderNamed (fun o => { o with deleteFlagged := true }) s.shaders shader
        { s1 with shaders := shaders }
      else { s1 with shaders := removeShaderNamed s.shaders shader }
    | none => s1.raise GL_INVALID_VALUE

/-- The command `glAttachShader`: `INVALID_VALUE` when either name is not an
object (name 0 never is), `INVALID_OPERATION` when already attached. -/
def attachShader (program shader : GLuint) (s : GLState) : GLState :=
  let s1 := s.record (.glAttachShader program shader)
  match programNamed s.programs program, shaderNamed s.shaders shader with
  | some p, some _ =>
    if shader ∈ p.attached then s1.raise GL_INVALID_OPERATION
    else
      let programs := updateProgramNamed
        (fun o => { o with attached := o.attached ++ [shader] }) s.programs program
      { s1 with programs := programs }
  | _, _ => s1.raise GL_INVALID_VALUE

/-- The command `glLinkProgram`: the link fails when an attached shader is not
compiled; otherwise the driver decides from the attached stages.  A failed link
leaves no executable. -/
def linkProgram (d : Driver) (program : GLuint) (s : GLState) : GLState :=
  let s1 := s.record (.glLinkProgram program)
  match programNamed s.programs program with
  | some p =>
    let ok := allCompiled s.shaders p.attached && d.links (stagesOf s.shaders p.attached)
    let programs := updateProgramNamed (fun o =>
      { o with linkStatus := ok, validateStatus := false,
               executable := if ok then stagesOf s.shaders p.attached else [] })
      s.programs program
    { s1 with programs := programs }
  | none => s1.raise GL_INVALID_VALUE

/-- The command `glValidateProgram`. -/
def validateProgram (d : Driver) (program : GLuint) (s : GLState) : GLState :=
  let s1 := s.record (.glValidateProgram program)
  match programNamed s.programs program with
  | some _ =>
    let programs := updateProgramNamed (fun o =>
      { o with validateStatus := o.linkStatus && d.validates o.executable }) s.programs program
    { s1 with programs := programs }
  | none => s1.raise GL_INVALID_VALUE

/-- The command `glDetachShader`: `INVALID_VALUE` when either name is not an
object, `INVALID_OPERATION` when the shader is not attached to the program; a
shader flagged for deletion is deleted once it is attached nowhere. -/
def detachShader (program shader : GLuint) (s : GLState) : GLState :=
  let s1 := s.record (.glDetachShader program shader)
  match programNamed s.programs program, shaderNamed s.shaders shader with
  | some p, some o =>
    if shader ∈ p.attached then
      let programs := updateProgramNamed
        (fun q => { q with attached := q.attached.filter (fun h => h != shader) }) s.programs program
      if o.deleteFlagged && !attachedSomewhere programs shader then
        { s1 with programs := programs, shaders := removeShaderNamed s.shaders shader }
      else { s1 with programs := programs }
    else s1.raise GL_INVALID_OPERATION
  | _, _ => s1.raise GL_INVALID_VALUE

/-- The location the driver reports for a uniform name: -1 unless the program
object exists and its last link succeeded. -/
def uniformLocation (d : Driver) (s : GLState) (program : GLuint) (name : String) : GLint :=
  match programNamed s.programs program with
  | some p => if p.linkStatus then d.uniformLocation p.executable name else -1
  | none => -1

/-- The command `glGetUniformLocation`: `INVALID_VALUE` when the program is not an
object, `INVALID_OPERATION` when it has not been linked successfully. -/
def getUniformLocation (d : Driver) (program : GLuint) (name : String) (s : GLState) :
    GLint × GLState :=
  (uniformLocation d s program name,
    { s with
      calls := s.calls ++ [.glGetUniformLocation program name (uniformLocation d s program name)]
      errors := s.errors ++
        match programNamed s.programs program with
        | some p => if p.linkStatus then [] else [GL_INVALID_OPERATION]
        | none => [GL_INVALID_VALUE] })

/-- The commands `glGenTextures`, `glGenVertexArrays`, `glGenBuffers` with count 1:
a fresh name. -/
def genName (mk : GLuint → GLCall) (s : GLState) : GLuint × GLState :=
  (s.nextName, { s with nextName := s.nextName + 1, calls := s.calls ++ [mk s.nextName] })

end GLCmd

/-! ## The program state and the `Prog` monad -/

/-- The text a `const char*` stands for: the characters in front of the first
null character.  This is what `std::string::c_str()` hands to a driver command
that takes a null-terminated string, and what `operator<<` prints of a
character buffer. -/
def cString (s : String) : String :=
  String.mk (s.data.takeWhile (fun c => c != Char.ofNat 0))

/-- The globals of `main.cpp` (with their names). -/
structure Globals where
  gScreenWidth : Int
  gScreenHeight : Int
  gQuit : Bool
  gGraphicsPipelineShaderProgram : GLuint
  gSkyboxPipelineShaderProgram : GLuint
  gVertexArrayObjectFloor : GLuint
  gVertexArrayObjectSkybox : GLuint
  gVertexBufferObjectFloor : GLuint
  gVertexBufferObjectSkybox : GLuint
  gTexId : GLuint
  gCubeTexId : GLuint
  gCamera : Camera
  gFloorTriangles : Nat
  gOceanSize : CFloat
  num_of_waves : Int
  gPolygonMode : GLenum
deriving DecidableEq, Repr

/-- The state of the process: the GL context, standard output, the globals. -/
structure World where
  gl : GLState
  stdout : List String
  globals : Globals
deriving DecidableEq, Repr

/-- The globals as `main.cpp` initialises them; the camera is constructed by
the external `Camera` class. -/
def Globals.initial (camera : Camera) : Globals :=
  { gScreenWidth := 1920
    gScreenHeight := 1080
    gQuit := false
    gGraphicsPipelineShaderProgram := 0
    gSkyboxPipelineShaderProgram := 0
    gVertexArrayObjectFloor := 0
    gVertexArrayObjectSkybox := 0
    gVertexBufferObjectFloor := 0
    gVertexBufferObjectSkybox := 0
    gTexId := 0
    gCubeTexId := 0
    gCamera := camera
    gFloorTriangles := 0
    gOceanSize := 1500
    num_of_waves := 1
    gPolygonMode := GL_FILL }

/-- The process at start-up, with a fresh GL context. -/
def World.initial (camera : Camera) : World :=
  { gl := GLState.initial, stdout := [], globals := Globals.initial camera }

/-- How a call ends: it returns a value, the process is ended by `exit`, or an
indeterminate (uninitialised) value is read. -/
inductive Outcome (α : Type) where
  | returned (a : α) (w : World)
  | exited (code : Int) (w : World)
  | undefined (w : World)

def Prog (α : Type) : Type := World → Outcome α

namespace Prog

def ret {α : Type} (a : α) : Prog α := fun w => .returned a w

def andThen {α β : Type} (m : Prog α) (f : α → Prog β) : Prog β := fun w =>
  match m w with
  | .returned a w1 => f a w1
  | .exited c w1 => .exited c w1
  | .undefined w1 => .undefined w1

instance : Monad Prog where
  pure := ret
  bind := andThen

/-- The library call `exit(code)`. -/
def exit {α : Type} (code : Int) : Prog α := fun w => .exited code w

/-- Reading a variable that was never written. -/
def indeterminate {α : Type} : Prog α := fun w => .undefined w

/-- The statement `std::cout << text`. -/
def cout (text : String) : Prog Unit := fun w =>
  .returned () { w with stdout := w.stdout ++ [text] }

/-- The statement `std::cout << a << buffer << b` for a character buffer
(`char*`): the buffer is printed up to its first null character.  `none` is a
buffer that was never written: `a` is printed, then an indeterminate value is
read. -/
def coutBuffer (a : String) (buffer : Option String) (b : String) : Prog Unit := fun w =>
  match buffer with
  | some text => .returned () { w with stdout := w.stdout ++ [a ++ cString text ++ b] }
  | none => .undefined { w with stdout := w.stdout ++ [a] }

/-- A driver command with a result. -/
def gl {α : Type} (f : GLState → α × GLState) : Prog α := fun w =>
  match f w.gl with
  | (a, s) => .returned a { w with gl := s }

/-- A driver command without a result. -/
def glDo (f : GLState → GLState) : Prog Unit := fun w =>
  .returned () { w with gl := f w.gl }

/-- A driver command without a result and without an effect on the state the
program can observe: it is logged. -/
def glLog (c : GLCall) : Prog Unit := glDo (fun s => s.record c)

/-- Read the globals. -/
def get : Prog Globals := fun w => .returned w.globals w

/-- Write globals. -/
def modify (f : Globals → Globals) : Prog Unit := fun w =>
  .returned () { w with globals := f w.globals }

end Prog

open Prog

/-! ## `main.cpp` -/

/-- The function `CompileShader(type, source)` of `main.cpp`.  `shaderObject` is only
assigned for the four stage kinds; `result` is only written when
`glGetShaderiv` succeeds.  The driver is handed `source.c_str()`.
`errorMessages` is the buffer `new char[length]`, which holds what
`glGetShaderInfoLog` wrote into it: nothing when `length` is 0. -/
def CompileShader (d : Driver) (type : GLuint) (source : String) : Prog GLuint := do
  let shaderObject ←
    if type = GL_VERTEX_SHADER then gl (GLCmd.createShader GL_VERTEX_SHADER)
    else if type = GL_FRAGMENT_SHADER then gl (GLCmd.createShader GL_FRAGMENT_SHADER)
    else if type = GL_TESS_CONTROL_SHADER then gl (GLCmd.createShader GL_TESS_CONTROL_SHADER)
    else if type = GL_TESS_EVALUATION_SHADER then gl (GLCmd.createShader GL_TESS_EVALUATION_SHADER)
    else indeterminate
  let src := cString source
  glDo (GLCmd.shaderSource shaderObject src)
  glDo (GLCmd.compileShader d shaderObject)
  let some result ← gl (GLCmd.getShaderiv shaderObject GL_COMPILE_STATUS) | indeterminate
  if result = GL_FALSE then
    let some length ← gl (GLCmd.getShaderiv shaderObject GL_INFO_LOG_LENGTH) | indeterminate
    let errorMessages ← gl (GLCmd.getShaderInfoLog shaderObject length)
    if type = GL_VERTEX_SHADER then
      coutBuffer "ERROR: GL_VERTEX_SHADER compilation failed!\n" errorMessages "\n"
    else if type = GL_FRAGMENT_SHADER then
      coutBuffer "ERROR: GL_FRAGMENT_SHADER compilation failed!\n" errorMessages "\n"
    else if type = GL_TESS_CONTROL_SHADER then
      coutBuffer "ERROR: GL_TESS_CONTROL_SHADER compilation failed!\n" errorMessages "\n"
    else if type = GL_TESS_EVALUATION_SHADER then
      coutBuffer "ERROR: GL_TESS_EVALUATION_SHADER compilation failed!\n" errorMessages "\n"
    glDo (GLCmd.deleteShader shaderObject)
    return 0
  return shaderObject

/-- The function `CreateShaderProgramWithTessellation` of `main.cpp`. -/
def CreateShaderProgramWithTessellation (d : Driver)
    (vertexShaderSource fragmentShaderSource tessControlShaderSource
      tessEvalShaderSource : String) : Prog GLuint := do
  let programObject ← gl GLCmd.createProgram
  let myVertexShader ← CompileShader d GL_VERTEX_SHADER vertexShaderSource
  let myFragmentShader ← CompileShader d GL_FRAGMENT_SHADER fragmentShaderSource
  let myTessControlShader ← CompileShader d GL_TESS_CONTROL_SHADER tessControlShaderSource
  let myTessEvalShader ← CompileShader d GL_TESS_EVALUATION_SHADER tessEvalShaderSource
  glDo (GLCmd.attachShader programObject myVertexShader)
  glDo (GLCmd.attachShader programObject myFragmentShader)
  glDo (GLCmd.attachShader programObject myTessControlShader)
  glDo (GLCmd.attachShader programObject myTessEvalShader)
  glDo (GLCmd.linkProgram d programObject)
  glDo (GLCmd.validateProgram d programObject)
  glDo (GLCmd.detachShader programObject myVertexShader)
  glDo (GLCmd.detachShader programObject myFragmentShader)
  glDo (GLCmd.detachShader programObject myTessControlShader)
  glDo (GLCmd.detachShader programObject myTessEvalShader)
  glDo (GLCmd.deleteShader myVertexShader)
  glDo (GLCmd.deleteShader myFragmentShader)
  glDo (GLCmd.deleteShader myTessControlShader)
  glDo (GLCmd.deleteShader myTessEvalShader)
  return programObject

/-- The function `CreateShaderProgram` of `main.cpp`. -/
def CreateShaderProgram (d : Driver) (vertexShaderSource fragmentShaderSource : String) :
    Prog GLuint := do
  let programObject ← gl GLCmd.createProgram
  let myVertexShader ← CompileShader d GL_VERTEX_SHADER vertexShaderSource
  let myFragmentShader ← CompileShader d GL_FRAGMENT_SHADER fragmentShaderSource
  glDo (GLCmd.attachShader programObject myVertexShader)
  glDo (GLCmd.attachShader programObject myFragmentShader)
  glDo (GLCmd.linkProgram d programObject)
  glDo (GLCmd.validateProgram d programObject)
  glDo (GLCmd.detachShader programObject myVertexShader)
  glDo (GLCmd.detachShader programObject myFragmentShader)
  glDo (GLCmd.deleteShader myVertexShader)
  glDo (GLCmd.deleteShader myFragmentShader)
  return programObject

/-! ### `glm` -/

/-- A `glm::mat3`: three columns. -/
structure Mat3 where
  c0 : Vec3
  c1 : Vec3
  c2 : Vec3
deriving DecidableEq, Repr

/-- The matrix `glm::mat4(1.0f)`. -/
def Mat4.identity : Mat4 :=
  ⟨⟨1, 0, 0, 0⟩, ⟨0, 1, 0, 0⟩, ⟨0, 0, 1, 0⟩, ⟨0, 0, 0, 1⟩⟩

/-- The function `glm::translate(m, v)`: the last column becomes
`m[0] * v.x + m[1] * v.y + m[2] * v.z + m[3]`. -/
def Mat4.translate (m : Mat4) (v : Vec3) : Mat4 :=
  { m with c3 :=
      ⟨m.c0.x * v.x + m.c1.x * v.y + m.c2.x * v.z + m.c3.x,
       m.c0.y * v.x + m.c1.y * v.y + m.c2.y * v.z + m.c3.y,
       m.c0.z * v.x + m.c1.z * v.y + m.c2.z * v.z + m.c3.z,
       m.c0.w * v.x + m.c1.w * v.y + m.c2.w * v.z + m.c3.w⟩ }

/-- The conversion `glm::mat3(m)`: the upper-left 3x3 block. -/
def Mat3.ofMat4 (m : Mat4) : Mat3 :=
  ⟨⟨m.c0.x, m.c0.y, m.c0.z⟩, ⟨m.c1.x, m.c1.y, m.c1.z⟩, ⟨m.c2.x, m.c2.y, m.c2.z⟩⟩

/-- The conversion `glm::mat4(m)` of a 3x3 matrix: the block, completed by the
identity. -/
def Mat4.ofMat3 (m : Mat3) : Mat4 :=
  ⟨⟨m.c0.x, m.c0.y, m.c0.z, 0⟩, ⟨m.c1.x, m.c1.y, m.c1.z, 0⟩, ⟨m.c2.x, m.c2.y, m.c2.z, 0⟩,
   ⟨0, 0, 0, 1⟩⟩

/-! ### Cubemap and geometry -/

/-- The loop of `loadCubemap`: the faces from index `i` on.  `ppm` stands for the
constructor of the external `PPM` class (`PPM.hpp`): it gives the decoded
image of a path, with an empty `pixelData` when decoding fails.  The counter
`i` is a natural number: the 32-bit counter of the source does not wrap for
any list of fewer than 2^32 paths. -/
def loadCubemapFaces (ppm : String → PPM) : List String → Nat → Prog Unit
  | [], _ => pure ()
  | path :: rest, i => do
    let skyboxPPM := ppm path
    let skyboxPixelData := skyboxPPM.pixelData
    let height := skyboxPPM.height
    let width := skyboxPPM.width
    if skyboxPixelData.length ≠ 0 then
      glLog (.glTexImage2D (GL_TEXTURE_CUBE_MAP_POSITIVE_X + i) 0 GL_RGB width height 0 GL_RGB
        GL_UNSIGNED_BYTE skyboxPixelData)
    else
      cout ("Cubemap tex failed to load at path: " ++ path ++ "\n")
    loadCubemapFaces ppm rest (i + 1)

/-- The function `loadCubemap(faces)` of `main.cpp`. -/
def loadCubemap (ppm : String → PPM) (faces : List String) : Prog Unit := do
  let texture ← gl (GLCmd.genName .glGenTextures)
  modify (fun g => { g with gCubeTexId := texture })
  glLog (.glBindTexture GL_TEXTURE_CUBE_MAP texture)
  loadCubemapFaces ppm faces 0
  glLog (.glTexParameteri GL_TEXTURE_CUBE_MAP GL_TEXTURE_MIN_FILTER GL_LINEAR)
  glLog (.glTexParameteri GL_TEXTURE_CUBE_MAP GL_TEXTURE_MAG_FILTER GL_LINEAR)
  glLog (.glTexParameteri GL_TEXTURE_CUBE_MAP GL_TEXTURE_WRAP_S GL_CLAMP_TO_EDGE)
  glLog (.glTexParameteri GL_TEXTURE_CUBE_MAP GL_TEXTURE_WRAP_T GL_CLAMP_TO_EDGE)
  glLog (.glTexParameteri GL_TEXTURE_CUBE_MAP GL_TEXTURE_WRAP_R GL_CLAMP_TO_EDGE)

/-- The initialiser of `vertexDataQuad` in `VertexSpecification`. -/
def vertexDataQuad (gOceanSize : CFloat) : List CFloat :=
  [ -gOceanSize, 0, -gOceanSize,     -- Bottom-left vertex of quad
    -1, -1,                          -- texture
    0, 1, 0,                         -- normal
    gOceanSize, 0, -gOceanSize,      -- Bottom-right vertex
    1, -1,                           -- texture
    0, 1, 0,                         -- normal
    gOceanSize, 0, gOceanSize,       -- Top-right vertex
    1, 1,                            -- texture
    0, 1, 0,                         -- normal
    -gOceanSize, 0, gOceanSize,      -- Top-left vertex
    -1, 1,                           -- texture
    0, 1, 0 ]                        -- normal

/-- The initialiser of `vertexDataSkybox` in `VertexSpecification`. -/
def vertexDataSkybox : List CFloat :=
  [
        -1,  1, -1,
        -1, -1, -1,
        1, -1, -1,
        1, -1, -1,
        1,  1, -1,
        -1,  1, -1,

        -1, -1,  1,
        -1, -1, -1,
        -1,  1, -1,
        -1,  1, -1,
        -1,  1,  1,
        -1, -1,  1,

        1, -1, -1,
        1, -1,  1,
        1,  1,  1,
        1,  1,  1,
        1,  1, -1,
        1, -1, -1,

        -1, -1,  1,
        -1,  1,  1,
        1,  1,  1,
        1,  1,  1,
        1, -1,  1,
        -1, -1,  1,

        -1,  1, -1,
        1,  1, -1,
        1,  1,  1,
        1,  1,  1,
        -1,  1,  1,
        -1,  1, -1,

        -1, -1, -1,
        -1, -1,  1,
        1, -1, -1,
        1, -1, -1,
        -1, -1,  1,
        1, -1,  1 ]

/-- The initialiser of `faces` in `VertexSpecification`. -/
def faces : List String :=
  [ "./right.ppm",
    "./left.ppm",
    "./top.ppm",
    "./bottom.ppm",
    "./front.ppm",
    "./back.ppm" ]

/-- The function `VertexSpecification` of `main.cpp`. -/
def VertexSpecification (ppm : String → PPM) : Prog Unit := do
  let vaoFloor ← gl (GLCmd.genName .glGenVertexArrays)
  modify (fun g => { g with gVertexArrayObjectFloor := vaoFloor })
  glLog (.glBindVertexArray vaoFloor)
  let vboFloor ← gl (GLCmd.genName .glGenBuffers)
  modify (fun g => { g with gVertexBufferObjectFloor := vboFloor })
  let g ← get
  let vertexDataQuad := vertexDataQuad g.gOceanSize
  modify (fun g => { g with gFloorTriangles := vertexDataQuad.length })
  glLog (.glBindBuffer GL_ARRAY_BUFFER vboFloor)
  glLog (.glBufferData GL_ARRAY_BUFFER (vertexDataQuad.length * sizeof_GL_FLOAT) vertexDataQuad
    GL_STATIC_DRAW)
  -- Position information (x,y,z)
  glLog (.glEnableVertexAttribArray 0)
  glLog (.glVertexAttribPointer 0 3 GL_FLOAT GL_FALSE (sizeof_GL_FLOAT * 8) 0)
  -- Color information (s,t)
  glLog (.glEnableVertexAttribArray 1)
  glLog (.glVertexAttribPointer 1 3 GL_FLOAT GL_FALSE (sizeof_GL_FLOAT * 8) (sizeof_GL_FLOAT * 3))
  -- Normal information (nx,ny,nz)
  glLog (.glEnableVertexAttribArray 2)
  glLog (.glVertexAttribPointer 2 3 GL_FLOAT GL_FALSE (sizeof_GL_FLOAT * 8) (sizeof_GL_FLOAT * 5))
  glLog (.glBindVertexArray 0)
  glLog (.glDisableVertexAttribArray 0)
  glLog (.glDisableVertexAttribArray 1)
  glLog (.glDisableVertexAttribArray 2)
  let vaoSkybox ← gl (GLCmd.genName .glGenVertexArrays)
  modify (fun g => { g with gVertexArrayObjectSkybox := vaoSkybox })
  glLog (.glBindVertexArray vaoSkybox)
  let vboSkybox ← gl (GLCmd.genName .glGenBuffers)
  modify (fun g => { g with gVertexBufferObjectSkybox := vboSkybox })
  glLog (.glBindBuffer GL_ARRAY_BUFFER vboSkybox)
  glLog (.glBufferData GL_ARRAY_BUFFER (vertexDataSkybox.length * sizeof_GL_FLOAT) vertexDataSkybox
    GL_STATIC_DRAW)
  -- Position information (x,y,z)
  glLog (.glEnableVertexAttribArray 0)
  glLog (.glVertexAttribPointer 0 3 GL_FLOAT GL_FALSE (sizeof_GL_FLOAT * 3) 0)
  glLog (.glBindVertexArray 0)
  glLog (.glDisableVertexAttribArray 0)
  loadCubemap ppm faces

/-! ### The frame -/

/-- The function `PreDraw` of `main.cpp`.  `ticks` is the value of `SDL_GetTicks()`. -/
def PreDraw (d : Driver) (ticks : Nat) : Prog Unit := do
  let g ← get
  glLog (.glEnable GL_DEPTH_TEST)
  glLog (.glPolygonMode GL_FRONT_AND_BACK g.gPolygonMode)
  glLog (.glViewport 0 0 g.gScreenWidth g.gScreenHeight)
  glLog (.glClearColor 0.1 0.1 0.1 1.0)
  glLog (.glClear (GL_DEPTH_BUFFER_BIT ||| GL_COLOR_BUFFER_BIT))
  glLog (.glUseProgram g.gGraphicsPipelineShaderProgram)
  let model := Mat4.translate Mat4.identity ⟨0, 0, 0⟩
  glLog (.glPatchParameteri GL_PATCH_VERTICES 4)
  let u_ModelMatrixLocation ← gl (GLCmd.getUniformLocation d g.gGraphicsPipelineShaderProgram "u_ModelMatrix")
  if u_ModelMatrixLocation ≥ 0 then
    glLog (.glUniformMatrix4fv u_ModelMatrixLocation (.mat model))
  else do
    cout "Could not find u_ModelMatrix, maybe a mispelling?\n"
    exit EXIT_FAILURE
  let viewMatrix := g.gCamera.viewMatrix
  let u_ViewMatrixLocation ← gl (GLCmd.getUniformLocation d g.gGraphicsPipelineShaderProgram "u_ViewMatrix")
  if u_ViewMatrixLocation ≥ 0 then
    glLog (.glUniformMatrix4fv u_ViewMatrixLocation (.mat viewMatrix))
  else do
    cout "Could not find u_ViewMatrix, maybe a mispelling?\n"
    exit EXIT_FAILURE
  let perspective := MatValue.perspective 45 g.gScreenWidth g.gScreenHeight 0.1 2000
  let u_ProjectionLocation ← gl (GLCmd.getUniformLocation d g.gGraphicsPipelineShaderProgram "u_Projection")
  if u_ProjectionLocation ≥ 0 then
    glLog (.glUniformMatrix4fv u_ProjectionLocation perspective)
  else do
    cout "Could not find u_Projection, maybe a mispelling?\n"
    exit EXIT_FAILURE
  let u_SkyTextureSamplerLocation ← gl (GLCmd.getUniformLocation d g.gGraphicsPipelineShaderProgram "skybox")
  if u_SkyTextureSamplerLocation ≥ 0 then
    glLog (.glUniform1i u_SkyTextureSamplerLocation 0)
  else do
    cout "Could not find skybox, maybe a mispelling?\n"
    exit EXIT_FAILURE
  let cameraPos : Vec3 :=
    ⟨g.gCamera.eye.x + g.gCamera.viewDirection.x,
     g.gCamera.eye.y + g.gCamera.viewDirection.y,
     g.gCamera.eye.z + g.gCamera.viewDirection.z⟩
  let u_ViewPosition ← gl (GLCmd.getUniformLocation d g.gGraphicsPipelineShaderProgram "cameraPos")
  if u_ViewPosition ≥ 0 then
    glLog (.glUniform3fv u_ViewPosition cameraPos)
  else do
    cout "Could not find cameraPos, maybe a mispelling?\n"
    exit EXIT_FAILURE
  let u_GerstnerWavesLengthLocation ← gl (GLCmd.getUniformLocation d g.gGraphicsPipelineShaderProgram "num_of_waves")
  if u_GerstnerWavesLengthLocation ≥ 0 then
    glLog (.glUniform1ui u_GerstnerWavesLengthLocation (g.num_of_waves % 4294967296))
  else do
    cout "Could not find num_of_waves, maybe a mispelling?\n"
    exit EXIT_FAILURE
  let u_GerstnerWaveTimeLocation ← gl (GLCmd.getUniformLocation d g.gGraphicsPipelineShaderProgram "time")
  if u_GerstnerWaveTimeLocation ≥ 0 then
    glLog (.glUniform1f u_GerstnerWaveTimeLocation (.lit ((ticks : ℚ) / 1000)))
  else do
    cout "Could not find time, maybe a mispelling?\n"
    exit EXIT_FAILURE
  -- Wave 0
  let u_GerstnerWaveDirectionLocation ← gl (GLCmd.getUniformLocation d g.gGraphicsPipelineShaderProgram "gerstner_waves[0].direction")
  if u_GerstnerWaveDirectionLocation ≥ 0 then
    glLog (.glUniform2f u_GerstnerWaveDirectionLocation (.sin 0.32) (.cos 0.32))
  else do
    cout "Could not find gerstner_waves[0].direction, maybe a mispelling?\n"
    exit EXIT_FAILURE
  let u_GerstnerWaveAmplitudeLocation ← gl (GLCmd.getUniformLocation d g.gGraphicsPipelineShaderProgram "gerstner_waves[0].amplitude")
  if u_GerstnerWaveAmplitudeLocation ≥ 0 then
    glLog (.glUniform1f u_GerstnerWaveAmplitudeLocation (.lit 1.64))
  else do
    cout "Could not find gerstner_waves[0].amplitude, maybe a mispelling?\n"
    exit EXIT_FAILURE
  let u_GerstnerWaveSteepnessLocation ← gl (GLCmd.getUniformLocation d g.gGraphicsPipelineShaderProgram "gerstner_waves[0].steepness")
  if u_GerstnerWaveSteepnessLocation ≥ 0 then
    glLog (.glUniform1f u_GerstnerWaveSteepnessLocation (.lit 1.64))
  else do
    cout "Could not find gerstner_waves[0].steepness, maybe a mispelling?\n"
    exit EXIT_FAILURE
  let u_GerstnerWaveFrequencyLocation ← gl (GLCmd.getUniformLocation d g.gGraphicsPipelineShaderProgram "gerstner_waves[0].frequency")
  if u_GerstnerWaveFrequencyLocation ≥ 0 then
    glLog (.glUniform1f u_GerstnerWaveFrequencyLocation (.lit 3.0))
  else do
    cout "Could not find gerstner_waves[0].frequency, maybe a mispelling?\n"
    exit EXIT_FAILURE
  let u_GerstnerWaveSpeedLocation ← gl (GLCmd.getUniformLocation d g.gGraphicsPipelineShaderProgram "gerstner_waves[0].speed")
  if u_GerstnerWaveSpeedLocation ≥ 0 then
    glLog (.glUniform1f u_GerstnerWaveSpeedLocation (.lit 2.0))
  else do
    cout "Could not find gerstner_waves[0].speed, maybe a mispelling?\n"
    exit EXIT_FAILURE
  -- Wave 1
  let u_GerstnerWaveDirectionLocation1 ← gl (GLCmd.getUniformLocation d g.gGraphicsPipelineShaderProgram "gerstner_waves[1].direction")
  if u_GerstnerWaveDirectionLocation1 ≥ 0 then
    glLog (.glUniform2f u_GerstnerWaveDirectionLocation1 (.sin 0.75) (.cos 0.25))
  else do
    cout "Could not find gerstner_waves[1].direction, maybe a mispelling?\n"
    exit EXIT_FAILURE
  let u_GerstnerWaveAmplitudeLocation1 ← gl (GLCmd.getUniformLocation d g.gGraphicsPipelineShaderProgram "gerstner_waves[1].amplitude")
  if u_GerstnerWaveAmplitudeLocation1 ≥ 0 then
    glLog (.glUniform1f u_GerstnerWaveAmplitudeLocation1 (.lit 2.5))
  else do
    cout "Could not find gerstner_waves[1].amplitude, maybe a mispelling?\n"
    exit EXIT_FAILURE
  let u_GerstnerWaveSteepnessLocation1 ← gl (GLCmd.getUniformLocation d g.gGraphicsPipelineShaderProgram "gerstner_waves[1].steepness")
  if u_GerstnerWaveSteepnessLocation1 ≥ 0 then
    glLog (.glUniform1f u_GerstnerWaveSteepnessLocation1 (.lit 0.5))
  else do
    cout "Could not find gerstner_waves[1].steepness, maybe a mispelling?\n"
    exit EXIT_FAILURE
  let u_GerstnerWaveFrequencyLocation1 ← gl (GLCmd.getUniformLocation d g.gGraphicsPipelineShaderProgram "gerstner_waves[1].frequency")
  if u_GerstnerWaveFrequencyLocation1 ≥ 0 then
    glLog (.glUniform1f u_GerstnerWaveFrequencyLocation1 (.lit 1.0))
  else do
    cout "Could not find gerstner_waves[1].frequency, maybe a mispelling?\n"
    exit EXIT_FAILURE
  let u_GerstnerWaveSpeedLocation1 ← gl (GLCmd.getUniformLocation d g.gGraphicsPipelineShaderProgram "gerstner_waves[1].speed")
  if u_GerstnerWaveSpeedLocation1 ≥ 0 then
    glLog (.glUniform1f u_GerstnerWaveSpeedLocation1 (.lit 0.3))
  else do
    cout "Could not find gerstner_waves[1].speed, maybe a mispelling?\n"
    exit EXIT_FAILURE
  -- Wave 2
  let u_GerstnerWaveDirectionLocation2 ← gl (GLCmd.getUniformLocation d g.gGraphicsPipelineShaderProgram "gerstner_waves[2].direction")
  if u_GerstnerWaveDirectionLocation2 ≥ 0 then
    glLog (.glUniform2f u_GerstnerWaveDirectionLocation2 (.sin 1.0) (.cos 1.0))
  else do
    cout "Could not find gerstner_waves[2].direction, maybe a mispelling?\n"
    exit EXIT_FAILURE
  let u_GerstnerWaveAmplitudeLocation2 ← gl (GLCmd.getUniformLocation d g.gGraphicsPipelineShaderProgram "gerstner_waves[2].amplitude")
  if u_GerstnerWaveAmplitudeLocation2 ≥ 0 then
    glLog (.glUniform1f u_GerstnerWaveAmplitudeLocation2 (.lit 1.25))
  else do
    cout "Could not find gerstner_waves[2].amplitude, maybe a mispelling?\n"
    exit EXIT_FAILURE
  let u_GerstnerWaveSteepnessLocation2 ← gl (GLCmd.getUniformLocation d g.gGraphicsPipelineShaderProgram "gerstner_waves[2].steepness")
  if u_GerstnerWaveSteepnessLocation2 ≥ 0 then
    glLog (.glUniform1f u_GerstnerWaveSteepnessLocation2 (.lit 1.3))
  else do
    cout "Could not find gerstner_waves[2].steepness, maybe a mispelling?\n"
    exit EXIT_FAILURE
  let u_GerstnerWaveFrequencyLocation2 ← gl (GLCmd.getUniformLocation d g.gGraphicsPipelineShaderProgram "gerstner_waves[2].frequency")
  if u_GerstnerWaveFrequencyLocation2 ≥ 0 then
    glLog (.glUniform1f u_GerstnerWaveFrequencyLocation2 (.lit 4.0))
  else do
    cout "Could not find gerstner_waves[2].frequency, maybe a mispelling?\n"
    exit EXIT_FAILURE
  let u_GerstnerWaveSpeedLocation2 ← gl (GLCmd.getUniformLocation d g.gGraphicsPipelineShaderProgram "gerstner_waves[2].speed")
  if u_GerstnerWaveSpeedLocation2 ≥ 0 then
    glLog (.glUniform1f u_GerstnerWaveSpeedLocation2 (.lit 4.0))
  else do
    cout "Could not find gerstner_waves[2].speed, maybe a mispelling?\n"
    exit EXIT_FAILURE
  -- Wave 3
  let u_GerstnerWaveDirectionLocation3 ← gl (GLCmd.getUniformLocation d g.gGraphicsPipelineShaderProgram "gerstner_waves[3].direction")
  if u_GerstnerWaveDirectionLocation3 ≥ 0 then
    glLog (.glUniform2f u_GerstnerWaveDirectionLocation3 (.sin 0.5) (.cos 0.5))
  else do
    cout "Could not find gerstner_waves[3].direction, maybe a mispelling?\n"
    exit EXIT_FAILURE
  let u_GerstnerWaveAmplitudeLocation3 ← gl (GLCmd.getUniformLocation d g.gGraphicsPipelineShaderProgram "gerstner_waves[3].amplitude")
  if u_GerstnerWaveAmplitudeLocation3 ≥ 0 then
    glLog (.glUniform1f u_GerstnerWaveAmplitudeLocation3 (.lit 6.0))
  else do
    cout "Could not find gerstner_waves[3].amplitude, maybe a mispelling?\n"
    exit EXIT_FAILURE
  let u_GerstnerWaveSteepnessLocation3 ← gl (GLCmd.getUniformLocation d g.gGraphicsPipelineShaderProgram "gerstner_waves[3].steepness")
  if u_GerstnerWaveSteepnessLocation3 ≥ 0 then
    glLog (.glUniform1f u_GerstnerWaveSteepnessLocation3 (.lit 2.5))
  else do
    cout "Could not find gerstner_waves[3].steepness, maybe a mispelling?\n"
    exit EXIT_FAILURE
  let u_GerstnerWaveFrequencyLocation3 ← gl (GLCmd.getUniformLocation d g.gGraphicsPipelineShaderProgram "gerstner_waves[3].frequency")
  if u_GerstnerWaveFrequencyLocation3 ≥ 0 then
    glLog (.glUniform1f u_GerstnerWaveFrequencyLocation3 (.lit 2.0))
  else do
    cout "Could not find gerstner_waves[3].frequency, maybe a mispelling?\n"
    exit EXIT_FAILURE
  let u_GerstnerWaveSpeedLocation3 ← gl (GLCmd.getUniformLocation d g.gGraphicsPipelineShaderProgram "gerstner_waves[3].speed")
  if u_GerstnerWaveSpeedLocation3 ≥ 0 then
    glLog (.glUniform1f u_GerstnerWaveSpeedLocation3 (.lit 1.0))
  else do
    cout "Could not find gerstner_waves[3].speed, maybe a mispelling?\n"
    exit EXIT_FAILURE
  glLog (.glUseProgram g.gSkyboxPipelineShaderProgram)
  let skyboxViewMatrix := Mat4.ofMat3 (Mat3.ofMat4 g.gCamera.viewMatrix)
  let u_SkyboxViewMatrixLocation ← gl (GLCmd.getUniformLocation d g.gSkyboxPipelineShaderProgram "view")
  if u_SkyboxViewMatrixLocation ≥ 0 then
    glLog (.glUniformMatrix4fv u_SkyboxViewMatrixLocation (.mat skyboxViewMatrix))
  else do
    cout "Could not find view, maybe a mispelling?\n"
    exit EXIT_FAILURE
  let u_SkyboxProjectionLocation ← gl (GLCmd.getUniformLocation d g.gSkyboxPipelineShaderProgram "projection")
  if u_SkyboxProjectionLocation ≥ 0 then
    glLog (.glUniformMatrix4fv u_SkyboxProjectionLocation perspective)
  else do
    cout "Could not find projection, maybe a mispelling?\n"
    exit EXIT_FAILURE
  let u_SkyboxTextureSamplerLocation ← gl (GLCmd.getUniformLocation d g.gSkyboxPipelineShaderProgram "skybox")
  if u_SkyboxTextureSamplerLocation ≥ 0 then
    glLog (.glUniform1i u_SkyboxTextureSamplerLocation 0)
  else do
    cout "Could not find skybox, maybe a mispelling?\n"
    exit EXIT_FAILURE

/-- The function `Draw` of `main.cpp`. -/
def Draw : Prog Unit := do
  let g ← get
  glLog (.glUseProgram g.gGraphicsPipelineShaderProgram)
  glLog (.glBindVertexArray g.gVertexArrayObjectFloor)
  glLog (.glActiveTexture GL_TEXTURE0)
  glLog (.glBindTexture GL_TEXTURE_CUBE_MAP g.gCubeTexId)
  glLog (.glDrawArrays GL_PATCHES 0 g.gFloorTriangles)
  -- draw skybox as last
  glLog (.glDepthFunc GL_LEQUAL)
  glLog (.glUseProgram g.gSkyboxPipelineShaderProgram)
  glLog (.glBindVertexArray g.gVertexArrayObjectSkybox)
  glLog (.glActiveTexture GL_TEXTURE0)
  glLog (.glBindTexture GL_TEXTURE_CUBE_MAP g.gCubeTexId)
  glLog (.glDrawArrays GL_TRIANGLES 0 36)
  glLog (.glBindVertexArray 0)
  glLog (.glDepthFunc GL_LESS)
  glLog (.glUseProgram 0)

/-! ## Closed forms used in the proofs -/

/-- The four stage kinds `CompileShader` knows. -/
def stageKinds : List GLenum :=
  [GL_VERTEX_SHADER, GL_FRAGMENT_SHADER, GL_TESS_CONTROL_SHADER, GL_TESS_EVALUATION_SHADER]

/-- The name of a stage kind, as the diagnostics print it. -/
def stageTag (kind : GLenum) : String :=
  if kind = GL_VERTEX_SHADER then "GL_VERTEX_SHADER"
  else if kind = GL_FRAGMENT_SHADER then "GL_FRAGMENT_SHADER"
  else if kind = GL_TESS_CONTROL_SHADER then "GL_TESS_CONTROL_SHADER"
  else if kind = GL_TESS_EVALUATION_SHADER then "GL_TESS_EVALUATION_SHADER"
  else ""

/-- The diagnostic expected for a failed compile of the source the driver was
handed: the driver's info log (as a null-terminated string), tagged with the
stage kind. -/
def compileDiagnostic (d : Driver) (kind : GLenum) (source : String) : String :=
  "ERROR: " ++ stageTag kind ++ " compilation failed!\n" ++ cString (d.infoLog kind source) ++ "\n"

/-- The driver leaves an info log for the stage (kind, source handed to the
driver) when it does not compile it: the reported info log length is then not
0 and the buffer `CompileShader` prints has been written. -/
def DiagnosesFailure (d : Driver) (stage : GLenum × String) : Prop :=
  d.compiles stage.1 stage.2 = false → (d.infoLog stage.1 stage.2).data ≠ []

instance (d : Driver) (stage : GLenum × String) : Decidable (DiagnosesFailure d stage) := by
  unfold DiagnosesFailure; infer_instance

/-- The info log length the driver reports for a source. -/
def infoLogLength (d : Driver) (kind : GLenum) (source : String) : GLint :=
  if (d.infoLog kind source).data = [] then 0 else ((d.infoLog kind source).data.length : Int) + 1

/-- The commands one `CompileShader` call issues when the new object is named `n`
and the driver is handed `source`. -/
def compileCalls (d : Driver) (kind : GLenum) (source : String) (n : GLuint) : List GLCall :=
  [.glCreateShader kind n, .glShaderSource n source, .glCompileShader n,
   .glGetShaderiv n GL_COMPILE_STATUS] ++
  if d.compiles kind source then []
  else [.glGetShaderiv n GL_INFO_LOG_LENGTH, .glGetShaderInfoLog n (infoLogLength d kind source),
        .glDeleteShader n]

/-- The handle `CompileShader` returns when the new object is named `n`. -/
def stageHandle (d : Driver) (kind : GLenum) (source : String) (n : GLuint) : GLuint :=
  if d.compiles kind source then n else 0

/-- The shader object a successful `CompileShader` leaves behind. -/
def compiledObject (d : Driver) (kind : GLenum) (source : String) (n : GLuint) : ShaderObject :=
  { name := n, kind := kind, source := source, compiled := true,
    infoLog := d.infoLog kind source, deleteFlagged := false }

/-- The context after one `CompileShader` call. -/
def afterCompileGL (d : Driver) (kind : GLenum) (source : String) (s : GLState) : GLState :=
  { s with
    nextName := s.nextName + 1
    shaders := if d.compiles kind source then
        s.shaders ++ [compiledObject d kind source s.nextName]
      else s.shaders
    calls := s.calls ++ compileCalls d kind source s.nextName }

/-- What one `CompileShader` call prints. -/
def compileOutput (d : Driver) (kind : GLenum) (source : String) : List String :=
  if d.compiles kind source then [] else [compileDiagnostic d kind source]

/-- The world after one `CompileShader` call. -/
def afterCompile (d : Driver) (kind : GLenum) (source : String) (w : World) : World :=
  { w with gl := afterCompileGL d kind source w.gl
           stdout := w.stdout ++ compileOutput d kind source }

/-- The world after `glCreateProgram`. -/
def afterCreateProgram (w : World) : World :=
  { w with gl := (GLCmd.createProgram w.gl).2 }

/-- The handles the `CompileShader` calls for `stages` return when names start at `n`. -/
def stageHandles (d : Driver) : List (GLenum × String) → GLuint → List GLuint
  | [], _ => []
  | (kind, source) :: rest, n => stageHandle d kind source n :: stageHandles d rest (n + 1)

/-- The commands the `CompileShader` calls for `stages` issue when names start at `n`. -/
def stageCompileCalls (d : Driver) : List (GLenum × String) → GLuint → List GLCall
  | [], _ => []
  | (kind, source) :: rest, n => compileCalls d kind source n ++ stageCompileCalls d rest (n + 1)

/-- The stages that compile. -/
def compiledStages (d : Driver) : List (GLenum × String) → List (GLenum × String)
  | [] => []
  | (kind, source) :: rest =>
    if d.compiles kind source then (kind, source) :: compiledStages d rest else compiledStages d rest

/-- The diagnostics printed for the stages that do not compile. -/
def stageDiagnostics (d : Driver) : List (GLenum × String) → List String
  | [] => []
  | (kind, source) :: rest =>
    if d.compiles kind source then stageDiagnostics d rest
    else compileDiagnostic d kind source :: stageDiagnostics d rest

/-- One `INVALID_VALUE` for each stage that does not compile (its handle is 0). -/
def zeroHandleErrors (d : Driver) : List (GLenum × String) → List GLenum
  | [] => []
  | (kind, source) :: rest =>
    if d.compiles kind source then zeroHandleErrors d rest
    else GL_INVALID_VALUE :: zeroHandleErrors d rest

/-- The program object a build leaves behind: nothing attached, linked from the
stages that compiled. -/
def builtProgram (d : Driver) (stages : List (GLenum × String)) (n : GLuint) : ProgramObject :=
  { name := n, attached := [],
    linkStatus := d.links (compiledStages d stages),
    validateStatus := d.links (compiledStages d stages) &&
      d.validates (if d.links (compiledStages d stages) then compiledStages d stages else []),
    executable := if d.links (compiledStages d stages) then compiledStages d stages else [] }

/-- The commands a build issues, in order, when names start at `n`. -/
def buildCalls (d : Driver) (stages : List (GLenum × String)) (n : GLuint) : List GLCall :=
  [.glCreateProgram n] ++ stageCompileCalls d stages (n + 1) ++
  (stageHandles d stages (n + 1)).map (.glAttachShader n) ++
  [.glLinkProgram n, .glValidateProgram n] ++
  (stageHandles d stages (n + 1)).map (.glDetachShader n) ++
  (stageHandles d stages (n + 1)).map .glDeleteShader

/-- The world after `CreateShaderProgramWithTessellation` or `CreateShaderProgram`
was run on the given stages. -/
def afterBuild (d : Driver) (stages : List (GLenum × String)) (w : World) : World :=
  { w with
    gl := { nextName := w.gl.nextName + 1 + stages.length
            shaders := w.gl.shaders
            programs := w.gl.programs ++ [builtProgram d stages w.gl.nextName]
            errors := w.gl.errors ++ zeroHandleErrors d stages ++ zeroHandleErrors d stages
            calls := w.gl.calls ++ buildCalls d stages w.gl.nextName }
    stdout := w.stdout ++ stageDiagnostics d stages }

/-- The stages of the ocean pipeline as the driver is handed them: the kind and
the source text up to its first null character. -/
def tessellationStages (vertexShaderSource fragmentShaderSource tessControlShaderSource
    tessEvalShaderSource : String) : List (GLenum × String) :=
  [(GL_VERTEX_SHADER, cString vertexShaderSource),
   (GL_FRAGMENT_SHADER, cString fragmentShaderSource),
   (GL_TESS_CONTROL_SHADER, cString tessControlShaderSource),
   (GL_TESS_EVALUATION_SHADER, cString tessEvalShaderSource)]

/-- The stages of the skybox pipeline as the driver is handed them. -/
def simpleStages (vertexShaderSource fragmentShaderSource : String) : List (GLenum × String) :=
  [(GL_VERTEX_SHADER, cString vertexShaderSource),
   (GL_FRAGMENT_SHADER, cString fragmentShaderSource)]


/-! ## Reading the command log -/

/-- The shader handle of a `glAttachShader` command on program `p`. -/
def attachedHandle? (p : GLuint) : GLCall → Option GLuint
  | .glAttachShader q h => if q = p then some h else none
  | _ => none

/-- The handles passed to `glAttachShader` on program `p`, in order. -/
def attachedHandles (p : GLuint) (calls : List GLCall) : List GLuint :=
  calls.filterMap (attachedHandle? p)


/-! ## `PreDraw` as a table of uniform bindings -/

/-- One lookup-and-set block of `PreDraw`: the program and the name looked up,
and the command issued with the location when it is not negative. -/
structure UniformBinding where
  program : GLuint
  name : String
  set : GLint → GLCall

/-- One block of `PreDraw`. -/
def bindUniform (d : Driver) (b : UniformBinding) : Prog Unit := do
  let location ← gl (GLCmd.getUniformLocation d b.program b.name)
  if location ≥ 0 then
    glLog (b.set location)
  else do
    cout ("Could not find " ++ b.name ++ ", maybe a mispelling?\n")
    exit EXIT_FAILURE

/-- Blocks of `PreDraw`, one after the other. -/
def bindUniforms (d : Driver) : List UniformBinding → Prog Unit
  | [] => pure ()
  | b :: rest => do
    bindUniform d b
    bindUniforms d rest

/-- The blocks of `PreDraw` on the ocean program, in source order. -/
def oceanBindings (g : Globals) (ticks : Nat) : List UniformBinding :=
  [ ⟨g.gGraphicsPipelineShaderProgram, "u_ModelMatrix", fun l => .glUniformMatrix4fv l (.mat (Mat4.translate Mat4.identity ⟨0, 0, 0⟩))⟩,
    ⟨g.gGraphicsPipelineShaderProgram, "u_ViewMatrix", fun l => .glUniformMatrix4fv l (.mat g.gCamera.viewMatrix)⟩,
    ⟨g.gGraphicsPipelineShaderProgram, "u_Projection", fun l => .glUniformMatrix4fv l (.perspective 45 g.gScreenWidth g.gScreenHeight 0.1 2000)⟩,
    ⟨g.gGraphicsPipelineShaderProgram, "skybox", fun l => .glUniform1i l 0⟩,
    ⟨g.gGraphicsPipelineShaderProgram, "cameraPos", fun l => .glUniform3fv l
      ⟨g.gCamera.eye.x + g.gCamera.viewDirection.x, g.gCamera.eye.y + g.gCamera.viewDirection.y,
       g.gCamera.eye.z + g.gCamera.viewDirection.z⟩⟩,
    ⟨g.gGraphicsPipelineShaderProgram, "num_of_waves", fun l => .glUniform1ui l (g.num_of_waves % 4294967296)⟩,
    ⟨g.gGraphicsPipelineShaderProgram, "time", fun l => .glUniform1f l (.lit ((ticks : ℚ) / 1000))⟩,
    ⟨g.gGraphicsPipelineShaderProgram, "gerstner_waves[0].direction", fun l => .glUniform2f l (.sin 0.32) (.cos 0.32)⟩,
    ⟨g.gGraphicsPipelineShaderProgram, "gerstner_waves[0].amplitude", fun l => .glUniform1f l (.lit 1.64)⟩,
    ⟨g.gGraphicsPipelineShaderProgram, "gerstner_waves[0].steepness", fun l => .glUniform1f l (.lit 1.64)⟩,
    ⟨g.gGraphicsPipelineShaderProgram, "gerstner_waves[0].frequency", fun l => .glUniform1f l (.lit 3.0)⟩,
    ⟨g.gGraphicsPipelineShaderProgram, "gerstner_waves[0].speed", fun l => .glUniform1f l (.lit 2.0)⟩,
    ⟨g.gGraphicsPipelineShaderProgram, "gerstner_waves[1].direction", fun l => .glUniform2f l (.sin 0.75) (.cos 0.25)⟩,
    ⟨g.gGraphicsPipelineShaderProgram, "gerstner_waves[1].amplitude", fun l => .glUniform1f l (.lit 2.5)⟩,
    ⟨g.gGraphicsPipelineShaderProgram, "gerstner_waves[1].steepness", fun l => .glUniform1f l (.lit 0.5)⟩,
    ⟨g.gGraphicsPipelineShaderProgram, "gerstner_waves[1].frequency", fun l => .glUniform1f l (.lit 1.0)⟩,
    ⟨g.gGraphicsPipelineShaderProgram, "gerstner_waves[1].speed", fun l => .glUniform1f l (.lit 0.3)⟩,
    ⟨g.gGraphicsPipelineShaderProgram, "gerstner_waves[2].direction", fun l => .glUniform2f l (.sin 1.0) (.cos 1.0)⟩,
    ⟨g.gGraphicsPipelineShaderProgram, "gerstner_waves[2].amplitude", fun l => .glUniform1f l (.lit 1.25)⟩,
    ⟨g.gGraphicsPipelineShaderProgram, "gerstner_waves[2].steepness", fun l => .glUniform1f l (.lit 1.3)⟩,
    ⟨g.gGraphicsPipelineShaderProgram, "gerstner_waves[2].frequency", fun l => .glUniform1f l (.lit 4.0)⟩,
    ⟨g.gGraphicsPipelineShaderProgram, "gerstner_waves[2].speed", fun l => .glUniform1f l (.lit 4.0)⟩,
    ⟨g.gGraphicsPipelineShaderProgram, "gerstner_waves[3].direction", fun l => .glUniform2f l (.sin 0.5) (.cos 0.5)⟩,
    ⟨g.gGraphicsPipelineShaderProgram, "gerstner_waves[3].amplitude", fun l => .glUniform1f l (.lit 6.0)⟩,
    ⟨g.gGraphicsPipelineShaderProgram, "gerstner_waves[3].steepness", fun l => .glUniform1f l (.lit 2.5)⟩,
    ⟨g.gGraphicsPipelineShaderProgram, "gerstner_waves[3].frequency", fun l => .glUniform1f l (.lit 2.0)⟩,
    ⟨g.gGraphicsPipelineShaderProgram, "gerstner_waves[3].speed", fun l => .glUniform1f l (.lit 1.0)⟩ ]

/-- The blocks of `PreDraw` on the skybox program, in source order. -/
def skyboxBindings (g : Globals) : List UniformBinding :=
  [ ⟨g.gSkyboxPipelineShaderProgram, "view", fun l => .glUniformMatrix4fv l (.mat (Mat4.ofMat3 (Mat3.ofMat4 g.gCamera.viewMatrix)))⟩,
    ⟨g.gSkyboxPipelineShaderProgram, "projection", fun l => .glUniformMatrix4fv l (.perspective 45 g.gScreenWidth g.gScreenHeight 0.1 2000)⟩,
    ⟨g.gSkyboxPipelineShaderProgram, "skybox", fun l => .glUniform1i l 0⟩ ]

/-- The commands `PreDraw` issues before its first lookup. -/
def preDrawPrelude (g : Globals) : List GLCall :=
  [ .glEnable GL_DEPTH_TEST,
    .glPolygonMode GL_FRONT_AND_BACK g.gPolygonMode,
    .glViewport 0 0 g.gScreenWidth g.gScreenHeight,
    .glClearColor 0.1 0.1 0.1 1.0,
    .glClear (GL_DEPTH_BUFFER_BIT ||| GL_COLOR_BUFFER_BIT),
    .glUseProgram g.gGraphicsPipelineShaderProgram,
    .glPatchParameteri GL_PATCH_VERTICES 4 ]

/-- The (program, name) pair of a `glGetUniformLocation` command. -/
def uniformLookup? : GLCall → Option (GLuint × String)
  | .glGetUniformLocation p name _ => some (p, name)
  | _ => none

/-- The location of a `glUniform*` command. -/
def uniformSet? : GLCall → Option GLint
  | .glUniformMatrix4fv l _ => some l
  | .glUniform1i l _ => some l
  | .glUniform1ui l _ => some l
  | .glUniform1f l _ => some l
  | .glUniform2f l _ _ => some l
  | .glUniform3fv l _ => some l
  | _ => none

/-- The uniform lookups of a command log, in order. -/
def uniformLookups (calls : List GLCall) : List (GLuint × String) :=
  calls.filterMap uniformLookup?

/-- The locations set by the `glUniform*` commands of a command log, in order. -/
def uniformSets (calls : List GLCall) : List GLint :=
  calls.filterMap uniformSet?

/-- The commands the blocks issue while every lookup succeeds. -/
def bindingCalls (d : Driver) (s : GLState) : List UniformBinding → List GLCall
  | [] => []
  | b :: rest =>
    .glGetUniformLocation b.program b.name (GLCmd.uniformLocation d s b.program b.name) ::
      b.set (GLCmd.uniformLocation d s b.program b.name) :: bindingCalls d s rest

/-- A binding whose command is a `glUniform*` at the location it is given. -/
def SetsUniform (b : UniformBinding) : Prop :=
  ∀ l, uniformLookup? (b.set l) = none ∧ uniformSet? (b.set l) = some l

/-- The world after a command that is only logged. -/
def World.log (w : World) (c : GLCall) : World :=
  { w with gl := { w.gl with calls := w.gl.calls ++ [c] } }

/-- The world in which `PreDraw` makes its first lookup. -/
def afterPrelude (w : World) : World :=
  { w with gl := { w.gl with calls := w.gl.calls ++ preDrawPrelude w.globals } }

/-! ## Closed forms and log readers for geometry and cubemap -/

/-- The `glTexImage2D` commands the loop of `loadCubemap` issues from index `i` on. -/
def faceUploads (ppm : String → PPM) : List String → Nat → List GLCall
  | [], _ => []
  | path :: rest, i =>
    (if (ppm path).pixelData.length ≠ 0 then
      [.glTexImage2D (GL_TEXTURE_CUBE_MAP_POSITIVE_X + i) 0 GL_RGB (ppm path).width
        (ppm path).height 0 GL_RGB GL_UNSIGNED_BYTE (ppm path).pixelData]
     else []) ++ faceUploads ppm rest (i + 1)

/-- The warnings the loop of `loadCubemap` prints. -/
def faceWarnings (ppm : String → PPM) : List String → List String
  | [] => []
  | path :: rest =>
    (if (ppm path).pixelData.length ≠ 0 then []
     else ["Cubemap tex failed to load at path: " ++ path ++ "\n"]) ++ faceWarnings ppm rest

/-- The five `glTexParameteri` commands that end `loadCubemap`. -/
def cubemapParameters : List GLCall :=
  [ .glTexParameteri GL_TEXTURE_CUBE_MAP GL_TEXTURE_MIN_FILTER GL_LINEAR,
    .glTexParameteri GL_TEXTURE_CUBE_MAP GL_TEXTURE_MAG_FILTER GL_LINEAR,
    .glTexParameteri GL_TEXTURE_CUBE_MAP GL_TEXTURE_WRAP_S GL_CLAMP_TO_EDGE,
    .glTexParameteri GL_TEXTURE_CUBE_MAP GL_TEXTURE_WRAP_T GL_CLAMP_TO_EDGE,
    .glTexParameteri GL_TEXTURE_CUBE_MAP GL_TEXTURE_WRAP_R GL_CLAMP_TO_EDGE ]

/-- The commands `loadCubemap` issues when the texture is named `n`. -/
def cubemapCalls (ppm : String → PPM) (paths : List String) (n : GLuint) : List GLCall :=
  [.glGenTextures n, .glBindTexture GL_TEXTURE_CUBE_MAP n] ++ faceUploads ppm paths 0 ++
    cubemapParameters

/-- The commands `VertexSpecification` issues before `loadCubemap`, when names
start at `n`. -/
def geometryCalls (gOceanSize : CFloat) (n : GLuint) : List GLCall :=
  [ .glGenVertexArrays n,
    .glBindVertexArray n,
    .glGenBuffers (n + 1),
    .glBindBuffer GL_ARRAY_BUFFER (n + 1),
    .glBufferData GL_ARRAY_BUFFER ((vertexDataQuad gOceanSize).length * sizeof_GL_FLOAT)
      (vertexDataQuad gOceanSize) GL_STATIC_DRAW,
    .glEnableVertexAttribArray 0,
    .glVertexAttribPointer 0 3 GL_FLOAT GL_FALSE (sizeof_GL_FLOAT * 8) 0,
    .glEnableVertexAttribArray 1,
    .glVertexAttribPointer 1 3 GL_FLOAT GL_FALSE (sizeof_GL_FLOAT * 8) (sizeof_GL_FLOAT * 3),
    .glEnableVertexAttribArray 2,
    .glVertexAttribPointer 2 3 GL_FLOAT GL_FALSE (sizeof_GL_FLOAT * 8) (sizeof_GL_FLOAT * 5),
    .glBindVertexArray 0,
    .glDisableVertexAttribArray 0,
    .glDisableVertexAttribArray 1,
    .glDisableVertexAttribArray 2,
    .glGenVertexArrays (n + 2),
    .glBindVertexArray (n + 2),
    .glGenBuffers (n + 3),
    .glBindBuffer GL_ARRAY_BUFFER (n + 3),
    .glBufferData GL_ARRAY_BUFFER (vertexDataSkybox.length * sizeof_GL_FLOAT) vertexDataSkybox
      GL_STATIC_DRAW,
    .glEnableVertexAttribArray 0,
    .glVertexAttribPointer 0 3 GL_FLOAT GL_FALSE (sizeof_GL_FLOAT * 3) 0,
    .glBindVertexArray 0,
    .glDisableVertexAttribArray 0 ]

/-- The world after `VertexSpecification`. -/
def afterVertexSpecification (ppm : String → PPM) (w : World) : World :=
  { gl := { w.gl with
      nextName := w.gl.nextName + 5
      calls := w.gl.calls ++ (geometryCalls w.globals.gOceanSize w.gl.nextName ++
        cubemapCalls ppm faces (w.gl.nextName + 4)) }
    stdout := w.stdout ++ faceWarnings ppm faces
    globals := { w.globals with
      gVertexArrayObjectFloor := w.gl.nextName
      gVertexBufferObjectFloor := w.gl.nextName + 1
      gFloorTriangles := (vertexDataQuad w.globals.gOceanSize).length
      gVertexArrayObjectSkybox := w.gl.nextName + 2
      gVertexBufferObjectSkybox := w.gl.nextName + 3
      gCubeTexId := w.gl.nextName + 4 } }

/-- The target and the image of a `glTexImage2D` command. -/
def texImageUpload? : GLCall → Option (GLenum × PPM)
  | .glTexImage2D target _ _ width height _ _ _ data => some (target, ⟨width, height, data⟩)
  | _ => none

/-- The image uploads of a command log, in order: target and image. -/
def texImageUploads (calls : List GLCall) : List (GLenum × PPM) :=
  calls.filterMap texImageUpload?

/-- The uploads expected for a list of paths, from index `i` on: the image of the
path at position `k` goes to target `GL_TEXTURE_CUBE_MAP_POSITIVE_X + k`, and a
path whose image is empty gets no upload. -/
def expectedUploads (ppm : String → PPM) : List String → Nat → List (GLenum × PPM)
  | [], _ => []
  | path :: rest, i =>
    if (ppm path).pixelData = [] then expectedUploads ppm rest (i + 1)
    else (GL_TEXTURE_CUBE_MAP_POSITIVE_X + i, ppm path) :: expectedUploads ppm rest (i + 1)

/-- The six cubemap face targets, in the order +X, -X, +Y, -Y, +Z, -Z. -/
def cubemapFaceTargets : List GLenum :=
  [ GL_TEXTURE_CUBE_MAP_POSITIVE_X, GL_TEXTURE_CUBE_MAP_NEGATIVE_X,
    GL_TEXTURE_CUBE_MAP_POSITIVE_Y, GL_TEXTURE_CUBE_MAP_NEGATIVE_Y,
    GL_TEXTURE_CUBE_MAP_POSITIVE_Z, GL_TEXTURE_CUBE_MAP_NEGATIVE_Z ]

/-- A list with the entries at positions `i` and `j` exchanged. -/
def swapEntries (l : List String) (i j : Nat) : List String :=
  (l.set i (l.getD j "")).set j (l.getD i "")

/-- One attribute declaration: index, component count, stride and offset in bytes. -/
structure AttribDecl where
  index : GLuint
  size : Int
  stride : Nat
  offset : Nat
deriving DecidableEq, Repr

/-- The declaration a `glVertexAttribPointer` command makes. -/
def attribDecl? : GLCall → Option AttribDecl
  | .glVertexAttribPointer index size _ _ stride pointer => some ⟨index, size, stride, pointer⟩
  | _ => none

/-- The vertex array a `glBindVertexArray` command binds. -/
def boundArray? : GLCall → Option GLuint
  | .glBindVertexArray a => some a
  | _ => none

/-- The attribute declarations (`glVertexAttribPointer`) of a command log that
are made while vertex array `vao` is bound; `bound` is the vertex array bound
at the start of the log. -/
def declaredLayout (vao : GLuint) : List GLCall → GLuint → List AttribDecl
  | [], _ => []
  | c :: rest, bound =>
    match boundArray? c with
    | some a => declaredLayout vao rest a
    | none =>
      match attribDecl? c with
      | some decl => (if bound = vao then [decl] else []) ++ declaredLayout vao rest bound
      | none => declaredLayout vao rest bound

/-- The data of a `glBufferData` command. -/
def bufferData? : GLCall → Option (List CFloat)
  | .glBufferData _ _ data _ => some data
  | _ => none

/-- The data of the `glBufferData` commands of a command log, in order. -/
def bufferUploads (calls : List GLCall) : List (List CFloat) :=
  calls.filterMap bufferData?

/-- The mode and the count of a `glDrawArrays` command. -/
def drawCount? : GLCall → Option (GLenum × Nat)
  | .glDrawArrays mode _ count => some (mode, count)
  | _ => none

/-- The counts of the `glDrawArrays` commands of a command log, with their mode. -/
def drawCounts (calls : List GLCall) : List (GLenum × Nat) :=
  calls.filterMap drawCount?

/-- The commands `Draw` issues. -/
def drawCalls (g : Globals) : List GLCall :=
  [ .glUseProgram g.gGraphicsPipelineShaderProgram,
    .glBindVertexArray g.gVertexArrayObjectFloor,
    .glActiveTexture GL_TEXTURE0,
    .glBindTexture GL_TEXTURE_CUBE_MAP g.gCubeTexId,
    .glDrawArrays GL_PATCHES 0 g.gFloorTriangles,
    .glDepthFunc GL_LEQUAL,
    .glUseProgram g.gSkyboxPipelineShaderProgram,
    .glBindVertexArray g.gVertexArrayObjectSkybox,
    .glActiveTexture GL_TEXTURE0,
    .glBindTexture GL_TEXTURE_CUBE_MAP g.gCubeTexId,
    .glDrawArrays GL_TRIANGLES 0 36,
    .glBindVertexArray 0,
    .glDepthFunc GL_LESS,
    .glUseProgram 0 ]

/-- Vertex `k` of interleaved vertex data with `floatsPerVertex` floats a vertex. -/
def vertexAt (data : List CFloat) (floatsPerVertex k : Nat) : List CFloat :=
  (data.drop (floatsPerVertex * k)).take floatsPerVertex

/-- The sign of a number: 1, -1 or 0. -/
def signum (q : CFloat) : CFloat :=
  if 0 < q then 1 else if q < 0 then -1 else 0

/-- Vertex `k` of the ocean vertex data: 8 floats. -/
def oceanVertex (gOceanSize : CFloat) (k : Nat) : List CFloat :=
  vertexAt (vertexDataQuad gOceanSize) 8 k

/-- The position of ocean vertex `k`: floats 0, 1, 2 of the vertex. -/
def oceanPosition (gOceanSize : CFloat) (k : Nat) : Vec3 :=
  ⟨(oceanVertex gOceanSize k).getD 0 0, (oceanVertex gOceanSize k).getD 1 0,
   (oceanVertex gOceanSize k).getD 2 0⟩

/-- The texture coordinates of ocean vertex `k`: floats 3, 4 of the vertex. -/
def oceanTexcoord (gOceanSize : CFloat) (k : Nat) : CFloat × CFloat :=
  ((oceanVertex gOceanSize k).getD 3 0, (oceanVertex gOceanSize k).getD 4 0)

/-- The normal of ocean vertex `k`: floats 5, 6, 7 of the vertex. -/
def oceanNormal (gOceanSize : CFloat) (k : Nat) : Vec3 :=
  ⟨(oceanVertex gOceanSize k).getD 5 0, (oceanVertex gOceanSize k).getD 6 0,
   (oceanVertex gOceanSize k).getD 7 0⟩

/-- The sum of the component counts of a layout. -/
def componentSum (layout : List AttribDecl) : Int :=
  (layout.map (fun a => a.size)).sum

/-! ## The required uniform names, as the specification lists them -/

/-- The fields of a wave slot. -/
def waveFields : List String := ["direction", "amplitude", "steepness", "frequency", "speed"]

/-- The names `gerstner_waves[i].{direction,amplitude,steepness,frequency,speed}`
of wave slot `i`. -/
def waveUniforms (i : String) : List String :=
  waveFields.map (fun field => "gerstner_waves[" ++ i ++ "]." ++ field)

/-- The 27 required uniform names of the ocean pipeline. -/
def requiredOceanUniforms : List String :=
  ["u_ModelMatrix", "u_ViewMatrix", "u_Projection", "skybox", "cameraPos", "num_of_waves", "time"]
    ++ waveUniforms "0" ++ waveUniforms "1" ++ waveUniforms "2" ++ waveUniforms "3"

/-- The 3 required uniform names of the skybox pipeline. -/
def requiredSkyboxUniforms : List String := ["view", "projection", "skybox"]

/-- The 30 required lookups of a frame, in order: the ocean names on the ocean
program, then the skybox names on the skybox program. -/
def requiredLookups (g : Globals) : List (GLuint × String) :=
  requiredOceanUniforms.map (fun name => (g.gGraphicsPipelineShaderProgram, name)) ++
  requiredSkyboxUniforms.map (fun name => (g.gSkyboxPipelineShaderProgram, name))

/-! ## Example inputs -/

/-- The uniform names of the two pipelines, in the order `PreDraw` asks for them. -/
def exampleUniformTable : List String :=
  ["u_ModelMatrix", "u_ViewMatrix", "u_Projection", "skybox", "cameraPos", "num_of_waves", "time",
   "gerstner_waves[0].direction", "gerstner_waves[0].amplitude", "gerstner_waves[0].steepness",
   "gerstner_waves[0].frequency", "gerstner_waves[0].speed",
   "gerstner_waves[1].direction", "gerstner_waves[1].amplitude", "gerstner_waves[1].steepness",
   "gerstner_waves[1].frequency", "gerstner_waves[1].speed",
   "gerstner_waves[2].direction", "gerstner_waves[2].amplitude", "gerstner_waves[2].steepness",
   "gerstner_waves[2].frequency", "gerstner_waves[2].speed",
   "gerstner_waves[3].direction", "gerstner_waves[3].amplitude", "gerstner_waves[3].steepness",
   "gerstner_waves[3].frequency", "gerstner_waves[3].speed",
   "view", "projection"]

/-- The position of a name in a table, or -1. -/
def tableIndex : List String → String → GLint
  | [], _ => -1
  | x :: rest, name => if x = name then 0 else
      (if tableIndex rest name < 0 then -1 else tableIndex rest name + 1)

/-- An example driver: an empty source does not compile and gets a one-line
info log; stages link as soon as a vertex stage is among them (a fragment
stage is optional, as in OpenGL); every linked program validates; a linked
program resolves the names of `exampleUniformTable` to their positions. -/
def exampleDriver : Driver :=
  { compiles := fun _ source => !source.data.isEmpty
    infoLog := fun _ source => if source.data.isEmpty then "0(1) : error: empty source" else ""
    links := fun stages => stages.any (fun st => st.1 == GL_VERTEX_SHADER)
    validates := fun _ => true
    uniformLocation := fun _ name => tableIndex exampleUniformTable name }

/-- An example context in which the two pipelines have been built: program 1
(ocean, four stages) and program 6 (skybox, two stages), both linked. -/
def exampleFrameContext : GLState :=
  { nextName := 9, shaders := []
    programs :=
      [ { name := 1, attached := [], linkStatus := true, validateStatus := true,
          executable := [(GL_VERTEX_SHADER, "v"), (GL_FRAGMENT_SHADER, "f"),
                         (GL_TESS_CONTROL_SHADER, "c"), (GL_TESS_EVALUATION_SHADER, "e")] },
        { name := 6, attached := [], linkStatus := true, validateStatus := true,
          executable := [(GL_VERTEX_SHADER, "v"), (GL_FRAGMENT_SHADER, "f")] } ]
    errors := [], calls := [] }

/-- An example camera: at the origin, looking down the negative z axis. -/
def exampleCamera : Camera :=
  { viewMatrix := Mat4.identity, eye := ⟨0, 0, 0⟩, viewDirection := ⟨0, 0, -1⟩ }

/-- An example world at the start of a frame. -/
def exampleFrameWorld : World :=
  { gl := exampleFrameContext, stdout := []
    globals := { Globals.initial exampleCamera with
      gGraphicsPipelineShaderProgram := 1, gSkyboxPipelineShaderProgram := 6 } }

/-- The example driver, except that no program has a uniform named `time`. -/
def exampleDriverWithoutTime : Driver :=
  { exampleDriver with
    uniformLocation := fun stages name =>
      if name = "time" then -1 else exampleDriver.uniformLocation stages name }

/-- An example decoder: every path decodes to a 1x1 image, except `./top.ppm`,
which fails to decode. -/
def examplePPM (path : String) : PPM :=
  if path = "./top.ppm" then ⟨0, 0, []⟩ else ⟨1, 1, [255, 255, 255]⟩


/-! ## The skybox cube -/

/-- Vertex `k` of the skybox vertex data: 3 floats. -/
def skyboxVertex (k : Nat) : List CFloat :=
  vertexAt vertexDataSkybox 3 k

/-- The context state set by the selecting commands of `main.cpp`.  `buffers`
holds the data store of each buffer object, `pointers` the attribute
declarations with the vertex array they belong to and the buffer they read
from, `enabled` the enabled attribute arrays with their vertex array; the most
recent entry comes first. -/
structure Context where
  program : GLuint
  vertexArray : GLuint
  arrayBuffer : GLuint
  activeTexture : GLenum
  cubemap0 : GLuint
  depthFunc : GLenum
  polygonMode : GLenum
  buffers : List (GLuint × List CFloat)
  pointers : List (GLuint × GLuint × AttribDecl)
  enabled : List (GLuint × GLuint)
deriving DecidableEq, Repr

/-- The state of a new context: nothing selected, texture unit 0 active,
depth comparison `GL_LESS`, polygon mode `GL_FILL`. -/
def Context.initial : Context :=
  { program := 0, vertexArray := 0, arrayBuffer := 0, activeTexture := GL_TEXTURE0,
    cubemap0 := 0, depthFunc := GL_LESS, polygonMode := GL_FILL,
    buffers := [], pointers := [], enabled := [] }

/-- The effect of one command.  Attribute arrays and attribute declarations
are state of the bound vertex array; in the core profile there is no vertex
array 0, and `glEnableVertexAttribArray`, `glDisableVertexAttribArray` and
`glVertexAttribPointer` change nothing while vertex array 0 is bound. -/
def Context.step (s : Context) : GLCall → Context
  | .glUseProgram p => { s with program := p }
  | .glBindVertexArray a => { s with vertexArray := a }
  | .glBindBuffer target b => if target = GL_ARRAY_BUFFER then { s with arrayBuffer := b } else s
  | .glBufferData target _ data _ =>
    if target = GL_ARRAY_BUFFER then { s with buffers := (s.arrayBuffer, data) :: s.buffers } else s
  | .glVertexAttribPointer index size _ _ stride pointer =>
    if s.vertexArray = 0 then s
    else { s with pointers := (s.vertexArray, s.arrayBuffer, ⟨index, size, stride, pointer⟩) ::
                    s.pointers.filter (fun e => !(e.1 == s.vertexArray && e.2.2.index == index)) }
  | .glEnableVertexAttribArray index =>
    if s.vertexArray = 0 then s
    else { s with enabled := (s.vertexArray, index) ::
                    s.enabled.filter (fun e => !(e.1 == s.vertexArray && e.2 == index)) }
  | .glDisableVertexAttribArray index =>
    if s.vertexArray = 0 then s
    else { s with enabled := s.enabled.filter (fun e => !(e.1 == s.vertexArray && e.2 == index)) }
  | .glActiveTexture unit => { s with activeTexture := unit }
  | .glBindTexture target texture =>
    if target = GL_TEXTURE_CUBE_MAP ∧ s.activeTexture = GL_TEXTURE0 then { s with cubemap0 := texture }
    else s
  | .glDepthFunc func => { s with depthFunc := func }
  | .glPolygonMode _ mode => { s with polygonMode := mode }
  | _ => s

/-- The context after the commands of a log. -/
def Context.replay (s : Context) (calls : List GLCall) : Context :=
  calls.foldl Context.step s

/-- The draw commands of a log, each with the context it is issued in. -/
def drawsIn : Context → List GLCall → List (GLCall × Context)
  | _, [] => []
  | s, c :: rest =>
    (match drawCount? c with
     | some _ => [(c, s)]
     | none => []) ++ drawsIn (s.step c) rest

/-- The attribute indices enabled for a vertex array, in the order in which
they were enabled. -/
def Context.enabledOf (s : Context) (vao : GLuint) : List GLuint :=
  ((s.enabled.filter (fun e => e.1 == vao)).map (fun e => e.2)).reverse

/-- The data store of a buffer object. -/
def Context.bufferOf (s : Context) (buffer : GLuint) : List CFloat :=
  match s.buffers.find? (fun e => e.1 == buffer) with
  | some e => e.2
  | none => []

/-- The floats one attribute reads for vertex `k` from a data store of 4-byte
floats: `size` floats from byte `offset + stride * k` on. -/
def fetchAttrib (data : List CFloat) (decl : AttribDecl) (k : Nat) : List CFloat :=
  (data.drop ((decl.offset + decl.stride * k) / 4)).take decl.size.toNat

/-- The vertices a `glDrawArrays first count` command reads in a context: for
each of the vertices `first, ..., first + count - 1`, what each enabled
attribute of the bound vertex array fetches from its buffer. -/
def Context.fetched (s : Context) (first count : Nat) : List (List (List CFloat)) :=
  (List.range count).map (fun k =>
    (s.enabledOf s.vertexArray).filterMap (fun index =>
      match s.pointers.find? (fun e => e.1 == s.vertexArray && e.2.2.index == index) with
      | some e => some (fetchAttrib (s.bufferOf e.2.1) e.2.2 (first + k))
      | none => none))

/-- The commands that set vertex arrays, buffers or attribute arrays, or draw. -/
def geometryCommand : GLCall → Bool
  | .glBindVertexArray _ => true
  | .glBindBuffer _ _ => true
  | .glBufferData _ _ _ _ => true
  | .glVertexAttribPointer _ _ _ _ _ _ => true
  | .glEnableVertexAttribArray _ => true
  | .glDisableVertexAttribArray _ => true
  | .glDrawArrays _ _ _ => true
  | _ => false

/-- The state of the process when a call ends, however it ends. -/
def Outcome.world {α : Type} : Outcome α → World
  | .returned _ w => w
  | .exited _ w => w
  | .undefined w => w

/-- The position of skybox vertex `k`. -/
def skyboxPosition (k : Nat) : Vec3 :=
  ⟨(skyboxVertex k).getD 0 0, (skyboxVertex k).getD 1 0, (skyboxVertex k).getD 2 0⟩

/-- The difference of two vectors. -/
def Vec3.sub (a b : Vec3) : Vec3 :=
  ⟨a.x - b.x, a.y - b.y, a.z - b.z⟩

/-- The cross product. -/
def Vec3.cross (a b : Vec3) : Vec3 :=
  ⟨a.y * b.z - a.z * b.y, a.z * b.x - a.x * b.z, a.x * b.y - a.y * b.x⟩

/-- The dot product. -/
def Vec3.dot (a b : Vec3) : CFloat :=
  a.x * b.x + a.y * b.y + a.z * b.z

/-- The cross product `(v1 - v0) x (v2 - v0)` of triangle `t` of the skybox
vertex data, whose vertices `v0, v1, v2` are the vertices `3 t, 3 t + 1,
3 t + 2`. -/
def skyboxTriangleNormal (t : Nat) : Vec3 :=
  Vec3.cross ((skyboxPosition (3 * t + 1)).sub (skyboxPosition (3 * t)))
    ((skyboxPosition (3 * t + 2)).sub (skyboxPosition (3 * t)))

/-! ## Uniform uploads of a command log -/

/-- The value a `glUniform*` command uploads. -/
inductive UniformValue where
  | matrix (m : MatValue)
  | int (v : Int)
  | uint (v : Int)
  | float (v : GLfloat)
  | vec2 (v0 v1 : GLfloat)
  | vec3 (v : Vec3)
deriving DecidableEq, Repr

/-- The location and the value of a `glUniform*` command. -/
def uniformUpload? : GLCall → Option (GLint × UniformValue)
  | .glUniformMatrix4fv l m => some (l, .matrix m)
  | .glUniform1i l v => some (l, .int v)
  | .glUniform1ui l v => some (l, .uint v)
  | .glUniform1f l v => some (l, .float v)
  | .glUniform2f l v0 v1 => some (l, .vec2 v0 v1)
  | .glUniform3fv l v => some (l, .vec3 v)
  | _ => none

/-- The program, the name and the location handed back of a
`glGetUniformLocation` command. -/
def uniformLookupResult? : GLCall → Option (GLuint × String × GLint)
  | .glGetUniformLocation p name l => some (p, name, l)
  | _ => none

/-- One `glUniform*` command of a log: the program selected when it is issued,
its location and value, and the most recent `glGetUniformLocation` before it
(program, name, location handed back). -/
structure Upload where
  selected : GLuint
  location : GLint
  value : UniformValue
  lookup : Option (GLuint × String × GLint)
deriving DecidableEq, Repr

/-- The most recent lookup after one more command. -/
def latestLookup (last : Option (GLuint × String × GLint)) (c : GLCall) :
    Option (GLuint × String × GLint) :=
  match uniformLookupResult? c with
  | some r => some r
  | none => last

/-- The upload a command makes in a context, if it is a `glUniform*` command. -/
def uploadOf (s : Context) (last : Option (GLuint × String × GLint)) (c : GLCall) : List Upload :=
  match uniformUpload? c with
  | some lv => [⟨s.program, lv.1, lv.2, last⟩]
  | none => []

/-- The `glUniform*` commands of a log, in order; `last` is the most recent
lookup before the log. -/
def uploadsIn : Context → Option (GLuint × String × GLint) → List GLCall → List Upload
  | _, _, [] => []
  | s, last, c :: rest => uploadOf s last c ++ uploadsIn (s.step c) (latestLookup last c) rest

/-- An upload made at the location that the most recent lookup handed back,
while the program of that lookup is selected. -/
def Upload.Consistent (u : Upload) : Prop :=
  ∃ name, u.lookup = some (u.selected, name, u.location)

instance (u : Upload) : Decidable u.Consistent :=
  match h : u.lookup with
  | none => isFalse (by rintro ⟨name, e⟩; rw [h] at e; cases e)
  | some (p, name, l) =>
    if hp : p = u.selected ∧ l = u.location then
      isTrue ⟨name, by rw [h, hp.1, hp.2]⟩
    else isFalse (by
      rintro ⟨name', e⟩
      rw [h] at e
      injection e with e
      injection e with e1 e2
      injection e2 with e2 e3
      exact hp ⟨e1, e3⟩)

/-- The name and the value of the uploads of a log: the name is the one of the
most recent lookup. -/
def boundValues (us : List Upload) : List (String × UniformValue) :=
  us.filterMap (fun u =>
    match u.lookup with
    | some r => some (r.2.1, u.value)
    | none => none)

/-- The value a block of `PreDraw` uploads. -/
def UniformBinding.value (b : UniformBinding) : UniformValue :=
  match uniformUpload? (b.set 0) with
  | some lv => lv.2
  | none => .int 0

/-- A block whose command is a `glUniform*` at the location it is given, with a
value that does not depend on the location. -/
def UniformBinding.IsUpload (b : UniformBinding) : Prop :=
  ∀ l, uniformUpload? (b.set l) = some (l, b.value)

/-- The uploads made by blocks of `PreDraw` whose lookups succeed, while
program `selected` is selected. -/
def bindingUploads (d : Driver) (s : GLState) (selected : GLuint)
    (bs : List UniformBinding) : List Upload :=
  bs.map (fun b =>
    { selected := selected
      location := GLCmd.uniformLocation d s b.program b.name
      value := b.value
      lookup := some (b.program, b.name, GLCmd.uniformLocation d s b.program b.name) })

/-- The values uploaded right after a lookup of `name` on `program`. -/
def valuesBound (program : GLuint) (name : String) (us : List Upload) : List UniformValue :=
  us.filterMap (fun u =>
    match u.lookup with
    | some r => if r.1 = program ∧ r.2.1 = name then some u.value else none
    | none => none)

/-! ## The uniform values of a frame, by name -/

/-- The wave constants of `PreDraw`: the 20 values of the 4 wave slots, by
uniform name, in source order. -/
def waveConstants : List (String × UniformValue) :=
  [ ("gerstner_waves[0].direction", .vec2 (.sin 0.32) (.cos 0.32)),
    ("gerstner_waves[0].amplitude", .float (.lit 1.64)),
    ("gerstner_waves[0].steepness", .float (.lit 1.64)),
    ("gerstner_waves[0].frequency", .float (.lit 3.0)),
    ("gerstner_waves[0].speed", .float (.lit 2.0)),
    ("gerstner_waves[1].direction", .vec2 (.sin 0.75) (.cos 0.25)),
    ("gerstner_waves[1].amplitude", .float (.lit 2.5)),
    ("gerstner_waves[1].steepness", .float (.lit 0.5)),
    ("gerstner_waves[1].frequency", .float (.lit 1.0)),
    ("gerstner_waves[1].speed", .float (.lit 0.3)),
    ("gerstner_waves[2].direction", .vec2 (.sin 1.0) (.cos 1.0)),
    ("gerstner_waves[2].amplitude", .float (.lit 1.25)),
    ("gerstner_waves[2].steepness", .float (.lit 1.3)),
    ("gerstner_waves[2].frequency", .float (.lit 4.0)),
    ("gerstner_waves[2].speed", .float (.lit 4.0)),
    ("gerstner_waves[3].direction", .vec2 (.sin 0.5) (.cos 0.5)),
    ("gerstner_waves[3].amplitude", .float (.lit 6.0)),
    ("gerstner_waves[3].steepness", .float (.lit 2.5)),
    ("gerstner_waves[3].frequency", .float (.lit 2.0)),
    ("gerstner_waves[3].speed", .float (.lit 1.0)) ]

/-- The 30 values `PreDraw` uploads, by uniform name, in source order, as a
function of the elapsed time in milliseconds, `num_of_waves`, the camera and
the screen dimensions. -/
def frameUniforms (ticks : Nat) (num_of_waves : Int) (camera : Camera) (width height : Int) :
    List (String × UniformValue) :=
  [ ("u_ModelMatrix", .matrix (.mat (Mat4.translate Mat4.identity ⟨0, 0, 0⟩))),
    ("u_ViewMatrix", .matrix (.mat camera.viewMatrix)),
    ("u_Projection", .matrix (.perspective 45 width height 0.1 2000)),
    ("skybox", .int 0),
    ("cameraPos", .vec3 ⟨camera.eye.x + camera.viewDirection.x,
      camera.eye.y + camera.viewDirection.y, camera.eye.z + camera.viewDirection.z⟩),
    ("num_of_waves", .uint (num_of_waves % 4294967296)),
    ("time", .float (.lit ((ticks : ℚ) / 1000))) ] ++
  waveConstants ++
  [ ("view", .matrix (.mat (Mat4.ofMat3 (Mat3.ofMat4 camera.viewMatrix)))),
    ("projection", .matrix (.perspective 45 width height 0.1 2000)),
    ("skybox", .int 0) ]

/-- The sine and cosine arguments of a direction value. -/
def directionArguments : UniformValue → Option (ℚ × ℚ)
  | .vec2 (.sin a) (.cos b) => some (a, b)
  | _ => none

/-- The example frame world with two active waves. -/
def exampleTwoWaveWorld : World :=
  { exampleFrameWorld with globals := { exampleFrameWorld.globals with num_of_waves := 2 } }

/-- Rows 0 to 2 of columns 0 to 2 of `a` (its upper-left 3x3 block) are those of
`b`, entry by entry. -/
def Mat4.SameBlock (a b : Mat4) : Prop :=
  a.c0.x = b.c0.x ∧ a.c0.y = b.c0.y ∧ a.c0.z = b.c0.z ∧
  a.c1.x = b.c1.x ∧ a.c1.y = b.c1.y ∧ a.c1.z = b.c1.z ∧
  a.c2.x = b.c2.x ∧ a.c2.y = b.c2.y ∧ a.c2.z = b.c2.z

instance (a b : Mat4) : Decidable (a.SameBlock b) := by
  unfold Mat4.SameBlock; infer_instance

/-- An example camera away from the origin: the eye at (3, 4, 5), looking down
the positive x axis; the view matrix is `glm::lookAt` of these with the up
vector (0, 1, 0), so its translation column is (-5, -4, 3). -/
def exampleMovedCamera : Camera :=
  { viewMatrix := ⟨⟨0, 0, -1, 0⟩, ⟨0, 1, 0, 0⟩, ⟨1, 0, 0, 0⟩, ⟨-5, -4, 3, 1⟩⟩
    eye := ⟨3, 4, 5⟩, viewDirection := ⟨1, 0, 0⟩ }

/-- The example frame world with the camera moved away from the origin. -/
def exampleMovedWorld : World :=
  { exampleFrameWorld with
    globals := { exampleFrameWorld.globals with gCamera := exampleMovedCamera } }

/-- The example frame world with two active waves, in wireframe mode. -/
def exampleWireframeWorld : World :=
  { exampleFrameWorld with
    globals := { exampleFrameWorld.globals with num_of_waves := 2, gPolygonMode := GL_LINE } }

/-! ## Input and the main loop -/

/-- An event of the SDL queue, as far as `Input` tells events apart: its type
and the fields `Input` reads. -/
inductive SDLEvent where
  | quit
  | keyDown (sym : Int)
  | mouseMotion (xrel yrel : Int)
  | other
deriving DecidableEq, Repr

/-! Values of `SDL_keycode.h` and `SDL_scancode.h`. -/

def SDLK_ESCAPE : Int := 27
def SDL_SCANCODE_A : Nat := 4
def SDL_SCANCODE_D : Nat := 7
def SDL_SCANCODE_S : Nat := 22
def SDL_SCANCODE_W : Nat := 26
def SDL_SCANCODE_1 : Nat := 30
def SDL_SCANCODE_2 : Nat := 31
def SDL_SCANCODE_3 : Nat := 32
def SDL_SCANCODE_4 : Nat := 33
def SDL_SCANCODE_TAB : Nat := 43

/-- The member functions of the external `Camera` class that `Input` calls. -/
structure CameraClass where
  MouseLook : Camera → Int → Int → Camera
  MoveForward : Camera → CFloat → Camera
  MoveBackward : Camera → CFloat → Camera
  MoveLeft : Camera → CFloat → Camera
  MoveRight : Camera → CFloat → Camera

/-- The function-local statics `mouseX`, `mouseY` of `Input`. -/
structure InputStatics where
  mouseX : Int
  mouseY : Int
deriving DecidableEq, Repr

/-- The event loop of `Input`: the events that `SDL_PollEvent` hands out until
the queue is empty.  The mouse position is summed up in mathematical integers. -/
def InputEvents (cam : CameraClass) : List SDLEvent → InputStatics → Prog InputStatics
  | [], statics => pure statics
  | e :: rest, statics => do
    if e = .quit then
      cout "Goodbye! (Leaving MainApplicationLoop())\n"
      modify (fun g => { g with gQuit := true })
    if e = .keyDown SDLK_ESCAPE then
      cout "ESC: Goodbye! (Leaving MainApplicationLoop())\n"
      modify (fun g => { g with gQuit := true })
    match e with
    | .mouseMotion xrel yrel =>
      let mouseX := statics.mouseX + xrel
      let mouseY := statics.mouseY + yrel
      modify (fun g => { g with gCamera := cam.MouseLook g.gCamera mouseX mouseY })
      InputEvents cam rest ⟨mouseX, mouseY⟩
    | _ => InputEvents cam rest statics

/-- The function `Input` of `main.cpp`.  `events` is the content of the SDL
event queue and `state` the keyboard state of `SDL_GetKeyboardState` at the
call; `statics` holds the function-local statics, `none` before the first
call, when they are initialised from the screen dimensions.  The new statics
are handed back. -/
def Input (cam : CameraClass) (events : List SDLEvent) (state : Nat → Bool)
    (statics : Option InputStatics) : Prog InputStatics := do
  let g ← get
  let statics0 : InputStatics :=
    statics.getD ⟨Int.tdiv g.gScreenWidth 2, Int.tdiv g.gScreenHeight 2⟩
  let statics1 ← InputEvents cam events statics0
  (if state SDL_SCANCODE_W then
    modify (fun g => { g with gCamera := cam.MoveForward g.gCamera 0.1 })
   else pure ())
  (if state SDL_SCANCODE_S then
    modify (fun g => { g with gCamera := cam.MoveBackward g.gCamera 0.1 })
   else pure ())
  (if state SDL_SCANCODE_A then
    modify (fun g => { g with gCamera := cam.MoveLeft g.gCamera 0.1 })
   else pure ())
  (if state SDL_SCANCODE_D then
    modify (fun g => { g with gCamera := cam.MoveRight g.gCamera 0.1 })
   else pure ())
  (if state SDL_SCANCODE_1 then
    modify (fun g => { g with num_of_waves := 1 })
   else pure ())
  (if state SDL_SCANCODE_2 then
    modify (fun g => { g with num_of_waves := 2 })
   else pure ())
  (if state SDL_SCANCODE_3 then
    modify (fun g => { g with num_of_waves := 3 })
   else pure ())
  (if state SDL_SCANCODE_4 then
    modify (fun g => { g with num_of_waves := 4 })
   else pure ())
  (if state SDL_SCANCODE_TAB then do
    let g ← get
    if g.gPolygonMode = GL_FILL then
      modify (fun g => { g with gPolygonMode := GL_LINE })
    else
      modify (fun g => { g with gPolygonMode := GL_FILL })
   else pure ())
  return statics1

/-- What the environment supplies to one iteration of the main loop: the event
queue and the keyboard state for `Input`, the value of `SDL_GetTicks()` for
`PreDraw`. -/
structure FrameInput where
  events : List SDLEvent
  state : Nat → Bool
  ticks : Nat

/-- The loop of `MainLoop`, for the iterations whose inputs are given.  The
result tells how the loop was left: `true` when `gQuit` was found set, `false`
when the given inputs are used up (the loop of the source goes on). -/
def MainLoopFrom (d : Driver) (cam : CameraClass) :
    List FrameInput → Option InputStatics → Prog Bool
  | [], _ => do
    let g ← get
    return g.gQuit
  | frame :: rest, statics => do
    let g ← get
    if g.gQuit then
      return true
    else do
      let statics1 ← Input cam frame.events frame.state statics
      PreDraw d frame.ticks
      Draw
      MainLoopFrom d cam rest (some statics1)

/-- The function `MainLoop` of `main.cpp`, for the iterations whose inputs are
given.  The SDL calls (mouse warp, relative mouse mode, buffer swap) issue no
GL command. -/
def MainLoop (d : Driver) (cam : CameraClass) (frames : List FrameInput) : Prog Bool :=
  MainLoopFrom d cam frames none

/-- A sequence of `Input` calls, each with its own event queue and keyboard
state. -/
def InputSteps (cam : CameraClass) :
    List (List SDLEvent × (Nat → Bool)) → Option InputStatics → Prog Unit
  | [], _ => pure ()
  | step :: rest, statics => do
    let statics1 ← Input cam step.1 step.2 statics
    InputSteps cam rest (some statics1)

/-- The update of the camera by one of the move functions of the `Camera` class. -/
def Globals.moveCamera (move : Camera → CFloat → Camera) (g : Globals) : Globals :=
  { g with gCamera := move g.gCamera 0.1 }

/-- The assignment `num_of_waves = n`. -/
def Globals.setWaves (n : Int) (g : Globals) : Globals :=
  { g with num_of_waves := n }

/-- The polygon mode toggle of `Input`: line after fill, fill after anything else. -/
def Globals.togglePolygonMode (g : Globals) : Globals :=
  if g.gPolygonMode = GL_FILL then { g with gPolygonMode := GL_LINE }
  else { g with gPolygonMode := GL_FILL }

/-- An update made when a key is held. -/
def Globals.whenHeld (held : Bool) (f : Globals → Globals) (g : Globals) : Globals :=
  if held then f g else g

/-- The globals after the keyboard part of `Input`: the updates for the keys
W, S, A, D, 1, 2, 3, 4, Tab, in this order. -/
def afterKeys (cam : CameraClass) (state : Nat → Bool) (g : Globals) : Globals :=
  Globals.whenHeld (state SDL_SCANCODE_TAB) Globals.togglePolygonMode
    (Globals.whenHeld (state SDL_SCANCODE_4) (Globals.setWaves 4)
      (Globals.whenHeld (state SDL_SCANCODE_3) (Globals.setWaves 3)
        (Globals.whenHeld (state SDL_SCANCODE_2) (Globals.setWaves 2)
          (Globals.whenHeld (state SDL_SCANCODE_1) (Globals.setWaves 1)
            (Globals.whenHeld (state SDL_SCANCODE_D) (Globals.moveCamera cam.MoveRight)
              (Globals.whenHeld (state SDL_SCANCODE_A) (Globals.moveCamera cam.MoveLeft)
                (Globals.whenHeld (state SDL_SCANCODE_S) (Globals.moveCamera cam.MoveBackward)
                  (Globals.whenHeld (state SDL_SCANCODE_W) (Globals.moveCamera cam.MoveForward)
                    g))))))))

/-- The FrameState domain: 1 to 4 active waves, polygon mode fill or line. -/
def FrameStateOk (g : Globals) : Prop :=
  (g.num_of_waves = 1 ∨ g.num_of_waves = 2 ∨ g.num_of_waves = 3 ∨ g.num_of_waves = 4) ∧
  (g.gPolygonMode = GL_FILL ∨ g.gPolygonMode = GL_LINE)

instance (g : Globals) : Decidable (FrameStateOk g) := by
  unfold FrameStateOk; infer_instance

/-- The keyboard state in which exactly the given scancodes are held. -/
def keysHeld (held : List Nat) : Nat → Bool :=
  fun scancode => held.contains scancode

/-- An example `Camera` class whose member functions leave the camera as it is. -/
def exampleCameraClass : CameraClass :=
  { MouseLook := fun c _ _ => c
    MoveForward := fun c _ => c
    MoveBackward := fun c _ => c
    MoveLeft := fun c _ => c
    MoveRight := fun c _ => c }

/-! ## Draw order and depth comparison -/

/-- The comparison a `glDepthFunc` command selects. -/
def depthFunc? : GLCall → Option GLenum
  | .glDepthFunc func => some func
  | _ => none

/-- The draw commands and the `glDepthFunc` commands of a log, in order. -/
def depthTrace (calls : List GLCall) : List GLCall :=
  calls.filter (fun c => (drawCount? c).isSome || (depthFunc? c).isSome)

/-- The draw commands of a log: the mode of each and the depth comparison
selected when it is issued. -/
def drawsWithDepth (s : Context) (calls : List GLCall) : List (GLenum × GLenum) :=
  (drawsIn s calls).filterMap (fun e => (drawCount? e.1).map (fun mc => (mc.1, e.2.depthFunc)))

/-- The draw commands of a log: the mode of each, and the program, the vertex
array, the active texture unit and the cubemap of unit 0 selected when it is
issued. -/
def drawsWithSelection (s : Context) (calls : List GLCall) :
    List (GLenum × GLuint × GLuint × GLenum × GLuint) :=
  (drawsIn s calls).filterMap (fun e =>
    (drawCount? e.1).map (fun mc =>
      (mc.1, e.2.program, e.2.vertexArray, e.2.activeTexture, e.2.cubemap0)))

/-- The draws of `k` frames with the depth comparison of each: ocean patches
under `GL_LESS`, then the skybox under `GL_LEQUAL`. -/
def frameDraws : Nat → List (GLenum × GLenum)
  | 0 => []
  | k + 1 => [(GL_PATCHES, GL_LESS), (GL_TRIANGLES, GL_LEQUAL)] ++ frameDraws k

/-- Two example iterations of the main loop: the first with key 2 held, the
second with a quit event in the queue. -/
def exampleFrames : List FrameInput :=
  [ { events := [], state := keysHeld [SDL_SCANCODE_2], ticks := 16 },
    { events := [.quit], state := keysHeld [], ticks := 33 } ]

/-- The example driver, except that no set of stages links. -/
def exampleDriverNoLink : Driver :=
  { exampleDriver with links := fun _ => false }

/-- The example driver, except that no linked program validates. -/
def exampleDriverNoValidate : Driver :=
  { exampleDriver with validates := fun _ => false }

/-- The example driver, except that it leaves no info log: a failed compile
reports the info log length 0. -/
def exampleDriverNoLog : Driver :=
  { exampleDriver with infoLog := fun _ _ => "" }

/-! ## The attribute configuration protocol -/

/-- The commands of the attribute configuration: binding a vertex array,
enabling, declaring and disabling an attribute array. -/
def attribCommand : GLCall → Bool
  | .glBindVertexArray _ => true
  | .glEnableVertexAttribArray _ => true
  | .glVertexAttribPointer _ _ _ _ _ _ => true
  | .glDisableVertexAttribArray _ => true
  | _ => false

/-- The attribute configuration commands of a log, in order. -/
def attribProtocol (calls : List GLCall) : List GLCall :=
  calls.filter attribCommand

/-- Is every `glEnableVertexAttribArray(i)` of the log issued after a
`glVertexAttribPointer(i, ...)` of the same vertex array binding?  `declared`
holds the indices declared since the last `glBindVertexArray`. -/
def declaredBeforeEnabled : List GLuint → List GLCall → Bool
  | _, [] => true
  | declared, c :: rest =>
    match c with
    | .glBindVertexArray _ => declaredBeforeEnabled [] rest
    | .glVertexAttribPointer index _ _ _ _ _ => declaredBeforeEnabled (index :: declared) rest
    | .glEnableVertexAttribArray index =>
      declared.contains index && declaredBeforeEnabled declared rest
    | _ => declaredBeforeEnabled declared rest

/-- Is every `glVertexAttribPointer(i, ...)` of the log issued while attribute
array `i` has been enabled in the same vertex array binding?  `enabled` holds
the indices enabled since the last `glBindVertexArray`. -/
def enabledBeforeDeclared : List GLuint → List GLCall → Bool
  | _, [] => true
  | enabled, c :: rest =>
    match c with
    | .glBindVertexArray _ => enabledBeforeDeclared [] rest
    | .glEnableVertexAttribArray index => enabledBeforeDeclared (index :: enabled) rest
    | .glVertexAttribPointer index _ _ _ _ _ =>
      enabled.contains index && enabledBeforeDeclared enabled rest
    | _ => enabledBeforeDeclared enabled rest

/-! ## Shader source files -/

/-- The files the process can open for reading: the content of the file at a
path, `none` when the file cannot be opened. -/
abbrev FileSystem := String → Option String

/-- The newline character (code 10), the delimiter of `std::getline`. -/
def newline : Char := Char.ofNat 10

/-- The call `std::getline(stream, line)` on the unread characters of a
stream.  `none`: no character could be extracted because the stream is at its
end; the fail bit is set and the stream converts to `false`.  Otherwise the
characters before the first newline are stored in `line`, the newline is
extracted and discarded, and the rest stays unread; reaching the end of the
stream after at least one character is a success. -/
def getline (stream : List Char) : Option (String × List Char) :=
  if stream = [] then none
  else
    let line := stream.takeWhile (fun c => c != newline)
    some (String.mk line, stream.drop (line.length + 1))

set_option linter.unusedVariables false in
/-- The loop `while(std::getline(myFile, line)){ result += line + '\n'; }` of
`LoadShaderAsString`, on the unread characters of the file. -/
def LoadShaderLines (stream : List Char) (result : String) : String :=
  match hg : getline stream with
  | some (line, rest) => LoadShaderLines rest (result ++ line.push newline)
  | none => result
termination_by stream.length
decreasing_by
  simp only [getline] at hg
  split at hg
  · cases hg
  · next hne =>
    injection hg with hg
    injection hg with _ hrest
    subst hrest
    have hpos : 0 < stream.length := List.length_pos.mpr hne
    simp only [List.length_drop]
    omega

/-- The function `LoadShaderAsString(filename)` of `main.cpp`, reading from the
given files. -/
def LoadShaderAsString (fs : FileSystem) (filename : String) : String :=
  let result := ""
  match fs filename with
  | some content => LoadShaderLines content.data result
  | none => result

/-- The lines of a text: the runs of characters between newlines, in order;
a last run that no newline ends is a line when it is not empty. -/
def fileLines : List Char → List (List Char)
  | [] => []
  | c :: cs =>
    if c = newline then [] :: fileLines cs
    else
      match fileLines cs with
      | [] => [[c]]
      | l :: ls => (c :: l) :: ls

/-- The lines of a text, each followed by one newline, one after the other. -/
def terminatedLines (text : List Char) : List Char :=
  ((fileLines text).map (fun l => l ++ [newline])).flatten

/-- Example files: one shader source without a final newline. -/
def exampleFiles : FileSystem :=
  fun path => if path = "./shaders/vert.glsl" then some "void main()\n{}" else none

/-! # Theorems -/

/-! ## Reasoning about `Prog` -/

theorem Prog.bind_apply {α β : Type} (m : Prog α) (f : α → Prog β) (w : World) :
    (m >>= f) w = match m w with
      | .returned a w1 => f a w1
      | .exited c w1 => .exited c w1
      | .undefined w1 => .undefined w1 := rfl

theorem Prog.pure_apply {α : Type} (a : α) (w : World) :
    (pure a : Prog α) w = .returned a w := rfl

theorem Prog.glDo_apply (f : GLState → GLState) (w : World) :
    Prog.glDo f w = .returned () { w with gl := f w.gl } := rfl

theorem Prog.glLog_apply (c : GLCall) (w : World) :
    Prog.glLog c w = .returned () (w.log c) := rfl

theorem World.log_programs (w : World) (c : GLCall) : (w.log c).gl.programs = w.gl.programs := rfl

theorem World.log_calls (w : World) (c : GLCall) : (w.log c).gl.calls = w.gl.calls ++ [c] := rfl

theorem World.log_stdout (w : World) (c : GLCall) : (w.log c).stdout = w.stdout := rfl

theorem Prog.cout_apply (text : String) (w : World) :
    Prog.cout text w = .returned () { w with stdout := w.stdout ++ [text] } := rfl

theorem Prog.get_apply (w : World) : Prog.get w = .returned w.globals w := rfl

theorem Prog.modify_apply (f : Globals → Globals) (w : World) :
    Prog.modify f w = .returned () { w with globals := f w.globals } := rfl

theorem Prog.exit_apply {α : Type} (code : Int) (w : World) :
    (Prog.exit code : Prog α) w = .exited code w := rfl

/-! ## Object tables with fresh names -/

section Tables

variable {n : Nat}

theorem shaderNamed_fresh {L : List ShaderObject} (hL : ∀ o ∈ L, 0 < o.name ∧ o.name < n)
    (X : List ShaderObject) (m : Nat) (hm : n ≤ m) :
    shaderNamed (L ++ X) m = shaderNamed X m := by
  induction L with
  | nil => rfl
  | cons o L ih =>
    have h1 : @LT.lt Nat _ o.name n := (hL o (List.mem_cons_self _ _)).2
    have h2 : ¬ (@Eq Nat o.name m) := by omega
    simp only [List.cons_append, shaderNamed]
    rw [if_neg h2]
    exact ih (fun x hx => hL x (List.mem_cons_of_mem _ hx))

theorem shaderNamed_zero {L : List ShaderObject} (hL : ∀ o ∈ L, 0 < o.name ∧ o.name < n)
    (X : List ShaderObject) :
    shaderNamed (L ++ X) 0 = shaderNamed X 0 := by
  induction L with
  | nil => rfl
  | cons o L ih =>
    have h1 : @LT.lt Nat _ 0 o.name := (hL o (List.mem_cons_self _ _)).1
    have h2 : ¬ (@Eq Nat o.name 0) := by omega
    simp only [List.cons_append, shaderNamed]
    rw [if_neg h2]
    exact ih (fun x hx => hL x (List.mem_cons_of_mem _ hx))

theorem updateShaderNamed_fresh {L : List ShaderObject} (hL : ∀ o ∈ L, 0 < o.name ∧ o.name < n)
    (f : ShaderObject → ShaderObject) (X : List ShaderObject) (m : Nat) (hm : n ≤ m) :
    updateShaderNamed f (L ++ X) m = L ++ updateShaderNamed f X m := by
  induction L with
  | nil => rfl
  | cons o L ih =>
    have h1 : @LT.lt Nat _ o.name n := (hL o (List.mem_cons_self _ _)).2
    have h2 : ¬ (@Eq Nat o.name m) := by omega
    simp [updateShaderNamed, h2, ih (fun x hx => hL x (List.mem_cons_of_mem _ hx))]

theorem removeShaderNamed_fresh {L : List ShaderObject} (hL : ∀ o ∈ L, 0 < o.name ∧ o.name < n)
    (X : List ShaderObject) (m : Nat) (hm : n ≤ m) :
    removeShaderNamed (L ++ X) m = L ++ removeShaderNamed X m := by
  induction L with
  | nil => rfl
  | cons o L ih =>
    have h1 : @LT.lt Nat _ o.name n := (hL o (List.mem_cons_self _ _)).2
    have h2 : ¬ (@Eq Nat o.name m) := by omega
    simp [removeShaderNamed, h2, ih (fun x hx => hL x (List.mem_cons_of_mem _ hx))]

theorem programNamed_fresh {P : List ProgramObject}
    (hP : ∀ p ∈ P, p.name < n ∧ ∀ h ∈ p.attached, h < n)
    (Y : List ProgramObject) (m : Nat) (hm : n ≤ m) :
    programNamed (P ++ Y) m = programNamed Y m := by
  induction P with
  | nil => rfl
  | cons o P ih =>
    have h1 : @LT.lt Nat _ o.name n := (hP o (List.mem_cons_self _ _)).1
    have h2 : ¬ (@Eq Nat o.name m) := by omega
    simp only [List.cons_append, programNamed]
    rw [if_neg h2]
    exact ih (fun x hx => hP x (List.mem_cons_of_mem _ hx))

theorem updateProgramNamed_fresh {P : List ProgramObject}
    (hP : ∀ p ∈ P, p.name < n ∧ ∀ h ∈ p.attached, h < n)
    (f : ProgramObject → ProgramObject) (Y : List ProgramObject) (m : Nat) (hm : n ≤ m) :
    updateProgramNamed f (P ++ Y) m = P ++ updateProgramNamed f Y m := by
  induction P with
  | nil => rfl
  | cons o P ih =>
    have h1 : @LT.lt Nat _ o.name n := (hP o (List.mem_cons_self _ _)).1
    have h2 : ¬ (@Eq Nat o.name m) := by omega
    simp [updateProgramNamed, h2, ih (fun x hx => hP x (List.mem_cons_of_mem _ hx))]

theorem attachedSomewhere_fresh {P : List ProgramObject}
    (hP : ∀ p ∈ P, p.name < n ∧ ∀ h ∈ p.attached, h < n)
    (Y : List ProgramObject) (m : Nat) (hm : n ≤ m) :
    attachedSomewhere (P ++ Y) m = attachedSomewhere Y m := by
  induction P with
  | nil => rfl
  | cons o P ih =>
    have h2 : m ∉ o.attached := by
      intro hc
      have h1 : @LT.lt Nat _ m n := (hP o (List.mem_cons_self _ _)).2 m hc
      omega
    simp only [List.cons_append, attachedSomewhere]
    rw [if_neg h2]
    exact ih (fun x hx => hP x (List.mem_cons_of_mem _ hx))

end Tables

/-! ## Driver commands on an explicit context -/

section Commands

variable (nn : GLuint) (S : List ShaderObject) (P : List ProgramObject) (E : List GLenum)
  (C : List GLCall)

theorem createProgram_mk :
    GLCmd.createProgram ⟨nn, S, P, E, C⟩ =
      (nn, ⟨nn + 1, S,
        P ++ [{ name := nn, attached := [], linkStatus := false, validateStatus := false,
                executable := [] }],
        E, C ++ [.glCreateProgram nn]⟩) := rfl

theorem afterCompileGL_mk (d : Driver) (kind : GLenum) (source : String) :
    afterCompileGL d kind source ⟨nn, S, P, E, C⟩ =
      ⟨nn + 1, if d.compiles kind source then S ++ [compiledObject d kind source nn] else S,
        P, E, C ++ compileCalls d kind source nn⟩ := rfl

theorem attachShader_mk (p h : GLuint) :
    GLCmd.attachShader p h ⟨nn, S, P, E, C⟩ =
      match programNamed P p, shaderNamed S h with
      | some q, some _ =>
        if h ∈ q.attached then
          ⟨nn, S, P, E ++ [GL_INVALID_OPERATION], C ++ [.glAttachShader p h]⟩
        else
          ⟨nn, S, updateProgramNamed (fun o => { o with attached := o.attached ++ [h] }) P p, E,
            C ++ [.glAttachShader p h]⟩
      | _, _ => ⟨nn, S, P, E ++ [GL_INVALID_VALUE], C ++ [.glAttachShader p h]⟩ := by
  simp only [GLCmd.attachShader, GLState.record, GLState.raise]

theorem linkProgram_mk (d : Driver) (p : GLuint) :
    GLCmd.linkProgram d p ⟨nn, S, P, E, C⟩ =
      match programNamed P p with
      | some q =>
        ⟨nn, S, updateProgramNamed (fun o =>
          { o with linkStatus := allCompiled S q.attached && d.links (stagesOf S q.attached),
                   validateStatus := false,
                   executable := if allCompiled S q.attached && d.links (stagesOf S q.attached)
                     then stagesOf S q.attached else [] }) P p, E, C ++ [.glLinkProgram p]⟩
      | none => ⟨nn, S, P, E ++ [GL_INVALID_VALUE], C ++ [.glLinkProgram p]⟩ := by
  simp only [GLCmd.linkProgram, GLState.record, GLState.raise]

theorem validateProgram_mk (d : Driver) (p : GLuint) :
    GLCmd.validateProgram d p ⟨nn, S, P, E, C⟩ =
      match programNamed P p with
      | some _ =>
        ⟨nn, S, updateProgramNamed (fun o =>
          { o with validateStatus := o.linkStatus && d.validates o.executable }) P p, E,
          C ++ [.glValidateProgram p]⟩
      | none => ⟨nn, S, P, E ++ [GL_INVALID_VALUE], C ++ [.glValidateProgram p]⟩ := by
  simp only [GLCmd.validateProgram, GLState.record, GLState.raise]

theorem detachShader_mk (p h : GLuint) :
    GLCmd.detachShader p h ⟨nn, S, P, E, C⟩ =
      match programNamed P p, shaderNamed S h with
      | some q, some o =>
        if h ∈ q.attached then
          if o.deleteFlagged && !attachedSomewhere (updateProgramNamed
              (fun r => { r with attached := r.attached.filter (fun x => x != h) }) P p) h then
            ⟨nn, removeShaderNamed S h, updateProgramNamed
              (fun r => { r with attached := r.attached.filter (fun x => x != h) }) P p, E,
              C ++ [.glDetachShader p h]⟩
          else
            ⟨nn, S, updateProgramNamed
              (fun r => { r with attached := r.attached.filter (fun x => x != h) }) P p, E,
              C ++ [.glDetachShader p h]⟩
        else ⟨nn, S, P, E ++ [GL_INVALID_OPERATION], C ++ [.glDetachShader p h]⟩
      | _, _ => ⟨nn, S, P, E ++ [GL_INVALID_VALUE], C ++ [.glDetachShader p h]⟩ := by
  simp only [GLCmd.detachShader, GLState.record, GLState.raise]

theorem deleteShader_mk (h : GLuint) :
    GLCmd.deleteShader h ⟨nn, S, P, E, C⟩ =
      if h = 0 then ⟨nn, S, P, E, C ++ [.glDeleteShader h]⟩
      else match shaderNamed S h with
        | some _ =>
          if attachedSomewhere P h then
            ⟨nn, updateShaderNamed (fun o => { o with deleteFlagged := true }) S h, P, E,
              C ++ [.glDeleteShader h]⟩
          else ⟨nn, removeShaderNamed S h, P, E, C ++ [.glDeleteShader h]⟩
        | none => ⟨nn, S, P, E ++ [GL_INVALID_VALUE], C ++ [.glDeleteShader h]⟩ := by
  simp only [GLCmd.deleteShader, GLState.record, GLState.raise]

end Commands


/-! ## `CompileShader` and the two program builders in closed form -/

theorem enum_facts :
    GL_INFO_LOG_LENGTH ≠ GL_COMPILE_STATUS ∧ GL_FRAGMENT_SHADER ≠ GL_VERTEX_SHADER ∧
    GL_TESS_CONTROL_SHADER ≠ GL_VERTEX_SHADER ∧ GL_TESS_CONTROL_SHADER ≠ GL_FRAGMENT_SHADER ∧
    GL_TESS_EVALUATION_SHADER ≠ GL_VERTEX_SHADER ∧ GL_TESS_EVALUATION_SHADER ≠ GL_FRAGMENT_SHADER ∧
    GL_TESS_EVALUATION_SHADER ≠ GL_TESS_CONTROL_SHADER := by decide

theorem infoLog_roundtrip (s : String) : String.mk (List.take s.length s.data) = s := by
  cases s with
  | mk l => simp [String.length]

theorem infoLog_length_pos (s : String) : (0 : Int) < (s.data.length : Int) + 1 := by
  omega

theorem diagnostic_headers :
    "ERROR: " ++ stageTag GL_VERTEX_SHADER ++ " compilation failed!\n"
      = "ERROR: GL_VERTEX_SHADER compilation failed!\n" ∧
    "ERROR: " ++ stageTag GL_FRAGMENT_SHADER ++ " compilation failed!\n"
      = "ERROR: GL_FRAGMENT_SHADER compilation failed!\n" ∧
    "ERROR: " ++ stageTag GL_TESS_CONTROL_SHADER ++ " compilation failed!\n"
      = "ERROR: GL_TESS_CONTROL_SHADER compilation failed!\n" ∧
    "ERROR: " ++ stageTag GL_TESS_EVALUATION_SHADER ++ " compilation failed!\n"
      = "ERROR: GL_TESS_EVALUATION_SHADER compilation failed!\n" := by
  decide

theorem CompileShader_eval (d : Driver) (kind : GLenum) (source : String) (w : World)
    (hk : kind ∈ stageKinds) (hwf : w.gl.WellFormed)
    (hlog : DiagnosesFailure d (kind, cString source)) :
    CompileShader d kind source w =
      .returned (stageHandle d kind (cString source) w.gl.nextName)
        (afterCompile d kind (cString source) w) := by
  obtain ⟨h0, hS, hP⟩ := hwf
  have a1 := shaderNamed_fresh hS
  have a3 := updateShaderNamed_fresh hS
  have a4 := removeShaderNamed_fresh hS
  have a7 := fun m hm => attachedSomewhere_fresh hP [] m hm
  simp only [List.append_nil] at a7
  have hn : w.gl.nextName ≠ 0 := Nat.pos_iff_ne_zero.mp h0
  obtain ⟨e1, e2, e3, e4, e5, e6, e7⟩ := enum_facts
  obtain ⟨t1, t2, t3, t4⟩ := diagnostic_headers
  have hpos := infoLog_length_pos (d.infoLog kind (cString source))
  have hrt := infoLog_roundtrip (d.infoLog kind (cString source))
  simp only [stageKinds, List.mem_cons, List.mem_singleton, List.not_mem_nil, or_false] at hk
  cases hc : d.compiles kind (cString source)
  · have hl : (d.infoLog kind (cString source)).data ≠ [] := hlog hc
    rcases hk with rfl | rfl | rfl | rfl <;>
    simp [CompileShader, Prog.bind_apply, Prog.pure_apply, Prog.gl, Prog.glDo, Prog.coutBuffer,
      Prog.indeterminate, GLCmd.createShader, GLCmd.shaderSource, GLCmd.compileShader,
      GLCmd.getShaderiv, GLCmd.getShaderInfoLog, GLCmd.deleteShader, GLState.record,
      GLState.raise, a1, a3, a4, a7, shaderNamed, updateShaderNamed, removeShaderNamed,
      attachedSomewhere, hc, hn, hl, hpos, hrt, GL_FALSE, e1, e2, e3, e4, e5, e6, e7, afterCompile,
      afterCompileGL, compileOutput, stageHandle, compileCalls, compiledObject, infoLogLength,
      compileDiagnostic, t1, t2, t3, t4]
  · rcases hk with rfl | rfl | rfl | rfl <;>
    simp [CompileShader, Prog.bind_apply, Prog.pure_apply, Prog.gl, Prog.glDo,
      Prog.indeterminate, GLCmd.createShader, GLCmd.shaderSource, GLCmd.compileShader,
      GLCmd.getShaderiv, GLState.record, GLState.raise, a1, a3, shaderNamed, updateShaderNamed,
      hc, hn, GL_FALSE, e1, e2, e3, e4, e5, e6, e7, afterCompile, afterCompileGL, compileOutput,
      stageHandle, compileCalls, compiledObject]

/-- A failed compile with an empty info log: the buffer of 0 characters is
read without having been written. -/
theorem CompileShader_undefined (d : Driver) (kind : GLenum) (source : String) (w : World)
    (hk : kind ∈ stageKinds) (hwf : w.gl.WellFormed)
    (hc : d.compiles kind (cString source) = false)
    (hl : (d.infoLog kind (cString source)).data = []) :
    ∃ w', CompileShader d kind source w = .undefined w' := by
  obtain ⟨h0, hS, hP⟩ := hwf
  have a1 := shaderNamed_fresh hS
  have a3 := updateShaderNamed_fresh hS
  have hn : w.gl.nextName ≠ 0 := Nat.pos_iff_ne_zero.mp h0
  obtain ⟨e1, e2, e3, e4, e5, e6, e7⟩ := enum_facts
  simp only [stageKinds, List.mem_cons, List.mem_singleton, List.not_mem_nil, or_false] at hk
  rcases hk with rfl | rfl | rfl | rfl <;>
  simp [CompileShader, Prog.bind_apply, Prog.pure_apply, Prog.gl, Prog.glDo, Prog.coutBuffer,
    Prog.indeterminate, GLCmd.createShader, GLCmd.shaderSource, GLCmd.compileShader,
    GLCmd.getShaderiv, GLCmd.getShaderInfoLog, GLState.record, GLState.raise, a1, a3,
    shaderNamed, updateShaderNamed, hc, hn, hl, GL_FALSE, e1, e2, e3, e4, e5, e6, e7]

theorem cString_cuts_at_null :
    cString "v\x00w" = "v" ∧ cString "\x00v" = "" ∧ cString "v" = "v" ∧ cString "" = "" := by
  decide

/-- A source text that starts with a null character: the example driver would
compile the text itself, but it is handed the empty source, and 0 is returned. -/
theorem CompileShader_null_first_source :
    exampleDriver.compiles GL_VERTEX_SHADER "\x00v" = true ∧
    CompileShader exampleDriver GL_VERTEX_SHADER "\x00v" (World.initial exampleCamera) =
      .returned 0 (afterCompile exampleDriver GL_VERTEX_SHADER "" (World.initial exampleCamera)) := by
  refine ⟨by decide, ?_⟩
  rw [CompileShader_eval _ _ _ _ (by decide) (by decide) (by decide)]
  rfl

theorem not_diagnosesFailure {d : Driver} {stage : GLenum × String}
    (h : ¬ DiagnosesFailure d stage) :
    d.compiles stage.1 stage.2 = false ∧ (d.infoLog stage.1 stage.2).data = [] := by
  unfold DiagnosesFailure at h
  push_neg at h
  exact h

theorem createProgram_apply (w : World) :
    Prog.gl GLCmd.createProgram w = .returned w.gl.nextName (afterCreateProgram w) := rfl

theorem afterCreateProgram_wf (w : World) (h : w.gl.WellFormed) :
    (afterCreateProgram w).gl.WellFormed := by
  obtain ⟨h0, hS, hP⟩ := h
  refine ⟨Nat.succ_pos _, ?_, ?_⟩
  · intro o ho
    have := hS o ho
    exact ⟨this.1, Nat.lt_succ_of_lt this.2⟩
  · intro p hp
    simp only [afterCreateProgram, GLCmd.createProgram, List.mem_append, List.mem_singleton] at hp
    rcases hp with hp | rfl
    · have := hP p hp
      exact ⟨Nat.lt_succ_of_lt this.1, fun h hh => Nat.lt_succ_of_lt (this.2 h hh)⟩
    · exact ⟨Nat.lt_succ_self _, fun h hh => by simp at hh⟩

theorem afterCompile_wf (d : Driver) (kind : GLenum) (source : String) (w : World)
    (h : w.gl.WellFormed) : (afterCompile d kind source w).gl.WellFormed := by
  obtain ⟨h0, hS, hP⟩ := h
  refine ⟨Nat.succ_pos _, ?_, ?_⟩
  · intro o ho
    simp only [afterCompile, afterCompileGL] at ho
    split at ho
    · simp only [List.mem_append, List.mem_singleton] at ho
      rcases ho with ho | rfl
      · have := hS o ho
        exact ⟨this.1, Nat.lt_succ_of_lt this.2⟩
      · exact ⟨h0, Nat.lt_succ_self _⟩
    · have := hS o ho
      exact ⟨this.1, Nat.lt_succ_of_lt this.2⟩
  · intro p hp
    have := hP p hp
    exact ⟨Nat.lt_succ_of_lt this.1, fun h hh => Nat.lt_succ_of_lt (this.2 h hh)⟩

theorem afterCompile_nextName (d : Driver) (kind : GLenum) (source : String) (w : World) :
    (afterCompile d kind source w).gl.nextName = w.gl.nextName + 1 := rfl

theorem afterCreateProgram_nextName (w : World) :
    (afterCreateProgram w).gl.nextName = w.gl.nextName + 1 := rfl

theorem afterCompile_mk (d : Driver) (kind : GLenum) (source : String) (s : GLState)
    (out : List String) (g : Globals) :
    afterCompile d kind source ⟨s, out, g⟩ =
      ⟨afterCompileGL d kind source s, out ++ compileOutput d kind source, g⟩ := rfl

theorem afterCreateProgram_mk (s : GLState) (out : List String) (g : Globals) :
    afterCreateProgram ⟨s, out, g⟩ = ⟨(GLCmd.createProgram s).2, out, g⟩ := rfl

set_option maxHeartbeats 1000000 in
theorem CreateShaderProgram_eval (d : Driver) (vs fs : String) (w : World)
    (hwf : w.gl.WellFormed) (hlog : ∀ st ∈ simpleStages vs fs, DiagnosesFailure d st) :
    CreateShaderProgram d vs fs w =
      .returned w.gl.nextName (afterBuild d (simpleStages vs fs) w) := by
  have w1 := afterCreateProgram_wf w hwf
  have w2 := afterCompile_wf d GL_VERTEX_SHADER (cString vs) _ w1
  have k1 : GL_VERTEX_SHADER ∈ stageKinds := by simp [stageKinds]
  have k2 : GL_FRAGMENT_SHADER ∈ stageKinds := by simp [stageKinds]
  have g1 : DiagnosesFailure d (GL_VERTEX_SHADER, cString vs) :=
    hlog _ (by simp [simpleStages])
  have g2 : DiagnosesFailure d (GL_FRAGMENT_SHADER, cString fs) :=
    hlog _ (by simp [simpleStages])
  simp only [CreateShaderProgram, Prog.bind_apply, createProgram_apply, Prog.glDo_apply,
    Prog.pure_apply, CompileShader_eval d _ _ _ k1 w1 g1, CompileShader_eval d _ _ _ k2 w2 g2,
    afterCompile_nextName, afterCreateProgram_nextName, simpleStages]
  clear w1 w2 g1 g2 hlog
  generalize cString vs = vs
  generalize cString fs = fs
  obtain ⟨⟨nn, S, P, E, C⟩, out, g⟩ := w
  obtain ⟨h0, hS, hP⟩ := hwf
  simp only at h0 hS hP
  have a1 := shaderNamed_fresh hS
  have a2 := shaderNamed_zero hS
  have a3 := updateShaderNamed_fresh hS
  have a4 := removeShaderNamed_fresh hS
  have a5 := programNamed_fresh hP
  have a6 := updateProgramNamed_fresh hP
  have a7 := attachedSomewhere_fresh hP
  have b1 := fun m hm => a1 [] m hm
  have b2 := a2 []
  simp only [List.append_nil] at b1 b2
  have l1 : nn ≤ nn + 1 := Nat.le_add_right _ _
  have l2 : nn ≤ nn + 1 + 1 := Nat.le_trans l1 (Nat.le_add_right _ _)
  cases hv : d.compiles GL_VERTEX_SHADER vs <;> cases hf : d.compiles GL_FRAGMENT_SHADER fs <;>
  simp [l1, l2, afterBuild, buildCalls, builtProgram, stageHandles,
    stageCompileCalls, compiledStages, stageDiagnostics, zeroHandleErrors, afterCompile_mk,
    afterCompileGL_mk, afterCreateProgram_mk, createProgram_mk, compileCalls, compileOutput,
    stageHandle, compiledObject, deleteShader_mk, attachShader_mk, linkProgram_mk,
    validateProgram_mk, detachShader_mk,
    a1, a2, a3, a4, a5, a6, a7, b1, b2, shaderNamed, updateShaderNamed, removeShaderNamed,
    programNamed, updateProgramNamed, attachedSomewhere, stagesOf, allCompiled, hv, hf]

set_option maxHeartbeats 4000000 in
theorem CreateShaderProgramWithTessellation_eval (d : Driver) (vs fs tcs tes : String) (w : World)
    (hwf : w.gl.WellFormed)
    (hlog : ∀ st ∈ tessellationStages vs fs tcs tes, DiagnosesFailure d st) :
    CreateShaderProgramWithTessellation d vs fs tcs tes w =
      .returned w.gl.nextName (afterBuild d (tessellationStages vs fs tcs tes) w) := by
  have w1 := afterCreateProgram_wf w hwf
  have w2 := afterCompile_wf d GL_VERTEX_SHADER (cString vs) _ w1
  have w3 := afterCompile_wf d GL_FRAGMENT_SHADER (cString fs) _ w2
  have w4 := afterCompile_wf d GL_TESS_CONTROL_SHADER (cString tcs) _ w3
  have k1 : GL_VERTEX_SHADER ∈ stageKinds := by simp [stageKinds]
  have k2 : GL_FRAGMENT_SHADER ∈ stageKinds := by simp [stageKinds]
  have k3 : GL_TESS_CONTROL_SHADER ∈ stageKinds := by simp [stageKinds]
  have k4 : GL_TESS_EVALUATION_SHADER ∈ stageKinds := by simp [stageKinds]
  have g1 : DiagnosesFailure d (GL_VERTEX_SHADER, cString vs) :=
    hlog _ (by simp [tessellationStages])
  have g2 : DiagnosesFailure d (GL_FRAGMENT_SHADER, cString fs) :=
    hlog _ (by simp [tessellationStages])
  have g3 : DiagnosesFailure d (GL_TESS_CONTROL_SHADER, cString tcs) :=
    hlog _ (by simp [tessellationStages])
  have g4 : DiagnosesFailure d (GL_TESS_EVALUATION_SHADER, cString tes) :=
    hlog _ (by simp [tessellationStages])
  simp only [CreateShaderProgramWithTessellation, Prog.bind_apply, createProgram_apply,
    Prog.glDo_apply, Prog.pure_apply,
    CompileShader_eval d _ _ _ k1 w1 g1, CompileShader_eval d _ _ _ k2 w2 g2,
    CompileShader_eval d _ _ _ k3 w3 g3, CompileShader_eval d _ _ _ k4 w4 g4,
    afterCompile_nextName, afterCreateProgram_nextName, tessellationStages]
  clear w1 w2 w3 w4 g1 g2 g3 g4 hlog
  generalize cString vs = vs
  generalize cString fs = fs
  generalize cString tcs = tcs
  generalize cString tes = tes
  obtain ⟨⟨nn, S, P, E, C⟩, out, g⟩ := w
  obtain ⟨h0, hS, hP⟩ := hwf
  simp only at h0 hS hP
  have a1 := shaderNamed_fresh hS
  have a2 := shaderNamed_zero hS
  have a3 := updateShaderNamed_fresh hS
  have a4 := removeShaderNamed_fresh hS
  have a5 := programNamed_fresh hP
  have a6 := updateProgramNamed_fresh hP
  have a7 := attachedSomewhere_fresh hP
  have b1 := fun m hm => a1 [] m hm
  have b2 := a2 []
  simp only [List.append_nil] at b1 b2
  have l1 : nn ≤ nn + 1 := Nat.le_add_right _ _
  have l2 : nn ≤ nn + 1 + 1 := Nat.le_trans l1 (Nat.le_add_right _ _)
  have l3 : nn ≤ nn + 1 + 1 + 1 := Nat.le_trans l2 (Nat.le_add_right _ _)
  have l4 : nn ≤ nn + 1 + 1 + 1 + 1 := Nat.le_trans l3 (Nat.le_add_right _ _)
  have d1 : ¬ (@Eq Nat (nn + 1) nn) := by omega
  have d2 : ¬ (@Eq Nat (nn + 1 + 1) nn) := by omega
  have d3 : ¬ (@Eq Nat (nn + 1 + 1 + 1) nn) := by omega
  cases hv : d.compiles GL_VERTEX_SHADER vs <;> cases hf : d.compiles GL_FRAGMENT_SHADER fs <;>
  cases hc : d.compiles GL_TESS_CONTROL_SHADER tcs <;>
  cases he : d.compiles GL_TESS_EVALUATION_SHADER tes <;>
  simp [l1, l2, l3, l4, d1, d2, d3, afterBuild, buildCalls, builtProgram, stageHandles,
    stageCompileCalls, compiledStages, stageDiagnostics, zeroHandleErrors, afterCompile_mk,
    afterCompileGL_mk, afterCreateProgram_mk, createProgram_mk, compileCalls, compileOutput,
    stageHandle, compiledObject, deleteShader_mk, attachShader_mk, linkProgram_mk,
    validateProgram_mk, detachShader_mk,
    a1, a2, a3, a4, a5, a6, a7, b1, b2, shaderNamed, updateShaderNamed, removeShaderNamed,
    programNamed, updateProgramNamed, attachedSomewhere, stagesOf, allCompiled, hv, hf, hc, he]

/-- A build in which a stage fails to compile with an empty info log reads the
unwritten buffer of that stage's `CompileShader` call. -/
theorem CreateShaderProgram_undefined (d : Driver) (vs fs : String) (w : World)
    (hwf : w.gl.WellFormed) (h : ¬ ∀ st ∈ simpleStages vs fs, DiagnosesFailure d st) :
    ∃ w', CreateShaderProgram d vs fs w = .undefined w' := by
  have w1 := afterCreateProgram_wf w hwf
  have k1 : GL_VERTEX_SHADER ∈ stageKinds := by simp [stageKinds]
  have k2 : GL_FRAGMENT_SHADER ∈ stageKinds := by simp [stageKinds]
  by_cases g1 : DiagnosesFailure d (GL_VERTEX_SHADER, cString vs)
  · have w2 := afterCompile_wf d GL_VERTEX_SHADER (cString vs) _ w1
    have g2 : ¬ DiagnosesFailure d (GL_FRAGMENT_SHADER, cString fs) := by
      intro g2
      apply h
      intro st hst
      simp only [simpleStages, List.mem_cons, List.mem_singleton, List.not_mem_nil,
        or_false] at hst
      rcases hst with rfl | rfl
      · exact g1
      · exact g2
    obtain ⟨c, l⟩ := not_diagnosesFailure g2
    obtain ⟨w', e⟩ := CompileShader_undefined d _ fs _ k2 w2 c l
    exact ⟨w', by
      simp only [CreateShaderProgram, Prog.bind_apply, createProgram_apply,
        CompileShader_eval d _ _ _ k1 w1 g1, e]⟩
  · obtain ⟨c, l⟩ := not_diagnosesFailure g1
    obtain ⟨w', e⟩ := CompileShader_undefined d _ vs _ k1 w1 c l
    exact ⟨w', by simp only [CreateShaderProgram, Prog.bind_apply, createProgram_apply, e]⟩

theorem CreateShaderProgramWithTessellation_undefined (d : Driver) (vs fs tcs tes : String)
    (w : World) (hwf : w.gl.WellFormed)
    (h : ¬ ∀ st ∈ tessellationStages vs fs tcs tes, DiagnosesFailure d st) :
    ∃ w', CreateShaderProgramWithTessellation d vs fs tcs tes w = .undefined w' := by
  have w1 := afterCreateProgram_wf w hwf
  have k1 : GL_VERTEX_SHADER ∈ stageKinds := by simp [stageKinds]
  have k2 : GL_FRAGMENT_SHADER ∈ stageKinds := by simp [stageKinds]
  have k3 : GL_TESS_CONTROL_SHADER ∈ stageKinds := by simp [stageKinds]
  have k4 : GL_TESS_EVALUATION_SHADER ∈ stageKinds := by simp [stageKinds]
  by_cases g1 : DiagnosesFailure d (GL_VERTEX_SHADER, cString vs)
  · have w2 := afterCompile_wf d GL_VERTEX_SHADER (cString vs) _ w1
    by_cases g2 : DiagnosesFailure d (GL_FRAGMENT_SHADER, cString fs)
    · have w3 := afterCompile_wf d GL_FRAGMENT_SHADER (cString fs) _ w2
      by_cases g3 : DiagnosesFailure d (GL_TESS_CONTROL_SHADER, cString tcs)
      · have w4 := afterCompile_wf d GL_TESS_CONTROL_SHADER (cString tcs) _ w3
        have g4 : ¬ DiagnosesFailure d (GL_TESS_EVALUATION_SHADER, cString tes) := by
          intro g4
          apply h
          intro st hst
          simp only [tessellationStages, List.mem_cons, List.mem_singleton, List.not_mem_nil,
            or_false] at hst
          rcases hst with rfl | rfl | rfl | rfl
          · exact g1
          · exact g2
          · exact g3
          · exact g4
        obtain ⟨c, l⟩ := not_diagnosesFailure g4
        obtain ⟨w', e⟩ := CompileShader_undefined d _ tes _ k4 w4 c l
        exact ⟨w', by
          simp only [CreateShaderProgramWithTessellation, Prog.bind_apply, createProgram_apply,
            CompileShader_eval d _ _ _ k1 w1 g1, CompileShader_eval d _ _ _ k2 w2 g2,
            CompileShader_eval d _ _ _ k3 w3 g3, e]⟩
      · obtain ⟨c, l⟩ := not_diagnosesFailure g3
        obtain ⟨w', e⟩ := CompileShader_undefined d _ tcs _ k3 w3 c l
        exact ⟨w', by
          simp only [CreateShaderProgramWithTessellation, Prog.bind_apply, createProgram_apply,
            CompileShader_eval d _ _ _ k1 w1 g1, CompileShader_eval d _ _ _ k2 w2 g2, e]⟩
    · obtain ⟨c, l⟩ := not_diagnosesFailure g2
      obtain ⟨w', e⟩ := CompileShader_undefined d _ fs _ k2 w2 c l
      exact ⟨w', by
        simp only [CreateShaderProgramWithTessellation, Prog.bind_apply, createProgram_apply,
          CompileShader_eval d _ _ _ k1 w1 g1, e]⟩
  · obtain ⟨c, l⟩ := not_diagnosesFailure g1
    obtain ⟨w', e⟩ := CompileShader_undefined d _ vs _ k1 w1 c l
    exact ⟨w', by
      simp only [CreateShaderProgramWithTessellation, Prog.bind_apply, createProgram_apply, e]⟩


/-! ## The command log of a build -/

theorem attachedHandles_append (p : GLuint) (a b : List GLCall) :
    attachedHandles p (a ++ b) = attachedHandles p a ++ attachedHandles p b := by
  simp [attachedHandles, List.filterMap_append]

theorem attachedHandles_compileCalls (d : Driver) (p : GLuint) (kind : GLenum) (source : String)
    (m : GLuint) : attachedHandles p (compileCalls d kind source m) = [] := by
  unfold compileCalls
  split <;> simp [attachedHandles, attachedHandle?]

theorem attachedHandles_stageCompileCalls (d : Driver) (p : GLuint)
    (stages : List (GLenum × String)) (m : GLuint) :
    attachedHandles p (stageCompileCalls d stages m) = [] := by
  induction stages generalizing m with
  | nil => rfl
  | cons st rest ih =>
    obtain ⟨kind, source⟩ := st
    simp [stageCompileCalls, attachedHandles_append, attachedHandles_compileCalls, ih]

theorem attachedHandles_attach (p : GLuint) (hs : List GLuint) :
    attachedHandles p (hs.map (GLCall.glAttachShader p)) = hs := by
  induction hs with
  | nil => rfl
  | cons h hs ih =>
    simp only [attachedHandles, List.map_cons, List.filterMap_cons, attachedHandle?, if_true] at ih ⊢
    rw [ih]

theorem attachedHandles_detach (p q : GLuint) (hs : List GLuint) :
    attachedHandles p (hs.map (GLCall.glDetachShader q)) = [] := by
  induction hs with
  | nil => rfl
  | cons h hs ih =>
    simp only [attachedHandles, List.map_cons, List.filterMap_cons, attachedHandle?] at ih ⊢
    exact ih

theorem attachedHandles_delete (p : GLuint) (hs : List GLuint) :
    attachedHandles p (hs.map GLCall.glDeleteShader) = [] := by
  induction hs with
  | nil => rfl
  | cons h hs ih =>
    simp only [attachedHandles, List.map_cons, List.filterMap_cons, attachedHandle?] at ih ⊢
    exact ih

/-- The handles a build attaches are the handles its `CompileShader` calls returned. -/
theorem attachedHandles_buildCalls (d : Driver) (stages : List (GLenum × String)) (p : GLuint) :
    attachedHandles p (buildCalls d stages p) = stageHandles d stages (p + 1) := by
  simp only [buildCalls, attachedHandles_append, attachedHandles_stageCompileCalls,
    attachedHandles_attach, attachedHandles_detach, attachedHandles_delete]
  simp [attachedHandles, attachedHandle?]

theorem stageHandles_length (d : Driver) (stages : List (GLenum × String)) (m : GLuint) :
    (stageHandles d stages m).length = stages.length := by
  induction stages generalizing m with
  | nil => rfl
  | cons st rest ih =>
    obtain ⟨kind, source⟩ := st
    simp [stageHandles, ih]

theorem detach_mem_buildCalls (d : Driver) (stages : List (GLenum × String)) (p h : GLuint)
    (hh : h ∈ stageHandles d stages (p + 1)) :
    GLCall.glDetachShader p h ∈ buildCalls d stages p := by
  simp only [buildCalls, List.mem_append, List.mem_map]
  exact Or.inl (Or.inr ⟨h, hh, rfl⟩)

theorem delete_mem_buildCalls (d : Driver) (stages : List (GLenum × String)) (p h : GLuint)
    (hh : h ∈ stageHandles d stages (p + 1)) :
    GLCall.glDeleteShader h ∈ buildCalls d stages p := by
  simp only [buildCalls, List.mem_append, List.mem_map]
  exact Or.inr ⟨h, hh, rfl⟩

theorem created_stageCompileCalls (d : Driver) (stages : List (GLenum × String)) (m : Nat)
    (kind : GLenum) (name : Nat)
    (hc : GLCall.glCreateShader kind name ∈ stageCompileCalls d stages m) :
    m ≤ name ∧ (GLCall.glDeleteShader name ∈ stageCompileCalls d stages m ∨
      name ∈ stageHandles d stages m) := by
  induction stages generalizing m with
  | nil => simp [stageCompileCalls] at hc
  | cons st rest ih =>
    obtain ⟨k, source⟩ := st
    simp only [stageCompileCalls, List.mem_append] at hc
    rcases hc with hc | hc
    · have hn : name = m := by
        unfold compileCalls at hc
        split at hc <;> simp at hc <;> exact hc.2
      subst hn
      refine ⟨Nat.le_refl _, ?_⟩
      by_cases hcomp : d.compiles k source = true
      · right
        simp [stageHandles, stageHandle, hcomp]
      · left
        simp [stageCompileCalls, compileCalls, hcomp]
    · obtain ⟨h1, h2⟩ := ih (m + 1) hc
      refine ⟨by omega, ?_⟩
      rcases h2 with h2 | h2
      · left
        simp only [stageCompileCalls, List.mem_append]
        exact Or.inr h2
      · right
        simp only [stageHandles, List.mem_cons]
        exact Or.inr h2

/-- Every shader object a build creates has a name above the program's, and a
`glDeleteShader` on it is issued during the build. -/
theorem created_buildCalls (d : Driver) (stages : List (GLenum × String)) (p : Nat)
    (kind : GLenum) (name : Nat)
    (hc : GLCall.glCreateShader kind name ∈ buildCalls d stages p) :
    p < name ∧ GLCall.glDeleteShader name ∈ buildCalls d stages p := by
  have hmem : GLCall.glCreateShader kind name ∈ stageCompileCalls d stages (p + 1) := by
    simp only [buildCalls, List.mem_append, List.mem_map, List.mem_cons, List.mem_singleton,
      List.not_mem_nil, or_false] at hc
    rcases hc with ((((hc | hc) | ⟨_, _, hc⟩) | hc | hc) | ⟨_, _, hc⟩) | ⟨_, _, hc⟩
    · cases hc
    · exact hc
    · cases hc
    · cases hc
    · cases hc
    · cases hc
    · cases hc
  obtain ⟨h1, h2⟩ := created_stageCompileCalls d stages (p + 1) kind name hmem
  refine ⟨by omega, ?_⟩
  rcases h2 with h2 | h2
  · simp only [buildCalls, List.mem_append]
    exact Or.inl (Or.inl (Or.inl (Or.inl (Or.inr h2))))
  · exact delete_mem_buildCalls d stages p name h2


/-! ## Claims on the shader pipeline -/

theorem programNamed_afterBuild (d : Driver) (stages : List (GLenum × String)) (w : World)
    (hwf : w.gl.WellFormed) :
    programNamed (afterBuild d stages w).gl.programs w.gl.nextName
      = some (builtProgram d stages w.gl.nextName) := by
  obtain ⟨_, _, hP⟩ := hwf
  simp only [afterBuild]
  rw [programNamed_fresh hP _ _ (Nat.le_refl _)]
  simp [programNamed, builtProgram]

theorem not_mem_shaderNames_afterBuild (d : Driver) (stages : List (GLenum × String)) (w : World)
    (hwf : w.gl.WellFormed) (name : Nat) (hn : w.gl.nextName < name) :
    name ∉ (afterBuild d stages w).gl.shaderNames := by
  obtain ⟨_, hS, _⟩ := hwf
  simp only [afterBuild, GLState.shaderNames, List.mem_map, not_exists, not_and]
  intro o ho hname
  have h1 : @LT.lt Nat _ o.name w.gl.nextName := (hS o ho).2
  have h2 : @Eq Nat o.name name := hname
  have h3 : @LT.lt Nat _ w.gl.nextName name := hn
  omega

theorem afterBuild_wf (d : Driver) (stages : List (GLenum × String)) (w : World)
    (hwf : w.gl.WellFormed) : (afterBuild d stages w).gl.WellFormed := by
  obtain ⟨h0, hS, hP⟩ := hwf
  have hle : @LE.le Nat _ w.gl.nextName (w.gl.nextName + 1 + stages.length) := by omega
  have hlt : @LT.lt Nat _ w.gl.nextName (w.gl.nextName + 1 + stages.length) := by omega
  refine ⟨?_, ?_, ?_⟩
  · exact Nat.lt_of_lt_of_le h0 hle
  · intro o ho
    exact ⟨(hS o ho).1, Nat.lt_of_lt_of_le (hS o ho).2 hle⟩
  · intro p hp
    simp only [afterBuild, List.mem_append, List.mem_singleton] at hp
    rcases hp with hp | rfl
    · exact ⟨Nat.lt_of_lt_of_le (hP p hp).1 hle,
        fun h hh => Nat.lt_of_lt_of_le ((hP p hp).2 h hh) hle⟩
    · refine ⟨hlt, ?_⟩
      intro h hh
      simp [builtProgram] at hh

/-- What `afterBuild` says about stage units, for any list of stages. -/
theorem afterBuild_hygiene (d : Driver) (stages : List (GLenum × String)) (w : World)
    (hwf : w.gl.WellFormed) :
    (afterBuild d stages w).gl.calls = w.gl.calls ++ buildCalls d stages w.gl.nextName ∧
    (attachedHandles w.gl.nextName (buildCalls d stages w.gl.nextName)).length = stages.length ∧
    (∀ h ∈ attachedHandles w.gl.nextName (buildCalls d stages w.gl.nextName),
      GLCall.glDetachShader w.gl.nextName h ∈ buildCalls d stages w.gl.nextName ∧
      GLCall.glDeleteShader h ∈ buildCalls d stages w.gl.nextName) ∧
    (∀ kind name, GLCall.glCreateShader kind name ∈ buildCalls d stages w.gl.nextName →
      GLCall.glDeleteShader name ∈ buildCalls d stages w.gl.nextName ∧
      name ∉ (afterBuild d stages w).gl.shaderNames) ∧
    (afterBuild d stages w).gl.shaders = w.gl.shaders ∧
    (programNamed (afterBuild d stages w).gl.programs w.gl.nextName).map (fun q => q.attached)
      = some [] ∧
    (afterBuild d stages w).gl.WellFormed := by
  refine ⟨rfl, ?_, ?_, ?_, rfl, ?_, afterBuild_wf d stages w hwf⟩
  · rw [attachedHandles_buildCalls, stageHandles_length]
  · intro h hh
    rw [attachedHandles_buildCalls] at hh
    exact ⟨detach_mem_buildCalls d stages _ h hh, delete_mem_buildCalls d stages _ h hh⟩
  · intro kind name hc
    obtain ⟨h1, h2⟩ := created_buildCalls d stages _ kind name hc
    exact ⟨h2, not_mem_shaderNames_afterBuild d stages w hwf name h1⟩
  · rw [programNamed_afterBuild d stages w hwf]
    rfl

/-- C1. Stage-unit hygiene.  For every driver (hence every combination of
compile outcomes of the stages) and every well-formed context: when
`CreateShaderProgramWithTessellation` (four stages) or `CreateShaderProgram`
(two stages) returns, among the commands `new` issued during the call there
are four (two) `glAttachShader` commands, and for each handle `h` they attach a
`glDetachShader p h` and a `glDeleteShader h` were issued; for every shader
object created during the call a `glDeleteShader` on it was issued and the
object no longer exists; the shader table is the one from before the call,
the returned program has nothing attached, and the context is well-formed
again (so the same holds for the next build).  The build returns whenever the
driver leaves an info log for each stage it does not compile; it does not
return only when some stage fails to compile with an empty info log (then
`CompileShader` reads the diagnostic buffer it never wrote). -/
theorem stage_unit_hygiene (d : Driver) (vs fs tcs tes : String) (w : World)
    (hwf : w.gl.WellFormed) :
    ((∀ st ∈ tessellationStages vs fs tcs tes, DiagnosesFailure d st) →
      ∃ p w' new, CreateShaderProgramWithTessellation d vs fs tcs tes w = .returned p w' ∧
        w'.gl.calls = w.gl.calls ++ new ∧
        (attachedHandles p new).length = 4 ∧
        (∀ h ∈ attachedHandles p new,
          GLCall.glDetachShader p h ∈ new ∧ GLCall.glDeleteShader h ∈ new) ∧
        (∀ kind name, GLCall.glCreateShader kind name ∈ new →
          GLCall.glDeleteShader name ∈ new ∧ name ∉ w'.gl.shaderNames) ∧
        w'.gl.shaders = w.gl.shaders ∧
        (programNamed w'.gl.programs p).map (fun q => q.attached) = some [] ∧
        w'.gl.WellFormed) ∧
    ((∀ st ∈ simpleStages vs fs, DiagnosesFailure d st) →
      ∃ p w' new, CreateShaderProgram d vs fs w = .returned p w' ∧
        w'.gl.calls = w.gl.calls ++ new ∧
        (attachedHandles p new).length = 2 ∧
        (∀ h ∈ attachedHandles p new,
          GLCall.glDetachShader p h ∈ new ∧ GLCall.glDeleteShader h ∈ new) ∧
        (∀ kind name, GLCall.glCreateShader kind name ∈ new →
          GLCall.glDeleteShader name ∈ new ∧ name ∉ w'.gl.shaderNames) ∧
        w'.gl.shaders = w.gl.shaders ∧
        (programNamed w'.gl.programs p).map (fun q => q.attached) = some [] ∧
        w'.gl.WellFormed) ∧
    ((¬ ∀ st ∈ tessellationStages vs fs tcs tes, DiagnosesFailure d st) →
      ∃ w', CreateShaderProgramWithTessellation d vs fs tcs tes w = .undefined w') ∧
    ((¬ ∀ st ∈ simpleStages vs fs, DiagnosesFailure d st) →
      ∃ w', CreateShaderProgram d vs fs w = .undefined w') := by
  refine ⟨?_, ?_, ?_, ?_⟩
  · intro hlog
    exact ⟨_, _, _, CreateShaderProgramWithTessellation_eval d vs fs tcs tes w hwf hlog,
      afterBuild_hygiene d (tessellationStages vs fs tcs tes) w hwf⟩
  · intro hlog
    exact ⟨_, _, _, CreateShaderProgram_eval d vs fs w hwf hlog,
      afterBuild_hygiene d (simpleStages vs fs) w hwf⟩
  · exact CreateShaderProgramWithTessellation_undefined d vs fs tcs tes w hwf
  · exact CreateShaderProgram_undefined d vs fs w hwf

/-- Witness for C1: a fresh context, the example driver, a missing (empty)
fragment source for the ocean pipeline and for the skybox pipeline. -/
theorem stage_unit_hygiene_witness :
    (World.initial exampleCamera).gl.WellFormed ∧
    (∀ st ∈ tessellationStages "v" "" "c" "e", DiagnosesFailure exampleDriver st) ∧
    (∀ st ∈ simpleStages "v" "", DiagnosesFailure exampleDriver st) ∧
    (∃ p w' new, CreateShaderProgramWithTessellation exampleDriver "v" "" "c" "e"
        (World.initial exampleCamera) = .returned p w' ∧
      w'.gl.calls = (World.initial exampleCamera).gl.calls ++ new ∧
      (attachedHandles p new).length = 4 ∧
      (∀ h ∈ attachedHandles p new,
        GLCall.glDetachShader p h ∈ new ∧ GLCall.glDeleteShader h ∈ new) ∧
      (∀ kind name, GLCall.glCreateShader kind name ∈ new →
        GLCall.glDeleteShader name ∈ new ∧ name ∉ w'.gl.shaderNames) ∧
      w'.gl.shaders = (World.initial exampleCamera).gl.shaders ∧
      (programNamed w'.gl.programs p).map (fun q => q.attached) = some [] ∧
      w'.gl.WellFormed) ∧
    (∃ p w' new, CreateShaderProgram exampleDriver "v" "" (World.initial exampleCamera)
        = .returned p w' ∧
      w'.gl.calls = (World.initial exampleCamera).gl.calls ++ new ∧
      (attachedHandles p new).length = 2 ∧
      (∀ h ∈ attachedHandles p new,
        GLCall.glDetachShader p h ∈ new ∧ GLCall.glDeleteShader h ∈ new) ∧
      (∀ kind name, GLCall.glCreateShader kind name ∈ new →
        GLCall.glDeleteShader name ∈ new ∧ name ∉ w'.gl.shaderNames) ∧
      w'.gl.shaders = (World.initial exampleCamera).gl.shaders ∧
      (programNamed w'.gl.programs p).map (fun q => q.attached) = some [] ∧
      w'.gl.WellFormed) :=
  ⟨by decide, by decide, by decide,
    (stage_unit_hygiene exampleDriver "v" "" "c" "e" (World.initial exampleCamera)
      (by decide)).1 (by decide),
    (stage_unit_hygiene exampleDriver "v" "" "c" "e" (World.initial exampleCamera)
      (by decide)).2.1 (by decide)⟩


theorem shaderNamed_afterCompile (d : Driver) (kind : GLenum) (source : String) (w : World)
    (hwf : w.gl.WellFormed) :
    shaderNamed (afterCompile d kind source w).gl.shaders w.gl.nextName =
      if d.compiles kind source then some (compiledObject d kind source w.gl.nextName)
      else none := by
  obtain ⟨_, hS, _⟩ := hwf
  have b := shaderNamed_fresh hS [] _ (Nat.le_refl _)
  simp only [List.append_nil] at b
  simp only [afterCompile, afterCompileGL]
  split
  · rw [shaderNamed_fresh hS _ _ (Nat.le_refl _)]
    simp [shaderNamed, compiledObject]
  · rw [b]; rfl

/-- C2 (the code at any input).  `CompileShader` on each of the four stage
kinds, every source text and every well-formed context.  The driver is handed
the source up to its first null character (`source.c_str()`).  If the compile
status is true the function returns the name of the one shader object it
created; that object exists, has the requested kind, holds the source handed
over and is compiled; no `glDeleteShader` was issued and nothing was printed.
If the compile status is false and the driver left an info log, the function
returns 0 (it returns: the process is not ended), has created one shader
object of the requested kind, has issued `glDeleteShader` on it, the object no
longer exists, and it has printed the info log (up to its first null
character) tagged with the stage kind.  If the compile status is false and the
info log is empty, the reported length is 0, the function allocates a buffer
of 0 characters, the driver writes nothing into it and the function prints
from it: the outcome is an indeterminate read, not a return of 0. -/
theorem CompileShader_outcomes (d : Driver) (kind : GLenum) (source : String) (w : World)
    (hk : kind ∈ stageKinds) (hwf : w.gl.WellFormed) :
    (d.compiles kind (cString source) = true →
      ∃ w' new, CompileShader d kind source w = .returned w.gl.nextName w' ∧
        w'.gl.calls = w.gl.calls ++ new ∧
        GLCall.glCreateShader kind w.gl.nextName ∈ new ∧
        (∀ k name, GLCall.glCreateShader k name ∈ new → k = kind ∧ name = w.gl.nextName) ∧
        GLCall.glShaderSource w.gl.nextName (cString source) ∈ new ∧
        (∀ h, GLCall.glDeleteShader h ∉ new) ∧
        (∃ o, shaderNamed w'.gl.shaders w.gl.nextName = some o ∧ o.name = w.gl.nextName ∧
          o.kind = kind ∧ o.source = cString source ∧ o.compiled = true) ∧
        w'.stdout = w.stdout) ∧
    (d.compiles kind (cString source) = false →
      (d.infoLog kind (cString source)).data ≠ [] →
      ∃ w' new, CompileShader d kind source w = .returned 0 w' ∧
        w'.gl.calls = w.gl.calls ++ new ∧
        GLCall.glCreateShader kind w.gl.nextName ∈ new ∧
        (∀ k name, GLCall.glCreateShader k name ∈ new → k = kind ∧ name = w.gl.nextName) ∧
        GLCall.glShaderSource w.gl.nextName (cString source) ∈ new ∧
        GLCall.glDeleteShader w.gl.nextName ∈ new ∧
        shaderNamed w'.gl.shaders w.gl.nextName = none ∧
        w'.stdout = w.stdout ++
          ["ERROR: " ++ stageTag kind ++ " compilation failed!\n" ++
            cString (d.infoLog kind (cString source)) ++ "\n"]) ∧
    (d.compiles kind (cString source) = false →
      (d.infoLog kind (cString source)).data = [] →
      ∃ w', CompileShader d kind source w = .undefined w') := by
  have hs := shaderNamed_afterCompile d kind (cString source) w hwf
  refine ⟨?_, ?_, ?_⟩
  · intro hc
    have hlog : DiagnosesFailure d (kind, cString source) := by
      intro hc'
      rw [hc] at hc'
      cases hc'
    refine ⟨afterCompile d kind (cString source) w,
      compileCalls d kind (cString source) w.gl.nextName, ?_, rfl, ?_, ?_, ?_, ?_, ?_, ?_⟩
    · rw [CompileShader_eval d kind source w hk hwf hlog]
      simp [stageHandle, hc]
    · simp [compileCalls]
    · intro k name hmem
      simp [compileCalls, hc] at hmem
      exact hmem
    · simp [compileCalls]
    · intro h
      simp [compileCalls, hc]
    · refine ⟨compiledObject d kind (cString source) w.gl.nextName, ?_, rfl, rfl, rfl, rfl⟩
      rw [hs]; simp [hc]
    · simp [afterCompile, compileOutput, hc]
  · intro hc hl
    have hlog : DiagnosesFailure d (kind, cString source) := fun _ => hl
    refine ⟨afterCompile d kind (cString source) w,
      compileCalls d kind (cString source) w.gl.nextName, ?_, rfl, ?_, ?_, ?_, ?_, ?_, ?_⟩
    · rw [CompileShader_eval d kind source w hk hwf hlog]
      simp [stageHandle, hc]
    · simp [compileCalls]
    · intro k name hmem
      simp [compileCalls, hc] at hmem
      exact hmem
    · simp [compileCalls]
    · simp [compileCalls, hc]
    · rw [hs]; simp [hc]
    · simp [afterCompile, compileOutput, hc, compileDiagnostic]
  · intro hc hl
    exact CompileShader_undefined d kind source w hk hwf hc hl

/-- Witness for C2: a driver that leaves no info log, a fragment stage, the
empty source (which does not compile) in a fresh context. -/
theorem CompileShader_outcomes_witness :
    GL_FRAGMENT_SHADER ∈ stageKinds ∧ (World.initial exampleCamera).gl.WellFormed ∧
    exampleDriverNoLog.compiles GL_FRAGMENT_SHADER (cString "") = false ∧
    (exampleDriverNoLog.infoLog GL_FRAGMENT_SHADER (cString "")).data = [] ∧
    ∃ w', CompileShader exampleDriverNoLog GL_FRAGMENT_SHADER "" (World.initial exampleCamera)
        = .undefined w' :=
  ⟨by decide, by decide, by decide, by decide,
    (CompileShader_outcomes exampleDriverNoLog GL_FRAGMENT_SHADER ""
      (World.initial exampleCamera) (by decide) (by decide)).2.2 (by decide) (by decide)⟩

theorem zero_mem_stageHandles (d : Driver) (stages : List (GLenum × String)) (m : GLuint)
    (hf : ∃ st ∈ stages, d.compiles st.1 st.2 = false) : 0 ∈ stageHandles d stages m := by
  induction stages generalizing m with
  | nil => simp at hf
  | cons st rest ih =>
    obtain ⟨kind, source⟩ := st
    simp only [stageHandles, List.mem_cons]
    by_cases hc : d.compiles kind source = true
    · right
      apply ih
      obtain ⟨st, hst, hfail⟩ := hf
      rcases List.mem_cons.mp hst with rfl | hst
      · simp [hc] at hfail
      · exact ⟨st, hst, hfail⟩
    · left
      simp [stageHandle, hc]

theorem invalid_value_mem_zeroHandleErrors (d : Driver) (stages : List (GLenum × String))
    (hf : ∃ st ∈ stages, d.compiles st.1 st.2 = false) :
    GL_INVALID_VALUE ∈ zeroHandleErrors d stages := by
  induction stages with
  | nil => simp at hf
  | cons st rest ih =>
    obtain ⟨kind, source⟩ := st
    by_cases hc : d.compiles kind source = true
    · simp only [zeroHandleErrors, hc, if_true]
      apply ih
      obtain ⟨st, hst, hfail⟩ := hf
      rcases List.mem_cons.mp hst with rfl | hst
      · simp [hc] at hfail
      · exact ⟨st, hst, hfail⟩
    · simp [zeroHandleErrors, hc]

theorem uniformLocation_afterBuild (d : Driver) (stages : List (GLenum × String)) (w : World)
    (hwf : w.gl.WellFormed) (name : String) :
    GLCmd.uniformLocation d (afterBuild d stages w).gl w.gl.nextName name =
      if d.links (compiledStages d stages) then d.uniformLocation (compiledStages d stages) name
      else -1 := by
  simp only [GLCmd.uniformLocation, programNamed_afterBuild d stages w hwf, builtProgram]
  split <;> simp_all

set_option maxRecDepth 100000 in
/-- Counterexample to C3: with the example driver and a missing (empty) fragment
source the fragment stage fails to compile, yet the program that
`CreateShaderProgramWithTessellation` returns is linked from the other three
stages and every one of the 27 required ocean uniform names resolves to a
valid (non-negative) location. -/
theorem failed_stage_counterexample :
    exampleDriver.compiles GL_FRAGMENT_SHADER (cString "") = false ∧
    ∃ p w', CreateShaderProgramWithTessellation exampleDriver "v" "" "c" "e"
        (World.initial exampleCamera) = .returned p w' ∧
      ∀ name ∈ requiredOceanUniforms, 0 ≤ GLCmd.uniformLocation exampleDriver w'.gl p name := by
  refine ⟨by decide, _, _, CreateShaderProgramWithTessellation_eval exampleDriver "v" "" "c" "e"
    (World.initial exampleCamera) (by decide) (by decide), ?_⟩
  intro name hname
  rw [uniformLocation_afterBuild _ _ _ (by decide)]
  revert name
  decide

/-- C3 (amended).  When at least one of the four stages fails to compile and
the driver leaves an info log for each stage it does not compile,
`CreateShaderProgramWithTessellation` still returns the program object it
created: it issues `glAttachShader` with the zero handle (the driver raises
`INVALID_VALUE` and attaches nothing), then links and validates the program
from the stages that did compile, leaving both statuses in the program object.
Uniform lookups against the returned program all yield -1
when the driver refuses to link those remaining stages, and are answered by
the driver from the linked stages otherwise.  (When a stage fails to compile
with an empty info log the build does not return: `CompileShader` reads the
diagnostic buffer it never wrote.) -/
theorem failed_stage_build_proceeds (d : Driver) (vs fs tcs tes : String) (w : World)
    (hwf : w.gl.WellFormed)
    (hfail : ∃ st ∈ tessellationStages vs fs tcs tes, d.compiles st.1 st.2 = false) :
    ((∀ st ∈ tessellationStages vs fs tcs tes, DiagnosesFailure d st) →
      ∃ p w' new, CreateShaderProgramWithTessellation d vs fs tcs tes w = .returned p w' ∧
        w'.gl.calls = w.gl.calls ++ new ∧
        GLCall.glAttachShader p 0 ∈ new ∧ GLCall.glLinkProgram p ∈ new ∧
        GLCall.glValidateProgram p ∈ new ∧
        (∃ raised, w'.gl.errors = w.gl.errors ++ raised ∧ GL_INVALID_VALUE ∈ raised) ∧
        (∃ q, programNamed w'.gl.programs p = some q ∧
          q.linkStatus = d.links (compiledStages d (tessellationStages vs fs tcs tes)) ∧
          q.validateStatus =
            (d.links (compiledStages d (tessellationStages vs fs tcs tes)) &&
              d.validates
                (if d.links (compiledStages d (tessellationStages vs fs tcs tes))
                  then compiledStages d (tessellationStages vs fs tcs tes) else []))) ∧
        (d.links (compiledStages d (tessellationStages vs fs tcs tes)) = false →
          ∀ name, GLCmd.uniformLocation d w'.gl p name = -1) ∧
        (d.links (compiledStages d (tessellationStages vs fs tcs tes)) = true →
          ∀ name, GLCmd.uniformLocation d w'.gl p name =
            d.uniformLocation (compiledStages d (tessellationStages vs fs tcs tes)) name)) ∧
    ((¬ ∀ st ∈ tessellationStages vs fs tcs tes, DiagnosesFailure d st) →
      ∃ w', CreateShaderProgramWithTessellation d vs fs tcs tes w = .undefined w') := by
  refine ⟨?_, CreateShaderProgramWithTessellation_undefined d vs fs tcs tes w hwf⟩
  intro hlog
  refine ⟨_, _, buildCalls d (tessellationStages vs fs tcs tes) w.gl.nextName,
    CreateShaderProgramWithTessellation_eval d vs fs tcs tes w hwf hlog, rfl, ?_, ?_, ?_, ?_, ?_,
    ?_, ?_⟩
  · simp only [buildCalls, List.mem_append, List.mem_map]
    exact Or.inl (Or.inl (Or.inl (Or.inr ⟨0, zero_mem_stageHandles d _ _ hfail, rfl⟩)))
  · simp [buildCalls]
  · simp [buildCalls]
  · refine ⟨zeroHandleErrors d (tessellationStages vs fs tcs tes) ++
      zeroHandleErrors d (tessellationStages vs fs tcs tes), ?_, ?_⟩
    · simp [afterBuild]
    · exact List.mem_append_left _ (invalid_value_mem_zeroHandleErrors d _ hfail)
  · exact ⟨_, programNamed_afterBuild d _ w hwf, rfl, rfl⟩
  · intro hl name
    rw [uniformLocation_afterBuild d _ w hwf, hl]
    rfl
  · intro hl name
    rw [uniformLocation_afterBuild d _ w hwf, hl]
    rfl

/-- Witness for C3 (amended): the example driver with a missing fragment source. -/
theorem failed_stage_build_proceeds_witness :
    (World.initial exampleCamera).gl.WellFormed ∧
    (∃ st ∈ tessellationStages "v" "" "c" "e", exampleDriver.compiles st.1 st.2 = false) ∧
    (∀ st ∈ tessellationStages "v" "" "c" "e", DiagnosesFailure exampleDriver st) ∧
    ∃ p w' new, CreateShaderProgramWithTessellation exampleDriver "v" "" "c" "e"
        (World.initial exampleCamera) = .returned p w' ∧
      w'.gl.calls = (World.initial exampleCamera).gl.calls ++ new ∧
      GLCall.glAttachShader p 0 ∈ new ∧ GLCall.glLinkProgram p ∈ new ∧
        GLCall.glValidateProgram p ∈ new ∧
      (∃ raised, w'.gl.errors = (World.initial exampleCamera).gl.errors ++ raised ∧
        GL_INVALID_VALUE ∈ raised) ∧
      (∃ q, programNamed w'.gl.programs p = some q ∧
        q.linkStatus =
          exampleDriver.links (compiledStages exampleDriver (tessellationStages "v" "" "c" "e")) ∧
        q.validateStatus =
          (exampleDriver.links (compiledStages exampleDriver (tessellationStages "v" "" "c" "e")) &&
            exampleDriver.validates
              (if exampleDriver.links
                  (compiledStages exampleDriver (tessellationStages "v" "" "c" "e"))
                then compiledStages exampleDriver (tessellationStages "v" "" "c" "e")
                else []))) ∧
      (exampleDriver.links (compiledStages exampleDriver (tessellationStages "v" "" "c" "e"))
          = false →
        ∀ name, GLCmd.uniformLocation exampleDriver w'.gl p name = -1) ∧
      (exampleDriver.links (compiledStages exampleDriver (tessellationStages "v" "" "c" "e"))
          = true →
        ∀ name, GLCmd.uniformLocation exampleDriver w'.gl p name =
          exampleDriver.uniformLocation
            (compiledStages exampleDriver (tessellationStages "v" "" "c" "e")) name) :=
  ⟨by decide, by decide, by decide,
    (failed_stage_build_proceeds exampleDriver "v" "" "c" "e" (World.initial exampleCamera)
      (by decide) (by decide)).1 (by decide)⟩


/-! ## `PreDraw` -/

theorem Prog.bind_assoc' {α β γ : Type} (m : Prog α) (f : α → Prog β) (g : β → Prog γ) :
    (m >>= f) >>= g = m >>= fun a => f a >>= g := by
  funext w
  simp only [Prog.bind_apply]
  cases m w <;> rfl

theorem Prog.exit_bind {α β : Type} (code : Int) (f : α → Prog β) :
    (Prog.exit code >>= f) = Prog.exit code := rfl

theorem Prog.ite_bind {α β : Type} (c : Prop) [Decidable c] (a b : Prog α) (f : α → Prog β) :
    (if c then a else b) >>= f = if c then a >>= f else b >>= f := by
  split <;> rfl

theorem Prog.bind_pure_unit (m : Prog Unit) : (m >>= fun _ => pure ()) = m := by
  funext w
  simp only [Prog.bind_apply]
  cases m w <;> rfl

theorem PreDraw_eq_bindings (d : Driver) (ticks : Nat) :
    PreDraw d ticks = (do
      let g ← get
      glLog (.glEnable GL_DEPTH_TEST)
      glLog (.glPolygonMode GL_FRONT_AND_BACK g.gPolygonMode)
      glLog (.glViewport 0 0 g.gScreenWidth g.gScreenHeight)
      glLog (.glClearColor 0.1 0.1 0.1 1.0)
      glLog (.glClear (GL_DEPTH_BUFFER_BIT ||| GL_COLOR_BUFFER_BIT))
      glLog (.glUseProgram g.gGraphicsPipelineShaderProgram)
      glLog (.glPatchParameteri GL_PATCH_VERTICES 4)
      bindUniforms d (oceanBindings g ticks)
      glLog (.glUseProgram g.gSkyboxPipelineShaderProgram)
      bindUniforms d (skyboxBindings g)) := by
  simp only [PreDraw, oceanBindings, skyboxBindings, bindUniforms, bindUniform, Prog.bind_assoc',
    Prog.ite_bind, Prog.exit_bind, Prog.bind_pure_unit]
  rfl


theorem uniformLocation_congr (d : Driver) (s t : GLState) (h : t.programs = s.programs)
    (p : GLuint) (name : String) :
    GLCmd.uniformLocation d t p name = GLCmd.uniformLocation d s p name := by
  simp only [GLCmd.uniformLocation, h]

theorem bindingCalls_congr (d : Driver) (s t : GLState) (h : t.programs = s.programs)
    (bs : List UniformBinding) : bindingCalls d t bs = bindingCalls d s bs := by
  induction bs with
  | nil => rfl
  | cons b rest ih => simp only [bindingCalls, uniformLocation_congr d s t h, ih]

theorem bindUniform_ok (d : Driver) (b : UniformBinding) (w : World)
    (h : 0 ≤ GLCmd.uniformLocation d w.gl b.program b.name) :
    ∃ w', bindUniform d b w = .returned () w' ∧ w'.gl.programs = w.gl.programs ∧
      w'.gl.calls = w.gl.calls ++
        [.glGetUniformLocation b.program b.name (GLCmd.uniformLocation d w.gl b.program b.name),
         b.set (GLCmd.uniformLocation d w.gl b.program b.name)] ∧
      w'.stdout = w.stdout ∧ w'.globals = w.globals := by
  simp [bindUniform, Prog.bind_apply, Prog.gl, Prog.glLog, Prog.glDo, GLCmd.getUniformLocation,
    GLState.record, h]

theorem bindUniform_fail (d : Driver) (b : UniformBinding) (w : World)
    (h : GLCmd.uniformLocation d w.gl b.program b.name < 0) :
    ∃ w', bindUniform d b w = .exited EXIT_FAILURE w' ∧
      w'.gl.calls = w.gl.calls ++
        [.glGetUniformLocation b.program b.name (GLCmd.uniformLocation d w.gl b.program b.name)] ∧
      w'.stdout = w.stdout ++ ["Could not find " ++ b.name ++ ", maybe a mispelling?\n"] ∧
      w'.globals = w.globals := by
  have h' : ¬ (0 ≤ GLCmd.uniformLocation d w.gl b.program b.name) := not_le.mpr h
  simp [bindUniform, Prog.bind_apply, Prog.gl, Prog.glLog, Prog.glDo, Prog.cout, Prog.exit,
    GLCmd.getUniformLocation, GLState.record, h']

theorem bindUniforms_ok (d : Driver) (bs : List UniformBinding) (w : World)
    (h : ∀ b ∈ bs, 0 ≤ GLCmd.uniformLocation d w.gl b.program b.name) :
    ∃ w', bindUniforms d bs w = .returned () w' ∧ w'.gl.programs = w.gl.programs ∧
      w'.gl.calls = w.gl.calls ++ bindingCalls d w.gl bs ∧
      w'.stdout = w.stdout ∧ w'.globals = w.globals := by
  induction bs generalizing w with
  | nil => exact ⟨w, rfl, rfl, by simp [bindingCalls], rfl, rfl⟩
  | cons b rest ih =>
    obtain ⟨w1, e1, p1, c1, o1, g1⟩ := bindUniform_ok d b w (h b (List.mem_cons_self _ _))
    have h1 : ∀ x ∈ rest, 0 ≤ GLCmd.uniformLocation d w1.gl x.program x.name := by
      intro x hx
      rw [uniformLocation_congr d w.gl w1.gl p1]
      exact h x (List.mem_cons_of_mem _ hx)
    obtain ⟨w2, e2, p2, c2, o2, g2⟩ := ih w1 h1
    refine ⟨w2, ?_, p2.trans p1, ?_, o2.trans o1, g2.trans g1⟩
    · simp only [bindUniforms, Prog.bind_apply, e1, e2]
    · rw [c2, c1, bindingCalls_congr d w.gl w1.gl p1]
      simp [bindingCalls]

theorem bindUniforms_fail (d : Driver) (pre : List UniformBinding) (b : UniformBinding)
    (post : List UniformBinding) (w : World)
    (h : ∀ x ∈ pre, 0 ≤ GLCmd.uniformLocation d w.gl x.program x.name)
    (hb : GLCmd.uniformLocation d w.gl b.program b.name < 0) :
    ∃ w', bindUniforms d (pre ++ b :: post) w = .exited EXIT_FAILURE w' ∧
      w'.gl.calls = w.gl.calls ++ bindingCalls d w.gl pre ++
        [.glGetUniformLocation b.program b.name (GLCmd.uniformLocation d w.gl b.program b.name)] ∧
      w'.stdout = w.stdout ++ ["Could not find " ++ b.name ++ ", maybe a mispelling?\n"] ∧
      w'.globals = w.globals := by
  obtain ⟨w1, e1, p1, c1, o1, g1⟩ := bindUniforms_ok d pre w h
  have hb1 : GLCmd.uniformLocation d w1.gl b.program b.name < 0 := by
    rw [uniformLocation_congr d w.gl w1.gl p1]; exact hb
  obtain ⟨w2, e2, c2, o2, g2⟩ := bindUniform_fail d b w1 hb1
  refine ⟨w2, ?_, ?_, ?_, g2.trans g1⟩
  · clear c1 c2 o1 o2 g1 g2 hb1 hb p1 h
    induction pre generalizing w with
    | nil =>
      simp only [List.nil_append, bindUniforms, Prog.bind_apply] at e1 ⊢
      cases e1
      rw [e2]
    | cons x rest ih =>
      simp only [List.cons_append, bindUniforms, Prog.bind_apply] at e1 ⊢
      cases hx : bindUniform d x w with
      | returned a wx =>
        rw [hx] at e1
        exact ih wx e1
      | exited c wx => rw [hx] at e1; cases e1
      | undefined wx => rw [hx] at e1; cases e1
  · rw [c2, c1, uniformLocation_congr d w.gl w1.gl p1]
  · rw [o2, o1]


theorem oceanBindings_setsUniform (g : Globals) (ticks : Nat) :
    ∀ b ∈ oceanBindings g ticks, SetsUniform b := by
  simp [oceanBindings, SetsUniform, uniformLookup?, uniformSet?]

theorem skyboxBindings_setsUniform (g : Globals) :
    ∀ b ∈ skyboxBindings g, SetsUniform b := by
  simp [skyboxBindings, SetsUniform, uniformLookup?, uniformSet?]

theorem uniformLookups_append (a b : List GLCall) :
    uniformLookups (a ++ b) = uniformLookups a ++ uniformLookups b := by
  simp [uniformLookups, List.filterMap_append]

theorem uniformSets_append (a b : List GLCall) :
    uniformSets (a ++ b) = uniformSets a ++ uniformSets b := by
  simp [uniformSets, List.filterMap_append]

theorem uniformLookups_bindingCalls (d : Driver) (s : GLState) (bs : List UniformBinding)
    (h : ∀ b ∈ bs, SetsUniform b) :
    uniformLookups (bindingCalls d s bs) = bs.map (fun b => (b.program, b.name)) := by
  induction bs with
  | nil => rfl
  | cons b rest ih =>
    have hb := (h b (List.mem_cons_self _ _) (GLCmd.uniformLocation d s b.program b.name)).1
    have ih' := ih (fun x hx => h x (List.mem_cons_of_mem _ hx))
    have hl : uniformLookup? (.glGetUniformLocation b.program b.name
        (GLCmd.uniformLocation d s b.program b.name)) = some (b.program, b.name) := rfl
    simp only [uniformLookups] at ih' ⊢
    simp only [bindingCalls, List.filterMap_cons, hb, hl, List.map_cons, ih']

theorem uniformSets_bindingCalls (d : Driver) (s : GLState) (bs : List UniformBinding)
    (h : ∀ b ∈ bs, SetsUniform b) :
    uniformSets (bindingCalls d s bs) =
      bs.map (fun b => GLCmd.uniformLocation d s b.program b.name) := by
  induction bs with
  | nil => rfl
  | cons b rest ih =>
    have hb := (h b (List.mem_cons_self _ _) (GLCmd.uniformLocation d s b.program b.name)).2
    have ih' := ih (fun x hx => h x (List.mem_cons_of_mem _ hx))
    have hl : uniformSet? (.glGetUniformLocation b.program b.name
        (GLCmd.uniformLocation d s b.program b.name)) = none := rfl
    simp only [uniformSets] at ih' ⊢
    simp only [bindingCalls, List.filterMap_cons, hb, hl, List.map_cons, ih']

theorem PreDraw_apply (d : Driver) (ticks : Nat) (w : World) :
    PreDraw d ticks w =
      (bindUniforms d (oceanBindings w.globals ticks) >>= fun _ =>
        glLog (.glUseProgram w.globals.gSkyboxPipelineShaderProgram) >>= fun _ =>
        bindUniforms d (skyboxBindings w.globals)) (afterPrelude w) := by
  rw [PreDraw_eq_bindings]
  simp [Prog.bind_apply, Prog.get_apply, Prog.glLog_apply, afterPrelude, preDrawPrelude, World.log]

theorem requiredLookups_eq (g : Globals) (ticks : Nat) :
    requiredLookups g =
      (oceanBindings g ticks ++ skyboxBindings g).map (fun b => (b.program, b.name)) := by
  simp only [requiredLookups, requiredOceanUniforms, requiredSkyboxUniforms, waveUniforms,
    waveFields, oceanBindings, skyboxBindings, List.map_cons, List.map_nil, List.cons_append,
    List.nil_append, List.append_assoc]
  rfl


theorem afterPrelude_location (d : Driver) (w : World) (p : GLuint) (name : String) :
    GLCmd.uniformLocation d (afterPrelude w).gl p name = GLCmd.uniformLocation d w.gl p name :=
  uniformLocation_congr d w.gl (afterPrelude w).gl rfl p name

theorem PreDraw_ok (d : Driver) (ticks : Nat) (w : World)
    (h : ∀ b ∈ oceanBindings w.globals ticks ++ skyboxBindings w.globals,
      0 ≤ GLCmd.uniformLocation d w.gl b.program b.name) :
    ∃ w', PreDraw d ticks w = .returned () w' ∧
      w'.gl.calls = w.gl.calls ++ (preDrawPrelude w.globals ++
        bindingCalls d w.gl (oceanBindings w.globals ticks) ++
        [.glUseProgram w.globals.gSkyboxPipelineShaderProgram] ++
        bindingCalls d w.gl (skyboxBindings w.globals)) := by
  have hO : ∀ b ∈ oceanBindings w.globals ticks,
      0 ≤ GLCmd.uniformLocation d (afterPrelude w).gl b.program b.name := by
    intro b hb
    rw [afterPrelude_location]
    exact h b (List.mem_append_left _ hb)
  obtain ⟨w1, e1, p1, c1, _, _⟩ := bindUniforms_ok d _ (afterPrelude w) hO
  have hp : (w1.log (.glUseProgram w.globals.gSkyboxPipelineShaderProgram)).gl.programs
      = w.gl.programs := p1
  have hK : ∀ b ∈ skyboxBindings w.globals,
      0 ≤ GLCmd.uniformLocation d
        (w1.log (.glUseProgram w.globals.gSkyboxPipelineShaderProgram)).gl
        b.program b.name := by
    intro b hb
    rw [uniformLocation_congr d w.gl _ hp]
    exact h b (List.mem_append_right _ hb)
  obtain ⟨w2, e2, p2, c2, _, _⟩ := bindUniforms_ok d _ _ hK
  refine ⟨w2, ?_, ?_⟩
  · rw [PreDraw_apply]
    simp only [Prog.bind_apply, e1, Prog.glLog_apply, e2]
  · rw [c2, bindingCalls_congr d w.gl _ hp, World.log_calls, c1,
      bindingCalls_congr d w.gl (afterPrelude w).gl rfl]
    simp only [afterPrelude, List.append_assoc]

theorem PreDraw_fail_ocean (d : Driver) (ticks : Nat) (w : World)
    (pre : List UniformBinding) (b : UniformBinding) (post : List UniformBinding)
    (hsplit : oceanBindings w.globals ticks = pre ++ b :: post)
    (h : ∀ x ∈ pre, 0 ≤ GLCmd.uniformLocation d w.gl x.program x.name)
    (hb : GLCmd.uniformLocation d w.gl b.program b.name < 0) :
    ∃ w', PreDraw d ticks w = .exited EXIT_FAILURE w' ∧
      w'.gl.calls = w.gl.calls ++ (preDrawPrelude w.globals ++ bindingCalls d w.gl pre ++
        [.glGetUniformLocation b.program b.name (GLCmd.uniformLocation d w.gl b.program b.name)]) := by
  have h0 : ∀ x ∈ pre, 0 ≤ GLCmd.uniformLocation d (afterPrelude w).gl x.program x.name := by
    intro x hx
    rw [afterPrelude_location]
    exact h x hx
  have hb0 : GLCmd.uniformLocation d (afterPrelude w).gl b.program b.name < 0 := by
    rw [afterPrelude_location]; exact hb
  obtain ⟨w1, e1, c1, _, _⟩ := bindUniforms_fail d pre b post (afterPrelude w) h0 hb0
  refine ⟨w1, ?_, ?_⟩
  · rw [PreDraw_apply, hsplit]
    simp only [Prog.bind_apply, e1]
  · rw [c1, bindingCalls_congr d w.gl (afterPrelude w).gl rfl, afterPrelude_location]
    simp only [afterPrelude, List.append_assoc]

theorem PreDraw_fail_skybox (d : Driver) (ticks : Nat) (w : World)
    (pre : List UniformBinding) (b : UniformBinding) (post : List UniformBinding)
    (hsplit : skyboxBindings w.globals = pre ++ b :: post)
    (hO : ∀ x ∈ oceanBindings w.globals ticks, 0 ≤ GLCmd.uniformLocation d w.gl x.program x.name)
    (h : ∀ x ∈ pre, 0 ≤ GLCmd.uniformLocation d w.gl x.program x.name)
    (hb : GLCmd.uniformLocation d w.gl b.program b.name < 0) :
    ∃ w', PreDraw d ticks w = .exited EXIT_FAILURE w' ∧
      w'.gl.calls = w.gl.calls ++ (preDrawPrelude w.globals ++
        bindingCalls d w.gl (oceanBindings w.globals ticks) ++
        [.glUseProgram w.globals.gSkyboxPipelineShaderProgram] ++ bindingCalls d w.gl pre ++
        [.glGetUniformLocation b.program b.name (GLCmd.uniformLocation d w.gl b.program b.name)]) := by
  have hO0 : ∀ x ∈ oceanBindings w.globals ticks,
      0 ≤ GLCmd.uniformLocation d (afterPrelude w).gl x.program x.name := by
    intro x hx
    rw [afterPrelude_location]
    exact hO x hx
  obtain ⟨w1, e1, p1, c1, _, _⟩ := bindUniforms_ok d _ (afterPrelude w) hO0
  have hp : (w1.log (.glUseProgram w.globals.gSkyboxPipelineShaderProgram)).gl.programs
      = w.gl.programs := p1
  have h1 : ∀ x ∈ pre, 0 ≤ GLCmd.uniformLocation d
      (w1.log (.glUseProgram w.globals.gSkyboxPipelineShaderProgram)).gl
      x.program x.name := by
    intro x hx
    rw [uniformLocation_congr d w.gl _ hp]
    exact h x hx
  have hb1 : GLCmd.uniformLocation d
      (w1.log (.glUseProgram w.globals.gSkyboxPipelineShaderProgram)).gl
      b.program b.name < 0 := by
    rw [uniformLocation_congr d w.gl _ hp]; exact hb
  obtain ⟨w2, e2, c2, _, _⟩ := bindUniforms_fail d pre b post _ h1 hb1
  refine ⟨w2, ?_, ?_⟩
  · rw [PreDraw_apply, hsplit]
    simp only [Prog.bind_apply, e1, Prog.glLog_apply, e2]
  · rw [c2, bindingCalls_congr d w.gl _ hp, uniformLocation_congr d w.gl _ hp, World.log_calls, c1,
      bindingCalls_congr d w.gl (afterPrelude w).gl rfl]
    simp only [afterPrelude, List.append_assoc]

theorem exists_first_failure {α : Type} (P : α → Prop) (l : List α) (h : ∃ x ∈ l, ¬ P x) :
    ∃ pre r post, l = pre ++ r :: post ∧ (∀ x ∈ pre, P x) ∧ ¬ P r := by
  induction l with
  | nil => simp at h
  | cons a rest ih =>
    by_cases ha : P a
    · obtain ⟨x, hx, hnx⟩ := h
      have hrest : ∃ x ∈ rest, ¬ P x := by
        rcases List.mem_cons.mp hx with rfl | hx
        · exact absurd ha hnx
        · exact ⟨x, hx, hnx⟩
      obtain ⟨pre, r, post, e, hpre, hr⟩ := ih hrest
      refine ⟨a :: pre, r, post, by rw [e]; rfl, ?_, hr⟩
      intro x hx
      rcases List.mem_cons.mp hx with rfl | hx
      · exact ha
      · exact hpre x hx
    · exact ⟨[], a, rest, rfl, by simp, ha⟩

theorem preDrawPrelude_reads (g : Globals) :
    uniformLookups (preDrawPrelude g) = [] ∧ uniformSets (preDrawPrelude g) = [] := by
  constructor <;> rfl


theorem uniformLookups_useProgram (p : GLuint) : uniformLookups [.glUseProgram p] = [] := rfl

theorem uniformSets_useProgram (p : GLuint) : uniformSets [.glUseProgram p] = [] := rfl

theorem uniformLookups_lookup (p : GLuint) (name : String) (l : GLint) :
    uniformLookups [.glGetUniformLocation p name l] = [(p, name)] := rfl

theorem uniformSets_lookup (p : GLuint) (name : String) (l : GLint) :
    uniformSets [.glGetUniformLocation p name l] = [] := rfl

theorem bindingCalls_nil (d : Driver) (s : GLState) : bindingCalls d s [] = [] := rfl

theorem uniformLookups_nil : uniformLookups [] = [] := rfl

theorem uniformSets_nil : uniformSets [] = [] := rfl

theorem PreDraw_all_resolve (d : Driver) (ticks : Nat) (w : World)
    (h : ∀ r ∈ requiredLookups w.globals, 0 ≤ GLCmd.uniformLocation d w.gl r.1 r.2) :
    ∃ w' new, PreDraw d ticks w = .returned () w' ∧ w'.gl.calls = w.gl.calls ++ new ∧
      uniformLookups new = requiredLookups w.globals ∧
      uniformSets new =
        (requiredLookups w.globals).map (fun r => GLCmd.uniformLocation d w.gl r.1 r.2) := by
  have hb : ∀ b ∈ oceanBindings w.globals ticks ++ skyboxBindings w.globals,
      0 ≤ GLCmd.uniformLocation d w.gl b.program b.name := by
    intro b hb
    apply h (b.program, b.name)
    rw [requiredLookups_eq w.globals ticks]
    exact List.mem_map_of_mem (fun b => (b.program, b.name)) hb
  obtain ⟨w', e, c⟩ := PreDraw_ok d ticks w hb
  refine ⟨w', _, e, c, ?_, ?_⟩
  · simp only [uniformLookups_append, (preDrawPrelude_reads w.globals).1,
      uniformLookups_bindingCalls d w.gl _ (oceanBindings_setsUniform w.globals ticks),
      uniformLookups_bindingCalls d w.gl _ (skyboxBindings_setsUniform w.globals),
      uniformLookups_useProgram, requiredLookups_eq w.globals ticks, List.map_append,
      List.nil_append, List.append_nil]
  · simp only [uniformSets_append, (preDrawPrelude_reads w.globals).2,
      uniformSets_bindingCalls d w.gl _ (oceanBindings_setsUniform w.globals ticks),
      uniformSets_bindingCalls d w.gl _ (skyboxBindings_setsUniform w.globals),
      uniformSets_useProgram, requiredLookups_eq w.globals ticks, List.map_append,
      List.nil_append, List.append_nil, List.map_map, Function.comp_def]

theorem PreDraw_first_failure (d : Driver) (ticks : Nat) (w : World)
    (pre : List (GLuint × String)) (r : GLuint × String) (post : List (GLuint × String))
    (hsplit : requiredLookups w.globals = pre ++ r :: post)
    (hpre : ∀ x ∈ pre, 0 ≤ GLCmd.uniformLocation d w.gl x.1 x.2)
    (hr : GLCmd.uniformLocation d w.gl r.1 r.2 < 0) :
    ∃ w' new, PreDraw d ticks w = .exited EXIT_FAILURE w' ∧ w'.gl.calls = w.gl.calls ++ new ∧
      uniformLookups new = pre ++ [r] ∧
      uniformSets new = pre.map (fun x => GLCmd.uniformLocation d w.gl x.1 x.2) := by
  rw [requiredLookups_eq w.globals ticks] at hsplit
  obtain ⟨l1, l2, hl, hm1, hm2⟩ := List.map_eq_append_iff.mp hsplit
  obtain ⟨b, l3, hl2, hfb, _⟩ := List.map_eq_cons_iff.mp hm2
  subst hl2 hm1 hfb
  have hl1 : ∀ x ∈ l1, 0 ≤ GLCmd.uniformLocation d w.gl x.program x.name := fun x hx =>
    hpre (x.program, x.name) (List.mem_map_of_mem (fun b => (b.program, b.name)) hx)
  have hall : ∀ x ∈ oceanBindings w.globals ticks ++ skyboxBindings w.globals, SetsUniform x := by
    intro x hx
    rcases List.mem_append.mp hx with hx | hx
    · exact oceanBindings_setsUniform _ _ x hx
    · exact skyboxBindings_setsUniform _ x hx
  have hs1 : ∀ x ∈ l1, SetsUniform x := fun x hx =>
    hall x (by rw [hl]; exact List.mem_append_left _ hx)
  rcases List.append_eq_append_iff.mp hl with ⟨a', h1, h2⟩ | ⟨c', h1, h2⟩
  · -- the first failure is in the skybox blocks
    have hO : ∀ x ∈ oceanBindings w.globals ticks,
        0 ≤ GLCmd.uniformLocation d w.gl x.program x.name := fun x hx =>
      hl1 x (by rw [h1]; exact List.mem_append_left _ hx)
    have ha : ∀ x ∈ a', 0 ≤ GLCmd.uniformLocation d w.gl x.program x.name := fun x hx =>
      hl1 x (by rw [h1]; exact List.mem_append_right _ hx)
    have hsa : ∀ x ∈ a', SetsUniform x := fun x hx =>
      hs1 x (by rw [h1]; exact List.mem_append_right _ hx)
    obtain ⟨w', e, c⟩ := PreDraw_fail_skybox d ticks w a' b l3 h2 hO ha hr
    refine ⟨w', _, e, c, ?_, ?_⟩
    · simp only [uniformLookups_append, (preDrawPrelude_reads w.globals).1,
        uniformLookups_bindingCalls d w.gl _ (oceanBindings_setsUniform w.globals ticks),
        uniformLookups_bindingCalls d w.gl _ hsa, uniformLookups_useProgram,
        uniformLookups_lookup, h1, List.map_append, List.nil_append, List.append_nil,
        List.append_assoc]
    · simp only [uniformSets_append, (preDrawPrelude_reads w.globals).2,
        uniformSets_bindingCalls d w.gl _ (oceanBindings_setsUniform w.globals ticks),
        uniformSets_bindingCalls d w.gl _ hsa, uniformSets_useProgram,
        uniformSets_lookup, h1, List.map_append, List.nil_append, List.append_nil,
        List.map_map, Function.comp_def]
  · rcases List.cons_eq_append_iff.mp h2 with ⟨hc, hK⟩ | ⟨c'', hc, _⟩
    · -- the first failure is the first skybox block
      subst hc
      rw [List.append_nil] at h1
      have hO : ∀ x ∈ oceanBindings w.globals ticks,
          0 ≤ GLCmd.uniformLocation d w.gl x.program x.name := fun x hx =>
        hl1 x (by rw [← h1]; exact hx)
      obtain ⟨w', e, c⟩ := PreDraw_fail_skybox d ticks w [] b l3 hK hO (by simp) hr
      refine ⟨w', _, e, c, ?_, ?_⟩
      · simp only [uniformLookups_append, (preDrawPrelude_reads w.globals).1,
          uniformLookups_bindingCalls d w.gl _ (oceanBindings_setsUniform w.globals ticks),
          uniformLookups_bindingCalls d w.gl _ hs1,
          uniformLookups_useProgram, uniformLookups_lookup, h1, bindingCalls_nil,
          uniformLookups_nil, List.nil_append, List.append_nil]
      · simp only [uniformSets_append, (preDrawPrelude_reads w.globals).2,
          uniformSets_bindingCalls d w.gl _ (oceanBindings_setsUniform w.globals ticks),
          uniformSets_bindingCalls d w.gl _ hs1,
          uniformSets_useProgram, uniformSets_lookup, h1, bindingCalls_nil, uniformSets_nil,
          List.nil_append, List.append_nil, List.map_map, Function.comp_def]
    · -- the first failure is in the ocean blocks
      subst hc
      obtain ⟨w', e, c⟩ := PreDraw_fail_ocean d ticks w l1 b c'' h1 hl1 hr
      refine ⟨w', _, e, c, ?_, ?_⟩
      · simp only [uniformLookups_append, (preDrawPrelude_reads w.globals).1,
          uniformLookups_bindingCalls d w.gl _ hs1, uniformLookups_lookup, List.nil_append]
      · simp only [uniformSets_append, (preDrawPrelude_reads w.globals).2,
          uniformSets_bindingCalls d w.gl _ hs1, uniformSets_lookup, List.nil_append,
          List.append_nil, List.map_map, Function.comp_def]

/-- C4. Uniform fail-fast.  The required lookups of a frame are the 27 ocean
names on the ocean program followed by the 3 skybox names on the skybox
program (30 in all).  When every one of them resolves to a non-negative
location, `PreDraw` returns; its lookups are exactly these 30, in this order,
and its `glUniform*` commands are exactly 30, the i-th one at the location of
the i-th name.  When some lookup is negative, `PreDraw` ends the process with
`EXIT_FAILURE` at the first such name `r`: its lookups are the names before `r`
and `r` itself, and uniforms are set for the names before `r` only.  `PreDraw`
ends the process if and only if at least one required lookup is negative. -/
theorem uniform_fail_fast (d : Driver) (ticks : Nat) (w : World) :
    (requiredLookups w.globals).length = 30 ∧
    ((∀ r ∈ requiredLookups w.globals, 0 ≤ GLCmd.uniformLocation d w.gl r.1 r.2) →
      ∃ w' new, PreDraw d ticks w = .returned () w' ∧ w'.gl.calls = w.gl.calls ++ new ∧
        uniformLookups new = requiredLookups w.globals ∧
        uniformSets new =
          (requiredLookups w.globals).map (fun r => GLCmd.uniformLocation d w.gl r.1 r.2)) ∧
    (∀ pre r post, requiredLookups w.globals = pre ++ r :: post →
      (∀ x ∈ pre, 0 ≤ GLCmd.uniformLocation d w.gl x.1 x.2) →
      GLCmd.uniformLocation d w.gl r.1 r.2 < 0 →
      ∃ w' new, PreDraw d ticks w = .exited EXIT_FAILURE w' ∧ w'.gl.calls = w.gl.calls ++ new ∧
        uniformLookups new = pre ++ [r] ∧
        uniformSets new = pre.map (fun x => GLCmd.uniformLocation d w.gl x.1 x.2)) ∧
    ((∃ code w', PreDraw d ticks w = .exited code w') ↔
      ∃ r ∈ requiredLookups w.globals, GLCmd.uniformLocation d w.gl r.1 r.2 < 0) := by
  refine ⟨by simp [requiredLookups, requiredOceanUniforms, requiredSkyboxUniforms, waveUniforms,
    waveFields], PreDraw_all_resolve d ticks w, PreDraw_first_failure d ticks w, ?_⟩
  constructor
  · rintro ⟨code, w', he⟩
    by_contra hno
    have hall : ∀ r ∈ requiredLookups w.globals, 0 ≤ GLCmd.uniformLocation d w.gl r.1 r.2 := by
      intro r hr
      by_contra hneg
      exact hno ⟨r, hr, not_le.mp hneg⟩
    obtain ⟨w2, _, e2, _⟩ := PreDraw_all_resolve d ticks w hall
    rw [e2] at he
    cases he
  · rintro ⟨r, hr, hneg⟩
    obtain ⟨pre, r', post, hs, hp, hr'⟩ := exists_first_failure
      (fun x : GLuint × String => 0 ≤ GLCmd.uniformLocation d w.gl x.1 x.2)
      (requiredLookups w.globals) ⟨r, hr, not_le.mpr hneg⟩
    obtain ⟨w', _, e, _⟩ := PreDraw_first_failure d ticks w pre r' post hs hp (not_le.mp hr')
    exact ⟨_, w', e⟩

set_option maxRecDepth 100000 in
/-- Witness for C4: in the example frame world every required name resolves
with the example driver, and the `time` lookup is the first to fail with the
driver that lacks `time`. -/
theorem uniform_fail_fast_witness :
    ((∀ r ∈ requiredLookups exampleFrameWorld.globals,
        0 ≤ GLCmd.uniformLocation exampleDriver exampleFrameWorld.gl r.1 r.2) ∧
      ∃ w' new, PreDraw exampleDriver 0 exampleFrameWorld = .returned () w' ∧
        w'.gl.calls = exampleFrameWorld.gl.calls ++ new ∧
        uniformLookups new = requiredLookups exampleFrameWorld.globals ∧
        uniformSets new = (requiredLookups exampleFrameWorld.globals).map
          (fun r => GLCmd.uniformLocation exampleDriver exampleFrameWorld.gl r.1 r.2)) ∧
    ((∃ r ∈ requiredLookups exampleFrameWorld.globals,
        GLCmd.uniformLocation exampleDriverWithoutTime exampleFrameWorld.gl r.1 r.2 < 0) ∧
      ∃ code w', PreDraw exampleDriverWithoutTime 0 exampleFrameWorld = .exited code w') :=
  ⟨⟨by decide, (uniform_fail_fast exampleDriver 0 exampleFrameWorld).2.1 (by decide)⟩,
   ⟨by decide, (uniform_fail_fast exampleDriverWithoutTime 0 exampleFrameWorld).2.2.2.2
      (by decide)⟩⟩


/-! ## Cubemap and geometry in closed form -/

theorem Prog.genName_apply (mk : GLuint → GLCall) (w : World) :
    Prog.gl (GLCmd.genName mk) w = .returned w.gl.nextName
      { w with gl := { w.gl with nextName := w.gl.nextName + 1,
                                 calls := w.gl.calls ++ [mk w.gl.nextName] } } := rfl

theorem loadCubemapFaces_eval (ppm : String → PPM) (paths : List String) (i : Nat) (w : World) :
    loadCubemapFaces ppm paths i w = .returned ()
      { w with gl := { w.gl with calls := w.gl.calls ++ faceUploads ppm paths i }
               stdout := w.stdout ++ faceWarnings ppm paths } := by
  induction paths generalizing i w with
  | nil => simp [loadCubemapFaces, faceUploads, faceWarnings, Prog.pure_apply]
  | cons path rest ih =>
    by_cases h : (ppm path).pixelData = []
    · simp [loadCubemapFaces, Prog.bind_apply, h, Prog.cout_apply, ih, faceUploads, faceWarnings]
    · simp [loadCubemapFaces, Prog.bind_apply, h, Prog.glLog_apply, ih, faceUploads, faceWarnings,
        World.log]

theorem loadCubemap_eval (ppm : String → PPM) (paths : List String) (w : World) :
    loadCubemap ppm paths w = .returned ()
      { gl := { w.gl with nextName := w.gl.nextName + 1,
                          calls := w.gl.calls ++ cubemapCalls ppm paths w.gl.nextName }
        stdout := w.stdout ++ faceWarnings ppm paths
        globals := { w.globals with gCubeTexId := w.gl.nextName } } := by
  simp only [loadCubemap, Prog.bind_apply, Prog.genName_apply, Prog.modify_apply,
    Prog.glLog_apply, loadCubemapFaces_eval, World.log, cubemapCalls, cubemapParameters]
  simp

theorem VertexSpecification_eval (ppm : String → PPM) (w : World) :
    VertexSpecification ppm w = .returned () (afterVertexSpecification ppm w) := by
  simp only [VertexSpecification, Prog.bind_apply, Prog.genName_apply, Prog.modify_apply,
    Prog.glLog_apply, Prog.get_apply, loadCubemap_eval, World.log, afterVertexSpecification,
    geometryCalls]
  simp [Nat.add_assoc]


theorem Draw_eval (w : World) :
    Draw w = .returned () { w with gl := { w.gl with calls := w.gl.calls ++ drawCalls w.globals } } := by
  simp only [Draw, Prog.bind_apply, Prog.get_apply, Prog.glLog_apply, World.log, drawCalls]
  simp

theorem declaredLayout_inert (vao : GLuint) (ys : List GLCall) (b : GLuint)
    (h : ∀ c ∈ ys, boundArray? c = none ∧ attribDecl? c = none) : declaredLayout vao ys b = [] := by
  induction ys generalizing b with
  | nil => rfl
  | cons c rest ih =>
    have hc := h c (List.mem_cons_self _ _)
    simp only [declaredLayout, hc.1, hc.2]
    exact ih b (fun x hx => h x (List.mem_cons_of_mem _ hx))

theorem declaredLayout_append_inert (vao : GLuint) (xs ys : List GLCall) (b : GLuint)
    (h : ∀ c ∈ ys, boundArray? c = none ∧ attribDecl? c = none) :
    declaredLayout vao (xs ++ ys) b = declaredLayout vao xs b := by
  induction xs generalizing b with
  | nil => simpa using declaredLayout_inert vao ys b h
  | cons c rest ih =>
    simp only [List.cons_append, declaredLayout]
    cases boundArray? c with
    | some a => exact ih a
    | none =>
      cases attribDecl? c with
      | some decl => exact congrArg _ (ih b)
      | none => exact ih b

theorem bufferUploads_append_inert (xs ys : List GLCall)
    (h : ∀ c ∈ ys, bufferData? c = none) :
    bufferUploads (xs ++ ys) = bufferUploads xs := by
  simp only [bufferUploads, List.filterMap_append]
  have : List.filterMap bufferData? ys = [] := by
    rw [List.filterMap_eq_nil_iff]
    exact h
  rw [this, List.append_nil]

theorem faceUploads_inert (ppm : String → PPM) (paths : List String) (i : Nat) :
    ∀ c ∈ faceUploads ppm paths i,
      boundArray? c = none ∧ attribDecl? c = none ∧ bufferData? c = none := by
  induction paths generalizing i with
  | nil => simp [faceUploads]
  | cons path rest ih =>
    intro c hc
    simp only [faceUploads, List.mem_append] at hc
    rcases hc with hc | hc
    · split at hc
      · simp only [List.mem_singleton] at hc
        subst hc
        exact ⟨rfl, rfl, rfl⟩
      · simp at hc
    · exact ih (i + 1) c hc

theorem cubemapCalls_inert (ppm : String → PPM) (paths : List String) (n : GLuint) :
    ∀ c ∈ cubemapCalls ppm paths n,
      boundArray? c = none ∧ attribDecl? c = none ∧ bufferData? c = none := by
  intro c hc
  simp only [cubemapCalls, cubemapParameters, List.mem_append, List.mem_cons, List.mem_singleton,
    List.not_mem_nil, or_false] at hc
  rcases hc with ((rfl | rfl) | hc) | rfl | rfl | rfl | rfl | rfl
  · exact ⟨rfl, rfl, rfl⟩
  · exact ⟨rfl, rfl, rfl⟩
  · exact faceUploads_inert ppm paths 0 c hc
  · exact ⟨rfl, rfl, rfl⟩
  · exact ⟨rfl, rfl, rfl⟩
  · exact ⟨rfl, rfl, rfl⟩
  · exact ⟨rfl, rfl, rfl⟩
  · exact ⟨rfl, rfl, rfl⟩

/-- The two layouts `VertexSpecification` declares, for any starting state. -/
theorem VertexSpecification_layouts (ppm : String → PPM) (w : World) (bound : GLuint) :
    declaredLayout (afterVertexSpecification ppm w).globals.gVertexArrayObjectFloor
        (geometryCalls w.globals.gOceanSize w.gl.nextName ++
          cubemapCalls ppm faces (w.gl.nextName + 4)) bound
      = [⟨0, 3, 32, 0⟩, ⟨1, 3, 32, 12⟩, ⟨2, 3, 32, 20⟩] ∧
    declaredLayout (afterVertexSpecification ppm w).globals.gVertexArrayObjectSkybox
        (geometryCalls w.globals.gOceanSize w.gl.nextName ++
          cubemapCalls ppm faces (w.gl.nextName + 4)) bound
      = [⟨0, 3, 12, 0⟩] := by
  have d1 : ¬ (@Eq Nat (w.gl.nextName + 2) w.gl.nextName) := by omega
  have d2 : ¬ (@Eq Nat w.gl.nextName (w.gl.nextName + 2)) := by omega
  have d3 : ¬ (@Eq Nat 0 (w.gl.nextName + 2)) := by omega
  constructor
  · rw [declaredLayout_append_inert _ _ _ _ (fun c hc => ⟨(cubemapCalls_inert ppm faces _ c hc).1, (cubemapCalls_inert ppm faces _ c hc).2.1⟩)]
    simp [afterVertexSpecification, geometryCalls, declaredLayout, boundArray?, attribDecl?,
      sizeof_GL_FLOAT, d1, d2, d3]
  · rw [declaredLayout_append_inert _ _ _ _ (fun c hc => ⟨(cubemapCalls_inert ppm faces _ c hc).1, (cubemapCalls_inert ppm faces _ c hc).2.1⟩)]
    simp [afterVertexSpecification, geometryCalls, declaredLayout, boundArray?, attribDecl?,
      sizeof_GL_FLOAT, d1, d2, d3]

/-- C5 (the code at any input).  After `VertexSpecification`, for every ocean
half-extent, `gFloorTriangles` is 32, the number of floats of the 4 uploaded
ocean vertices, and the ocean draw call of `Draw` is issued with count 32: it
covers 32 vertices, i.e. 8 four-vertex patches, although only 4 vertices were
uploaded. -/
theorem ocean_draw_count (ppm : String → PPM) (w : World) :
    ∃ w1 new1, VertexSpecification ppm w = .returned () w1 ∧
      w1.gl.calls = w.gl.calls ++ new1 ∧
      w1.globals.gFloorTriangles = 32 ∧
      (bufferUploads new1).head? = some (vertexDataQuad w.globals.gOceanSize) ∧
      (vertexDataQuad w.globals.gOceanSize).length = 4 * 8 ∧
      ∃ w2 new2, Draw w1 = .returned () w2 ∧ w2.gl.calls = w1.gl.calls ++ new2 ∧
        drawCounts new2 = [(GL_PATCHES, 32), (GL_TRIANGLES, 36)] := by
  refine ⟨_, _, VertexSpecification_eval ppm w, rfl, rfl, ?_, rfl, _, _, Draw_eval _, rfl, ?_⟩
  · rw [bufferUploads_append_inert _ _ (fun c hc => (cubemapCalls_inert ppm faces _ c hc).2.2)]
    simp [geometryCalls, bufferUploads, bufferData?]
  · simp [drawCalls, drawCounts, drawCount?, afterVertexSpecification, vertexDataQuad]

/-- C7. Vertex layouts, for every ocean half-extent (every starting world).
While the ocean vertex array is bound `VertexSpecification` declares attribute 0
at byte offset 0, attribute 1 at byte offset 12 (3 floats) and attribute 2 at
byte offset 20 (5 floats), each with stride 32 (8 floats); while the skybox
vertex array is bound it declares the single attribute 0 at offset 0 with
stride 12 (3 floats); the float size the code uses, `sizeof(GL_FLOAT)`, is 4. -/
theorem vertex_layouts (ppm : String → PPM) (w : World) :
    ∃ w' new, VertexSpecification ppm w = .returned () w' ∧ w'.gl.calls = w.gl.calls ++ new ∧
      (declaredLayout w'.globals.gVertexArrayObjectFloor new 0).map
          (fun a => (a.index, a.offset, a.stride))
        = [(0, 0, 8 * sizeof_GL_FLOAT), (1, 3 * sizeof_GL_FLOAT, 8 * sizeof_GL_FLOAT),
           (2, 5 * sizeof_GL_FLOAT, 8 * sizeof_GL_FLOAT)] ∧
      (declaredLayout w'.globals.gVertexArrayObjectSkybox new 0).map
          (fun a => (a.index, a.offset, a.stride))
        = [(0, 0, 3 * sizeof_GL_FLOAT)] ∧
      sizeof_GL_FLOAT = 4 ∧ 3 * sizeof_GL_FLOAT = 12 ∧ 5 * sizeof_GL_FLOAT = 20 ∧
      8 * sizeof_GL_FLOAT = 32 := by
  refine ⟨_, _, VertexSpecification_eval ppm w, rfl, ?_, ?_, rfl, rfl, rfl, rfl⟩
  · rw [(VertexSpecification_layouts ppm w 0).1]
    rfl
  · rw [(VertexSpecification_layouts ppm w 0).2]
    rfl

/-- C8 (the code at any input).  The ocean layout that `VertexSpecification`
declares has component counts 3, 3 and 3: their sum times the component size
is 36 bytes, while every declared stride is 32 bytes, so the invariant fails
for the ocean layout.  It holds for the skybox layout (3 components, 12 bytes,
stride 12). -/
theorem ocean_layout_stride_mismatch (ppm : String → PPM) (w : World) :
    ∃ w' new, VertexSpecification ppm w = .returned () w' ∧ w'.gl.calls = w.gl.calls ++ new ∧
      (declaredLayout w'.globals.gVertexArrayObjectFloor new 0).map (fun a => a.size)
        = [3, 3, 3] ∧
      componentSum (declaredLayout w'.globals.gVertexArrayObjectFloor new 0) * sizeof_GL_FLOAT
        = 36 ∧
      (∀ a ∈ declaredLayout w'.globals.gVertexArrayObjectFloor new 0, a.stride = 32) ∧
      componentSum (declaredLayout w'.globals.gVertexArrayObjectSkybox new 0) * sizeof_GL_FLOAT
        = 12 ∧
      (∀ a ∈ declaredLayout w'.globals.gVertexArrayObjectSkybox new 0, a.stride = 12) := by
  refine ⟨_, _, VertexSpecification_eval ppm w, rfl, ?_, ?_, ?_, ?_, ?_⟩
  · rw [(VertexSpecification_layouts ppm w 0).1]; rfl
  · rw [(VertexSpecification_layouts ppm w 0).1]; rfl
  · rw [(VertexSpecification_layouts ppm w 0).1]; simp
  · rw [(VertexSpecification_layouts ppm w 0).2]; rfl
  · rw [(VertexSpecification_layouts ppm w 0).2]; simp


/-- C6.  For every half-extent `h` the ocean vertex data is 4 vertices of 8
floats: positions (-h,0,-h), (h,0,-h), (h,0,h), (-h,0,h) in this order,
texture coordinates (-1,-1), (1,-1), (1,1), (-1,1), normal (0,1,0) on every
vertex.  For every half-extent proper (`h` positive, the quad spanning
[-h, h] on both axes; the program's own is 1500) the texture coordinates of
each vertex are the signs of its x and z.  `h = 1500` gives the corners
(±1500, 0, ±1500).  `VertexSpecification` uploads exactly this data for the
ocean buffer, so two runs with the same half-extent upload identical data. -/
theorem ocean_vertex_data (h : CFloat) :
    (vertexDataQuad h).length = 4 * 8 ∧
    (oceanPosition h 0 = ⟨-h, 0, -h⟩ ∧ oceanPosition h 1 = ⟨h, 0, -h⟩ ∧
      oceanPosition h 2 = ⟨h, 0, h⟩ ∧ oceanPosition h 3 = ⟨-h, 0, h⟩) ∧
    (oceanTexcoord h 0 = (-1, -1) ∧ oceanTexcoord h 1 = (1, -1) ∧
      oceanTexcoord h 2 = (1, 1) ∧ oceanTexcoord h 3 = (-1, 1)) ∧
    (∀ k < 4, oceanNormal h k = ⟨0, 1, 0⟩) ∧
    (0 < h → ∀ k < 4,
      oceanTexcoord h k = (signum (oceanPosition h k).x, signum (oceanPosition h k).z)) ∧
    (oceanPosition 1500 0 = ⟨-1500, 0, -1500⟩ ∧ oceanPosition 1500 1 = ⟨1500, 0, -1500⟩ ∧
      oceanPosition 1500 2 = ⟨1500, 0, 1500⟩ ∧ oceanPosition 1500 3 = ⟨-1500, 0, 1500⟩) ∧
    (∀ (ppm : String → PPM) (w : World), w.globals.gOceanSize = h →
      ∃ w' new, VertexSpecification ppm w = .returned () w' ∧
        w'.gl.calls = w.gl.calls ++ new ∧
        (bufferUploads new).head? = some (vertexDataQuad h)) := by
  have pos : ∀ x : CFloat, oceanPosition x 0 = ⟨-x, 0, -x⟩ ∧ oceanPosition x 1 = ⟨x, 0, -x⟩ ∧
      oceanPosition x 2 = ⟨x, 0, x⟩ ∧ oceanPosition x 3 = ⟨-x, 0, x⟩ := by
    intro x
    simp [oceanPosition, oceanVertex, vertexAt, vertexDataQuad]
  have tex : oceanTexcoord h 0 = (-1, -1) ∧ oceanTexcoord h 1 = (1, -1) ∧
      oceanTexcoord h 2 = (1, 1) ∧ oceanTexcoord h 3 = (-1, 1) := by
    simp [oceanTexcoord, oceanVertex, vertexAt, vertexDataQuad]
  refine ⟨rfl, pos h, tex, ?_, ?_, pos 1500, ?_⟩
  · intro k hk
    interval_cases k <;> simp [oceanNormal, oceanVertex, vertexAt, vertexDataQuad]
  · intro hpos k hk
    have h1 : ¬ (0 < -h) := by linarith
    have h2 : -h < 0 := by linarith
    obtain ⟨p0, p1, p2, p3⟩ := pos h
    obtain ⟨t0, t1, t2, t3⟩ := tex
    interval_cases k
    · rw [t0, p0]; simp [signum, h1, h2]
    · rw [t1, p1]; simp [signum, h1, h2, hpos]
    · rw [t2, p2]; simp [signum, hpos]
    · rw [t3, p3]; simp [signum, h1, h2, hpos]
  · intro ppm w hw
    refine ⟨_, _, VertexSpecification_eval ppm w, rfl, ?_⟩
    rw [bufferUploads_append_inert _ _ (fun c hc => (cubemapCalls_inert ppm faces _ c hc).2.2)]
    simp [geometryCalls, bufferUploads, bufferData?, hw]

/-- Witness for C6: the half-extent 1500 of the program, at start-up. -/
theorem ocean_vertex_data_witness :
    (0 : CFloat) < 1500 ∧ (World.initial exampleCamera).globals.gOceanSize = 1500 ∧
    (∀ k < 4,
      oceanTexcoord 1500 k =
        (signum (oceanPosition 1500 k).x, signum (oceanPosition 1500 k).z)) ∧
    ∃ w' new, VertexSpecification examplePPM (World.initial exampleCamera) = .returned () w' ∧
      w'.gl.calls = (World.initial exampleCamera).gl.calls ++ new ∧
      (bufferUploads new).head? = some (vertexDataQuad 1500) :=
  ⟨by norm_num, rfl, (ocean_vertex_data 1500).2.2.2.2.1 (by norm_num),
    (ocean_vertex_data 1500).2.2.2.2.2.2 examplePPM (World.initial exampleCamera) rfl⟩


/-! ## Claims on the cubemap -/

theorem texImageUploads_append (a b : List GLCall) :
    texImageUploads (a ++ b) = texImageUploads a ++ texImageUploads b := by
  simp [texImageUploads, List.filterMap_append]

theorem texImageUploads_faceUploads (ppm : String → PPM) (paths : List String) (i : Nat) :
    texImageUploads (faceUploads ppm paths i) = expectedUploads ppm paths i := by
  induction paths generalizing i with
  | nil => rfl
  | cons path rest ih =>
    by_cases h : (ppm path).pixelData = []
    · simp only [faceUploads, expectedUploads, h, texImageUploads_append, ih, if_true,
        List.length_nil, ne_eq, not_true_eq_false, if_false]
      rfl
    · simp only [faceUploads, expectedUploads, h, texImageUploads_append, ih, if_false,
        List.length_eq_zero, ne_eq, not_false_eq_true, if_true]
      rfl

theorem texImageUploads_cubemapCalls (ppm : String → PPM) (paths : List String) (n : GLuint) :
    texImageUploads (cubemapCalls ppm paths n) = expectedUploads ppm paths 0 := by
  simp only [cubemapCalls, texImageUploads_append, texImageUploads_faceUploads]
  simp [texImageUploads, texImageUpload?, cubemapParameters]

theorem texImageUploads_geometryCalls (h : CFloat) (n : GLuint) :
    texImageUploads (geometryCalls h n) = [] := by
  simp [texImageUploads, texImageUpload?, geometryCalls]

theorem mem_expectedUploads (ppm : String → PPM) (paths : List String) (s : Nat) (t : GLenum)
    (img : PPM) :
    (t, img) ∈ expectedUploads ppm paths s ↔
      ∃ i, i < paths.length ∧ t = GL_TEXTURE_CUBE_MAP_POSITIVE_X + (s + i) ∧
        img = ppm (paths.getD i "") ∧ (ppm (paths.getD i "")).pixelData ≠ [] := by
  induction paths generalizing s with
  | nil => simp [expectedUploads]
  | cons path rest ih =>
    constructor
    · intro hmem
      have htail : (t, img) ∈ expectedUploads ppm rest (s + 1) →
          ∃ i, i < (path :: rest).length ∧ t = GL_TEXTURE_CUBE_MAP_POSITIVE_X + (s + i) ∧
            img = ppm ((path :: rest).getD i "") ∧
            (ppm ((path :: rest).getD i "")).pixelData ≠ [] := by
        intro h
        obtain ⟨i, hi, ht, himg, hne⟩ := (ih (s + 1)).mp h
        refine ⟨i + 1, by simp only [List.length_cons]; omega, ?_, ?_, ?_⟩
        · rw [ht]; exact congrArg _ (by omega)
        · simpa using himg
        · simpa using hne
      by_cases h : (ppm path).pixelData = []
      · simp only [expectedUploads, h, if_true] at hmem
        exact htail hmem
      · simp only [expectedUploads, h, if_false, List.mem_cons] at hmem
        rcases hmem with hhead | hmem
        · have h1 : t = GL_TEXTURE_CUBE_MAP_POSITIVE_X + s := (Prod.mk.inj hhead).1
          have h2 : img = ppm path := (Prod.mk.inj hhead).2
          exact ⟨0, by simp, by simpa using h1, by simpa using h2, by simpa using h⟩
        · exact htail hmem
    · rintro ⟨i, hi, ht, himg, hne⟩
      cases i with
      | zero =>
        have h : ¬ (ppm path).pixelData = [] := by simpa using hne
        simp only [expectedUploads, h, if_false, List.mem_cons]
        left
        simp only [List.getD_cons_zero] at himg
        rw [ht, himg]
        rfl
      | succ i =>
        have htail : (t, img) ∈ expectedUploads ppm rest (s + 1) := by
          apply (ih (s + 1)).mpr
          refine ⟨i, by simpa using hi, ?_, by simpa using himg, by simpa using hne⟩
          rw [ht]; exact congrArg _ (by omega)
        by_cases h : (ppm path).pixelData = []
        · simp only [expectedUploads, h, if_true]
          exact htail
        · simp only [expectedUploads, h, if_false, List.mem_cons]
          exact Or.inr htail

theorem swapEntries_length (l : List String) (i j : Nat) :
    (swapEntries l i j).length = l.length := by
  simp [swapEntries]

theorem swapEntries_getD (l : List String) (i j : Nat) (hi : i < l.length) (hj : j < l.length) :
    (swapEntries l i j).getD i "" = l.getD j "" ∧ (swapEntries l i j).getD j "" = l.getD i "" := by
  simp only [swapEntries, List.getD_eq_getElem?_getD]
  by_cases hij : i = j
  · subst hij
    simp [List.getElem?_set, hi]
  · have hji : ¬ j = i := fun h => hij h.symm
    simp [List.getElem?_set, hi, hj, hij, hji]


theorem loadCubemap_uploads (ppm : String → PPM) (paths : List String) (w : World) :
    ∃ w' new, loadCubemap ppm paths w = .returned () w' ∧ w'.gl.calls = w.gl.calls ++ new ∧
      texImageUploads new = expectedUploads ppm paths 0 ∧
      ∃ before, new = before ++ cubemapParameters ∧
        texImageUploads before = texImageUploads new :=
  ⟨_, cubemapCalls ppm paths w.gl.nextName, loadCubemap_eval ppm paths w, rfl,
    texImageUploads_cubemapCalls ppm paths _,
    [.glGenTextures w.gl.nextName, .glBindTexture GL_TEXTURE_CUBE_MAP w.gl.nextName] ++
      faceUploads ppm paths 0, rfl, by
        rw [cubemapCalls, texImageUploads_append]
        simp [texImageUploads, texImageUpload?, cubemapParameters]⟩

theorem upload_iff (ppm : String → PPM) (paths : List String) (i : Nat) (hi : i < paths.length)
    (img : PPM) :
    (GL_TEXTURE_CUBE_MAP_POSITIVE_X + i, img) ∈ expectedUploads ppm paths 0 ↔
      img = ppm (paths.getD i "") ∧ (ppm (paths.getD i "")).pixelData ≠ [] := by
  rw [mem_expectedUploads]
  constructor
  · rintro ⟨k, _, hk, himg, hne⟩
    have : i = k := by
      have h1 : @Eq Nat (GL_TEXTURE_CUBE_MAP_POSITIVE_X + i)
          (GL_TEXTURE_CUBE_MAP_POSITIVE_X + (0 + k)) := hk
      omega
    subst this
    exact ⟨himg, hne⟩
  · rintro ⟨himg, hne⟩
    exact ⟨i, hi, by simp, himg, hne⟩

/-- C9. Cubemap face order.  For every list of face paths `loadCubemap` returns,
and its image uploads are exactly: the image decoded from the path at position
`i`, when its pixel data is not empty, to target
`GL_TEXTURE_CUBE_MAP_POSITIVE_X + i`.  For 6 paths with non-empty images the
targets are +X, -X, +Y, -Y, +Z, -Z in list order and carry the images in list
order.  Exchanging the entries `i` and `j` of the list exchanges the images
uploaded to the targets of `i` and `j`.  `VertexSpecification` runs it on the
list right, left, top, bottom, front, back. -/
theorem cubemap_face_order (ppm : String → PPM) :
    (∀ (paths : List String) (w : World),
      ∃ w' new, loadCubemap ppm paths w = .returned () w' ∧ w'.gl.calls = w.gl.calls ++ new ∧
        ∀ t img, (t, img) ∈ texImageUploads new ↔
          ∃ i, i < paths.length ∧ t = GL_TEXTURE_CUBE_MAP_POSITIVE_X + i ∧
            img = ppm (paths.getD i "") ∧ (ppm (paths.getD i "")).pixelData ≠ []) ∧
    (∀ (paths : List String) (w : World), paths.length = 6 →
      (∀ p ∈ paths, (ppm p).pixelData ≠ []) →
      ∃ w' new, loadCubemap ppm paths w = .returned () w' ∧ w'.gl.calls = w.gl.calls ++ new ∧
        (texImageUploads new).map Prod.fst = cubemapFaceTargets ∧
        (texImageUploads new).map Prod.snd = paths.map ppm) ∧
    (∀ (paths : List String) (w : World) (i j : Nat), i < paths.length → j < paths.length →
      ∃ w' new, loadCubemap ppm (swapEntries paths i j) w = .returned () w' ∧
        w'.gl.calls = w.gl.calls ++ new ∧
        ∀ img,
          ((GL_TEXTURE_CUBE_MAP_POSITIVE_X + i, img) ∈ texImageUploads new ↔
            img = ppm (paths.getD j "") ∧ (ppm (paths.getD j "")).pixelData ≠ []) ∧
          ((GL_TEXTURE_CUBE_MAP_POSITIVE_X + j, img) ∈ texImageUploads new ↔
            img = ppm (paths.getD i "") ∧ (ppm (paths.getD i "")).pixelData ≠ [])) ∧
    (∀ w : World, ∃ w' new, VertexSpecification ppm w = .returned () w' ∧
      w'.gl.calls = w.gl.calls ++ new ∧
      texImageUploads new = expectedUploads ppm
        ["./right.ppm", "./left.ppm", "./top.ppm", "./bottom.ppm", "./front.ppm", "./back.ppm"]
        0) := by
  refine ⟨?_, ?_, ?_, ?_⟩
  · intro paths w
    obtain ⟨w', new, e, c, u, _⟩ := loadCubemap_uploads ppm paths w
    refine ⟨w', new, e, c, ?_⟩
    intro t img
    rw [u, mem_expectedUploads]
    simp
  · intro paths w hlen hne
    obtain ⟨w', new, e, c, u, _⟩ := loadCubemap_uploads ppm paths w
    refine ⟨w', new, e, c, ?_⟩
    rw [u]
    rcases paths with _ | ⟨a, _ | ⟨b, _ | ⟨c, _ | ⟨d, _ | ⟨e, _ | ⟨f, _ | ⟨g, rest⟩⟩⟩⟩⟩⟩⟩ <;>
      simp at hlen
    simp only [List.mem_cons, List.mem_singleton, List.not_mem_nil, or_false, forall_eq_or_imp,
      forall_eq] at hne
    obtain ⟨ha, hb, hc, hd, he, hf⟩ := hne
    simp [expectedUploads, ha, hb, hc, hd, he, hf, cubemapFaceTargets,
      GL_TEXTURE_CUBE_MAP_POSITIVE_X, GL_TEXTURE_CUBE_MAP_NEGATIVE_X,
      GL_TEXTURE_CUBE_MAP_POSITIVE_Y, GL_TEXTURE_CUBE_MAP_NEGATIVE_Y,
      GL_TEXTURE_CUBE_MAP_POSITIVE_Z, GL_TEXTURE_CUBE_MAP_NEGATIVE_Z]
  · intro paths w i j hi hj
    obtain ⟨w', new, e, c, u, _⟩ := loadCubemap_uploads ppm (swapEntries paths i j) w
    refine ⟨w', new, e, c, ?_⟩
    intro img
    obtain ⟨g1, g2⟩ := swapEntries_getD paths i j hi hj
    rw [u, upload_iff ppm _ i (by rw [swapEntries_length]; exact hi) img,
      upload_iff ppm _ j (by rw [swapEntries_length]; exact hj) img, g1, g2]
    exact ⟨Iff.rfl, Iff.rfl⟩
  · intro w
    refine ⟨_, _, VertexSpecification_eval ppm w, rfl, ?_⟩
    rw [texImageUploads_append, texImageUploads_geometryCalls, texImageUploads_cubemapCalls]
    rfl

/-- Witness for C9: the list of `VertexSpecification` with its entries 0 and 2
(right and top) exchanged, decoded by the example decoder. -/
theorem cubemap_face_order_witness :
    0 < faces.length ∧ 2 < faces.length ∧
    ∃ w' new, loadCubemap examplePPM (swapEntries faces 0 2) (World.initial exampleCamera)
        = .returned () w' ∧
      w'.gl.calls = (World.initial exampleCamera).gl.calls ++ new ∧
      ∀ img,
        ((GL_TEXTURE_CUBE_MAP_POSITIVE_X + 0, img) ∈ texImageUploads new ↔
          img = examplePPM (faces.getD 2 "") ∧ (examplePPM (faces.getD 2 "")).pixelData ≠ []) ∧
        ((GL_TEXTURE_CUBE_MAP_POSITIVE_X + 2, img) ∈ texImageUploads new ↔
          img = examplePPM (faces.getD 0 "") ∧ (examplePPM (faces.getD 0 "")).pixelData ≠ []) :=
  ⟨by decide, by decide,
    (cubemap_face_order examplePPM).2.2.1 faces (World.initial exampleCamera) 0 2
      (by decide) (by decide)⟩

/-- C10. Missing-face tolerance.  For every list of 6 faces `loadCubemap` returns
(the process is not ended); face `i` gets an upload exactly when the pixel
buffer decoded from path `i` is not empty; when exactly one face `k` has an
empty buffer there are exactly 5 uploads and `k` is the one face without an
upload; and the commands issued end, after all uploads, with linear min and
mag filtering and clamp-to-edge wrapping on S, T and R. -/
theorem cubemap_missing_face (ppm : String → PPM) (paths : List String) (w : World)
    (hlen : paths.length = 6) :
    ∃ w' new, loadCubemap ppm paths w = .returned () w' ∧ w'.gl.calls = w.gl.calls ++ new ∧
      (∀ i : Nat, i < 6 → ((∃ img, (GL_TEXTURE_CUBE_MAP_POSITIVE_X + i, img) ∈ texImageUploads new) ↔
        (ppm (paths.getD i "")).pixelData ≠ [])) ∧
      (∀ k : Nat, k < 6 → (ppm (paths.getD k "")).pixelData = [] →
        (∀ i : Nat, i < 6 → i ≠ k → (ppm (paths.getD i "")).pixelData ≠ []) →
        (texImageUploads new).length = 5 ∧
        ∀ i : Nat, i < 6 → ((∃ img, (GL_TEXTURE_CUBE_MAP_POSITIVE_X + i, img) ∈ texImageUploads new) ↔
          i ≠ k)) ∧
      ∃ before, new = before ++
          [ .glTexParameteri GL_TEXTURE_CUBE_MAP GL_TEXTURE_MIN_FILTER GL_LINEAR,
            .glTexParameteri GL_TEXTURE_CUBE_MAP GL_TEXTURE_MAG_FILTER GL_LINEAR,
            .glTexParameteri GL_TEXTURE_CUBE_MAP GL_TEXTURE_WRAP_S GL_CLAMP_TO_EDGE,
            .glTexParameteri GL_TEXTURE_CUBE_MAP GL_TEXTURE_WRAP_T GL_CLAMP_TO_EDGE,
            .glTexParameteri GL_TEXTURE_CUBE_MAP GL_TEXTURE_WRAP_R GL_CLAMP_TO_EDGE ] ∧
        texImageUploads before = texImageUploads new := by
  obtain ⟨w', new, e, c, u, hpar⟩ := loadCubemap_uploads ppm paths w
  have hiff : ∀ i : Nat, i < 6 →
      ((∃ img, (GL_TEXTURE_CUBE_MAP_POSITIVE_X + i, img) ∈ texImageUploads new) ↔
      (ppm (paths.getD i "")).pixelData ≠ []) := by
    intro i hi
    rw [u]
    constructor
    · rintro ⟨img, himg⟩
      exact ((upload_iff ppm paths i (by omega) img).mp himg).2
    · intro hne
      exact ⟨_, (upload_iff ppm paths i (by omega) _).mpr ⟨rfl, hne⟩⟩
  refine ⟨w', new, e, c, hiff, ?_, hpar⟩
  intro k hk hempty hothers
  constructor
  · rw [u]
    rcases paths with _ | ⟨a, _ | ⟨b, _ | ⟨c, _ | ⟨d, _ | ⟨e, _ | ⟨f, _ | ⟨g, rest⟩⟩⟩⟩⟩⟩⟩ <;>
      simp at hlen
    have h0 := hothers 0 (by omega)
    have h1 := hothers 1 (by omega)
    have h2 := hothers 2 (by omega)
    have h3 := hothers 3 (by omega)
    have h4 := hothers 4 (by omega)
    have h5 := hothers 5 (by omega)
    interval_cases k <;> simp at hempty h0 h1 h2 h3 h4 h5 <;>
      simp [expectedUploads, hempty, h0, h1, h2, h3, h4, h5]
  · intro i hi
    rw [hiff i hi]
    constructor
    · intro hne hik
      rw [hik] at hne
      exact hne hempty
    · intro hik
      exact hothers i hi hik

/-- Witness for C10: the six paths of `VertexSpecification` with the example
decoder, for which `./top.ppm` decodes to an empty buffer. -/
theorem cubemap_missing_face_witness :
    faces.length = 6 ∧
    ∃ w' new, loadCubemap examplePPM faces (World.initial exampleCamera) = .returned () w' ∧
      w'.gl.calls = (World.initial exampleCamera).gl.calls ++ new ∧
      (∀ i : Nat, i < 6 → ((∃ img, (GL_TEXTURE_CUBE_MAP_POSITIVE_X + i, img) ∈ texImageUploads new) ↔
        (examplePPM (faces.getD i "")).pixelData ≠ [])) ∧
      (∀ k : Nat, k < 6 → (examplePPM (faces.getD k "")).pixelData = [] →
        (∀ i : Nat, i < 6 → i ≠ k → (examplePPM (faces.getD i "")).pixelData ≠ []) →
        (texImageUploads new).length = 5 ∧
        ∀ i : Nat, i < 6 → ((∃ img, (GL_TEXTURE_CUBE_MAP_POSITIVE_X + i, img) ∈ texImageUploads new) ↔
          i ≠ k)) ∧
      ∃ before, new = before ++
          [ .glTexParameteri GL_TEXTURE_CUBE_MAP GL_TEXTURE_MIN_FILTER GL_LINEAR,
            .glTexParameteri GL_TEXTURE_CUBE_MAP GL_TEXTURE_MAG_FILTER GL_LINEAR,
            .glTexParameteri GL_TEXTURE_CUBE_MAP GL_TEXTURE_WRAP_S GL_CLAMP_TO_EDGE,
            .glTexParameteri GL_TEXTURE_CUBE_MAP GL_TEXTURE_WRAP_T GL_CLAMP_TO_EDGE,
            .glTexParameteri GL_TEXTURE_CUBE_MAP GL_TEXTURE_WRAP_R GL_CLAMP_TO_EDGE ] ∧
        texImageUploads before = texImageUploads new :=
  ⟨by decide, cubemap_missing_face examplePPM faces (World.initial exampleCamera) (by decide)⟩

theorem Context.step_keeps_geometry (s : Context) (c : GLCall) (h : geometryCommand c = false) :
    (s.step c).vertexArray = s.vertexArray ∧ (s.step c).arrayBuffer = s.arrayBuffer ∧
    (s.step c).buffers = s.buffers ∧ (s.step c).pointers = s.pointers ∧
    (s.step c).enabled = s.enabled ∧ drawCount? c = none := by
  cases c <;> first
    | (simp [geometryCommand] at h; done)
    | (refine ⟨?_, ?_, ?_, ?_, ?_, rfl⟩ <;> simp only [Context.step] <;> (try split) <;> rfl)

theorem Context.replay_append (s : Context) (a b : List GLCall) :
    s.replay (a ++ b) = (s.replay a).replay b := by
  simp [Context.replay, List.foldl_append]

theorem Context.replay_cons (s : Context) (c : GLCall) (l : List GLCall) :
    s.replay (c :: l) = (s.step c).replay l := rfl

theorem Context.replay_nil (s : Context) : s.replay [] = s := rfl

theorem drawsIn_append (s : Context) (a b : List GLCall) :
    drawsIn s (a ++ b) = drawsIn s a ++ drawsIn (s.replay a) b := by
  induction a generalizing s with
  | nil => rfl
  | cons c rest ih =>
    show _ ++ drawsIn (s.step c) (rest ++ b) = (_ ++ drawsIn (s.step c) rest) ++ _
    rw [ih, List.append_assoc]
    rfl

theorem Context.replay_keeps_geometry (s : Context) (l : List GLCall)
    (h : ∀ c ∈ l, geometryCommand c = false) :
    (s.replay l).vertexArray = s.vertexArray ∧ (s.replay l).arrayBuffer = s.arrayBuffer ∧
    (s.replay l).buffers = s.buffers ∧ (s.replay l).pointers = s.pointers ∧
    (s.replay l).enabled = s.enabled ∧ drawsIn s l = [] := by
  induction l generalizing s with
  | nil => exact ⟨rfl, rfl, rfl, rfl, rfl, rfl⟩
  | cons c rest ih =>
    obtain ⟨a1, a2, a3, a4, a5, a6⟩ := s.step_keeps_geometry c (h c (List.mem_cons_self _ _))
    obtain ⟨b1, b2, b3, b4, b5, b6⟩ := ih (s.step c) (fun x hx => h x (List.mem_cons_of_mem _ hx))
    refine ⟨b1.trans a1, b2.trans a2, b3.trans a3, b4.trans a4, b5.trans a5, ?_⟩
    simp only [drawsIn, a6, b6, List.append_nil]

theorem cubemapCalls_keep_geometry (ppm : String → PPM) (paths : List String) (n : GLuint) :
    ∀ c ∈ cubemapCalls ppm paths n, geometryCommand c = false := by
  have hf : ∀ (paths : List String) (i : Nat), ∀ c ∈ faceUploads ppm paths i,
      geometryCommand c = false := by
    intro paths
    induction paths with
    | nil => intro i c hc; simp [faceUploads] at hc
    | cons path rest ih =>
      intro i c hc
      simp only [faceUploads, List.mem_append] at hc
      rcases hc with hc | hc
      · split at hc
        · simp only [List.mem_singleton] at hc
          subst hc
          rfl
        · simp at hc
      · exact ih (i + 1) c hc
  intro c hc
  simp only [cubemapCalls, cubemapParameters, List.mem_append, List.mem_cons, List.mem_singleton,
    List.not_mem_nil, or_false] at hc
  rcases hc with ((rfl | rfl) | hc) | rfl | rfl | rfl | rfl | rfl
  · rfl
  · rfl
  · exact hf paths 0 c hc
  · rfl
  · rfl
  · rfl
  · rfl
  · rfl

theorem Context.fetched_congr (s t : Context) (first count : Nat)
    (h1 : s.vertexArray = t.vertexArray) (h2 : s.buffers = t.buffers)
    (h3 : s.pointers = t.pointers) (h4 : s.enabled = t.enabled) :
    s.fetched first count = t.fetched first count := by
  simp only [Context.fetched, Context.enabledOf, Context.bufferOf, h1, h2, h3, h4]

/-- The geometry state after the geometry commands of `VertexSpecification` in
a new context, with names starting at 1. -/
theorem geometryCalls_replay (h : CFloat) :
    (Context.initial.replay (geometryCalls h 1)).buffers = [(4, vertexDataSkybox), (2, vertexDataQuad h)] ∧
    (Context.initial.replay (geometryCalls h 1)).pointers =
      [(3, 4, ⟨0, 3, 12, 0⟩), (1, 2, ⟨2, 3, 32, 20⟩), (1, 2, ⟨1, 3, 32, 12⟩), (1, 2, ⟨0, 3, 32, 0⟩)] ∧
    (Context.initial.replay (geometryCalls h 1)).enabled = [(3, 0), (1, 2), (1, 1), (1, 0)] ∧
    drawsIn Context.initial (geometryCalls h 1) = [] := by
  refine ⟨?_, ?_, ?_, ?_⟩ <;>
  simp [geometryCalls, Context.replay, Context.step, Context.initial, drawsIn, drawCount?,
    sizeof_GL_FLOAT]

/-- The cross products of the 12 triangles of the skybox vertex data: each is
4 times the inward unit normal of the face of its triangle. -/
theorem skyboxTriangleNormal_values :
    (List.range 12).map skyboxTriangleNormal =
      [⟨0, 0, 4⟩, ⟨0, 0, 4⟩, ⟨4, 0, 0⟩, ⟨4, 0, 0⟩, ⟨-4, 0, 0⟩, ⟨-4, 0, 0⟩,
       ⟨0, 0, -4⟩, ⟨0, 0, -4⟩, ⟨0, -4, 0⟩, ⟨0, -4, 0⟩, ⟨0, 4, 0⟩, ⟨0, 4, 0⟩] := by
  decide!

/-- C12. Consistent inside-out winding.  The skybox vertex data is 12
triangles of 3 vertices of 3 floats.  For every one of the 12 triangles
`(v0, v1, v2)` the cross product `(v1 - v0) x (v2 - v0)` is not the zero vector
and its dot product with `v0` is negative (it is -4 for every triangle): the
cross product points to the inside of the cube, so all 12 triangles have the
same orientation seen from the centre. -/
theorem skybox_winding :
    vertexDataSkybox.length = 12 * 3 * 3 ∧
    ∀ t < 12, skyboxTriangleNormal t ≠ ⟨0, 0, 0⟩ ∧
      Vec3.dot (skyboxTriangleNormal t) (skyboxPosition (3 * t)) < 0 ∧
      Vec3.dot (skyboxTriangleNormal t) (skyboxPosition (3 * t)) = -4 := by
  refine ⟨by decide, ?_⟩
  intro t ht
  have hdot : ∀ k < 12, Vec3.dot (skyboxTriangleNormal k) (skyboxPosition (3 * k)) = -4 := by
    decide!
  have hne : ∀ k < 12, skyboxTriangleNormal k ≠ ⟨0, 0, 0⟩ := by
    decide!
  refine ⟨hne t ht, ?_, hdot t ht⟩
  rw [hdot t ht]
  norm_num

/-- Witness for C12: the first triangle. -/
theorem skybox_winding_witness :
    0 < 12 ∧ skyboxTriangleNormal 0 ≠ ⟨0, 0, 0⟩ ∧
      Vec3.dot (skyboxTriangleNormal 0) (skyboxPosition (3 * 0)) < 0 ∧
      Vec3.dot (skyboxTriangleNormal 0) (skyboxPosition (3 * 0)) = -4 :=
  ⟨by decide, skybox_winding.2 0 (by decide)⟩

theorem Context.step_upload (s : Context) (c : GLCall) (lv : GLint × UniformValue)
    (h : uniformUpload? c = some lv) :
    s.step c = s ∧ uniformLookupResult? c = none ∧ drawCount? c = none ∧
      geometryCommand c = false := by
  cases c <;> first
    | (simp [uniformUpload?] at h; done)
    | exact ⟨rfl, rfl, rfl, rfl⟩

theorem uploadsIn_append (s : Context) (last : Option (GLuint × String × GLint))
    (a b : List GLCall) :
    ∃ last', uploadsIn s last (a ++ b) = uploadsIn s last a ++ uploadsIn (s.replay a) last' b := by
  induction a generalizing s last with
  | nil => exact ⟨last, rfl⟩
  | cons c rest ih =>
    obtain ⟨last', e⟩ := ih (s.step c) (latestLookup last c)
    refine ⟨last', ?_⟩
    show _ ++ uploadsIn (s.step c) _ (rest ++ b) = (_ ++ uploadsIn (s.step c) _ rest) ++ _
    rw [e, List.append_assoc]
    rfl

theorem uploadsIn_bindingCalls (d : Driver) (st : GLState) (bs : List UniformBinding)
    (hbs : ∀ b ∈ bs, b.IsUpload) (s : Context) (last : Option (GLuint × String × GLint)) :
    uploadsIn s last (bindingCalls d st bs) = bindingUploads d st s.program bs ∧
    s.replay (bindingCalls d st bs) = s ∧ drawsIn s (bindingCalls d st bs) = [] := by
  induction bs generalizing last with
  | nil => exact ⟨rfl, rfl, rfl⟩
  | cons b rest ih =>
    have hb := hbs b (List.mem_cons_self _ _) (GLCmd.uniformLocation d st b.program b.name)
    obtain ⟨e1, e2, e3, _⟩ := s.step_upload _ _ hb
    obtain ⟨i1, i2, i3⟩ := ih (fun x hx => hbs x (List.mem_cons_of_mem _ hx))
      (some (b.program, b.name, GLCmd.uniformLocation d st b.program b.name))
    have u1 : uploadOf s (some (b.program, b.name, GLCmd.uniformLocation d st b.program b.name))
        (b.set (GLCmd.uniformLocation d st b.program b.name)) =
        [⟨s.program, GLCmd.uniformLocation d st b.program b.name, b.value,
          some (b.program, b.name, GLCmd.uniformLocation d st b.program b.name)⟩] := by
      simp only [uploadOf, hb]
    have u2 : latestLookup (some (b.program, b.name, GLCmd.uniformLocation d st b.program b.name))
        (b.set (GLCmd.uniformLocation d st b.program b.name)) =
        some (b.program, b.name, GLCmd.uniformLocation d st b.program b.name) := by
      simp only [latestLookup, e2]
    have u3 : drawsIn s (b.set (GLCmd.uniformLocation d st b.program b.name) ::
        bindingCalls d st rest) = [] := by
      simp only [drawsIn, e3, e1, i3, List.append_nil]
    refine ⟨?_, ?_, ?_⟩
    · show uploadOf s last (.glGetUniformLocation _ _ _) ++
        (uploadOf s _ (b.set _) ++ uploadsIn (s.step (b.set _)) (latestLookup _ (b.set _)) _) = _
      have u0 : latestLookup last (GLCall.glGetUniformLocation b.program b.name
          (GLCmd.uniformLocation d st b.program b.name)) =
          some (b.program, b.name, GLCmd.uniformLocation d st b.program b.name) := rfl
      rw [u0, u1, u2, e1, i1]
      rfl
    · show ((s.step (.glGetUniformLocation _ _ _)).step (b.set _)).replay _ = s
      show (s.step (b.set _)).replay _ = s
      rw [e1, i2]
    · exact u3

theorem uploadsIn_lookup (s : Context) (last : Option (GLuint × String × GLint))
    (p : GLuint) (name : String) (l : GLint) :
    uploadsIn s last [.glGetUniformLocation p name l] = [] ∧
    drawsIn s [.glGetUniformLocation p name l] = [] := ⟨rfl, rfl⟩

theorem oceanBindings_isUpload (g : Globals) (ticks : Nat) :
    ∀ b ∈ oceanBindings g ticks, b.IsUpload := by
  simp [oceanBindings, UniformBinding.IsUpload, UniformBinding.value, uniformUpload?]

theorem skyboxBindings_isUpload (g : Globals) :
    ∀ b ∈ skyboxBindings g, b.IsUpload := by
  simp [skyboxBindings, UniformBinding.IsUpload, UniformBinding.value, uniformUpload?]

theorem bindUniform_globals (d : Driver) (b : UniformBinding) (w : World) :
    (bindUniform d b w).world.globals = w.globals := by
  by_cases h : 0 ≤ GLCmd.uniformLocation d w.gl b.program b.name
  · obtain ⟨w', e, _, _, _, g⟩ := bindUniform_ok d b w h
    rw [e]; exact g
  · obtain ⟨w', e, _, _, g⟩ := bindUniform_fail d b w (not_le.mp h)
    rw [e]; exact g

theorem bindUniforms_globals (d : Driver) (bs : List UniformBinding) (w : World) :
    (bindUniforms d bs w).world.globals = w.globals := by
  induction bs generalizing w with
  | nil => rfl
  | cons b rest ih =>
    have hb := bindUniform_globals d b w
    simp only [bindUniforms, Prog.bind_apply]
    cases hbw : bindUniform d b w with
    | returned a w1 =>
      rw [hbw] at hb
      exact (ih w1).trans hb
    | exited c w1 =>
      rw [hbw] at hb
      exact hb
    | undefined w1 =>
      rw [hbw] at hb
      exact hb

/-- The function `PreDraw` writes no global, however it ends. -/
theorem PreDraw_globals (d : Driver) (ticks : Nat) (w : World) :
    (PreDraw d ticks w).world.globals = w.globals := by
  rw [PreDraw_apply]
  have h1 := bindUniforms_globals d (oceanBindings w.globals ticks) (afterPrelude w)
  simp only [Prog.bind_apply]
  cases h : bindUniforms d (oceanBindings w.globals ticks) (afterPrelude w) with
  | returned a w1 =>
    rw [h] at h1
    simp only [Prog.glLog_apply]
    have h2 := bindUniforms_globals d (skyboxBindings w.globals)
      (w1.log (.glUseProgram w.globals.gSkyboxPipelineShaderProgram))
    cases h' : bindUniforms d (skyboxBindings w.globals)
        (w1.log (.glUseProgram w.globals.gSkyboxPipelineShaderProgram)) with
    | returned a w2 => rw [h'] at h2; exact h2.trans h1
    | exited c w2 => rw [h'] at h2; exact h2.trans h1
    | undefined w2 => rw [h'] at h2; exact h2.trans h1
  | exited c w1 => rw [h] at h1; exact h1
  | undefined w1 => rw [h] at h1; exact h1

/-- How `PreDraw` ends and the commands it issues: it returns when all 30
lookups succeed, and ends the process at the first lookup that fails. -/
theorem PreDraw_trichotomy (d : Driver) (ticks : Nat) (w : World) :
    (∃ w', PreDraw d ticks w = .returned () w' ∧ w'.globals = w.globals ∧
      w'.gl.calls = w.gl.calls ++ (preDrawPrelude w.globals ++
        bindingCalls d w.gl (oceanBindings w.globals ticks) ++
        [.glUseProgram w.globals.gSkyboxPipelineShaderProgram] ++
        bindingCalls d w.gl (skyboxBindings w.globals))) ∨
    (∃ w' pre b post, oceanBindings w.globals ticks = pre ++ b :: post ∧
      PreDraw d ticks w = .exited EXIT_FAILURE w' ∧ w'.globals = w.globals ∧
      w'.gl.calls = w.gl.calls ++ (preDrawPrelude w.globals ++ bindingCalls d w.gl pre ++
        [.glGetUniformLocation b.program b.name (GLCmd.uniformLocation d w.gl b.program b.name)])) ∨
    (∃ w' pre b post, skyboxBindings w.globals = pre ++ b :: post ∧
      PreDraw d ticks w = .exited EXIT_FAILURE w' ∧ w'.globals = w.globals ∧
      w'.gl.calls = w.gl.calls ++ (preDrawPrelude w.globals ++
        bindingCalls d w.gl (oceanBindings w.globals ticks) ++
        [.glUseProgram w.globals.gSkyboxPipelineShaderProgram] ++ bindingCalls d w.gl pre ++
        [.glGetUniformLocation b.program b.name (GLCmd.uniformLocation d w.gl b.program b.name)])) := by
  have hg := PreDraw_globals d ticks w
  by_cases hO : ∀ x ∈ oceanBindings w.globals ticks,
      0 ≤ GLCmd.uniformLocation d w.gl x.program x.name
  · by_cases hS : ∀ x ∈ skyboxBindings w.globals,
        0 ≤ GLCmd.uniformLocation d w.gl x.program x.name
    · left
      obtain ⟨w', e, c⟩ := PreDraw_ok d ticks w (by
        intro b hb
        rcases List.mem_append.mp hb with hb | hb
        · exact hO b hb
        · exact hS b hb)
      rw [e] at hg
      exact ⟨w', e, hg, c⟩
    · right; right
      obtain ⟨pre, b, post, hs, hp, hb⟩ := exists_first_failure
        (fun x : UniformBinding => 0 ≤ GLCmd.uniformLocation d w.gl x.program x.name) _
        (by push_neg at hS; obtain ⟨x, hx, hx'⟩ := hS; exact ⟨x, hx, not_le.mpr hx'⟩)
      obtain ⟨w', e, c⟩ := PreDraw_fail_skybox d ticks w pre b post hs hO hp (not_le.mp hb)
      rw [e] at hg
      exact ⟨w', pre, b, post, hs, e, hg, c⟩
  · right; left
    obtain ⟨pre, b, post, hs, hp, hb⟩ := exists_first_failure
      (fun x : UniformBinding => 0 ≤ GLCmd.uniformLocation d w.gl x.program x.name) _
      (by push_neg at hO; obtain ⟨x, hx, hx'⟩ := hO; exact ⟨x, hx, not_le.mpr hx'⟩)
    obtain ⟨w', e, c⟩ := PreDraw_fail_ocean d ticks w pre b post hs hp (not_le.mp hb)
    rw [e] at hg
    exact ⟨w', pre, b, post, hs, e, hg, c⟩

/-- When every required lookup succeeds `PreDraw` returns. -/
theorem PreDraw_returns (d : Driver) (ticks : Nat) (w : World)
    (h : ∀ r ∈ requiredLookups w.globals, 0 ≤ GLCmd.uniformLocation d w.gl r.1 r.2) :
    PreDraw d ticks w = .returned () (PreDraw d ticks w).world := by
  obtain ⟨w', _, e, _⟩ := PreDraw_all_resolve d ticks w h
  rw [e]
  rfl

set_option maxRecDepth 100000 in
theorem exampleFrame_returns (ticks : Nat) :
    PreDraw exampleDriver ticks exampleFrameWorld =
      .returned () (PreDraw exampleDriver ticks exampleFrameWorld).world :=
  PreDraw_returns _ _ _ (by decide)

set_option maxRecDepth 100000 in
theorem exampleTwoWave_returns (ticks : Nat) :
    PreDraw exampleDriver ticks exampleTwoWaveWorld =
      .returned () (PreDraw exampleDriver ticks exampleTwoWaveWorld).world :=
  PreDraw_returns _ _ _ (by decide)

set_option maxRecDepth 100000 in
theorem exampleWireframe_returns (ticks : Nat) :
    PreDraw exampleDriver ticks exampleWireframeWorld =
      .returned () (PreDraw exampleDriver ticks exampleWireframeWorld).world :=
  PreDraw_returns _ _ _ (by decide)

theorem preDrawPrelude_replay (g : Globals) (s : Context)
    (last : Option (GLuint × String × GLint)) :
    uploadsIn s last (preDrawPrelude g) = [] ∧ drawsIn s (preDrawPrelude g) = [] ∧
    (s.replay (preDrawPrelude g)).program = g.gGraphicsPipelineShaderProgram ∧
    (s.replay (preDrawPrelude g)).depthFunc = s.depthFunc ∧
    (s.replay (preDrawPrelude g)).polygonMode = g.gPolygonMode :=
  ⟨rfl, rfl, rfl, rfl, rfl⟩

theorem uploadsIn_useProgram (s : Context) (last : Option (GLuint × String × GLint)) (p : GLuint) :
    uploadsIn s last [.glUseProgram p] = [] := rfl

/-- The uploads of a `PreDraw` that returns. -/
theorem uploadsIn_preDraw_full (d : Driver) (st : GLState) (g : Globals) (ticks : Nat)
    (s : Context) (last : Option (GLuint × String × GLint)) :
    uploadsIn s last (preDrawPrelude g ++ bindingCalls d st (oceanBindings g ticks) ++
        [.glUseProgram g.gSkyboxPipelineShaderProgram] ++
        bindingCalls d st (skyboxBindings g)) =
      bindingUploads d st g.gGraphicsPipelineShaderProgram (oceanBindings g ticks) ++
      bindingUploads d st g.gSkyboxPipelineShaderProgram (skyboxBindings g) := by
  obtain ⟨l1, e1⟩ := uploadsIn_append s last (preDrawPrelude g ++
    bindingCalls d st (oceanBindings g ticks) ++ [.glUseProgram g.gSkyboxPipelineShaderProgram])
    (bindingCalls d st (skyboxBindings g))
  obtain ⟨l2, e2⟩ := uploadsIn_append s last (preDrawPrelude g ++
    bindingCalls d st (oceanBindings g ticks)) [.glUseProgram g.gSkyboxPipelineShaderProgram]
  obtain ⟨l3, e3⟩ := uploadsIn_append s last (preDrawPrelude g)
    (bindingCalls d st (oceanBindings g ticks))
  obtain ⟨o1, o2, _⟩ := uploadsIn_bindingCalls d st _ (oceanBindings_isUpload g ticks)
    (s.replay (preDrawPrelude g)) l3
  rw [e1, e2, e3, (preDrawPrelude_replay g s last).1, o1, uploadsIn_useProgram,
    Context.replay_append, Context.replay_append, o2,
    (uploadsIn_bindingCalls d st _ (skyboxBindings_isUpload g) _ l1).1]
  rfl

/-- The uploads of a `PreDraw` that ends at a lookup on the ocean program. -/
theorem uploadsIn_preDraw_ocean (d : Driver) (st : GLState) (g : Globals) (ticks : Nat)
    (pre : List UniformBinding) (b : UniformBinding) (post : List UniformBinding)
    (hsplit : oceanBindings g ticks = pre ++ b :: post) (l : GLint)
    (s : Context) (last : Option (GLuint × String × GLint)) :
    uploadsIn s last (preDrawPrelude g ++ bindingCalls d st pre ++
        [.glGetUniformLocation b.program b.name l]) =
      bindingUploads d st g.gGraphicsPipelineShaderProgram pre := by
  have hpre : ∀ x ∈ pre, x.IsUpload := fun x hx =>
    oceanBindings_isUpload g ticks x (by rw [hsplit]; exact List.mem_append_left _ hx)
  obtain ⟨l1, e1⟩ := uploadsIn_append s last (preDrawPrelude g ++ bindingCalls d st pre)
    [.glGetUniformLocation b.program b.name l]
  obtain ⟨l2, e2⟩ := uploadsIn_append s last (preDrawPrelude g) (bindingCalls d st pre)
  rw [e1, e2, (preDrawPrelude_replay g s last).1,
    (uploadsIn_bindingCalls d st _ hpre (s.replay (preDrawPrelude g)) l2).1,
    (uploadsIn_lookup _ l1 _ _ _).1]
  simp only [List.nil_append, List.append_nil]
  rfl

/-- The uploads of a `PreDraw` that ends at a lookup on the skybox program. -/
theorem uploadsIn_preDraw_skybox (d : Driver) (st : GLState) (g : Globals) (ticks : Nat)
    (pre : List UniformBinding) (b : UniformBinding) (post : List UniformBinding)
    (hsplit : skyboxBindings g = pre ++ b :: post) (l : GLint)
    (s : Context) (last : Option (GLuint × String × GLint)) :
    uploadsIn s last (preDrawPrelude g ++ bindingCalls d st (oceanBindings g ticks) ++
        [.glUseProgram g.gSkyboxPipelineShaderProgram] ++ bindingCalls d st pre ++
        [.glGetUniformLocation b.program b.name l]) =
      bindingUploads d st g.gGraphicsPipelineShaderProgram (oceanBindings g ticks) ++
      bindingUploads d st g.gSkyboxPipelineShaderProgram pre := by
  have hpre : ∀ x ∈ pre, x.IsUpload := fun x hx =>
    skyboxBindings_isUpload g x (by rw [hsplit]; exact List.mem_append_left _ hx)
  obtain ⟨l0, e0⟩ := uploadsIn_append s last (preDrawPrelude g ++
    bindingCalls d st (oceanBindings g ticks) ++
    [.glUseProgram g.gSkyboxPipelineShaderProgram] ++ bindingCalls d st pre)
    [.glGetUniformLocation b.program b.name l]
  obtain ⟨l1, e1⟩ := uploadsIn_append s last (preDrawPrelude g ++
    bindingCalls d st (oceanBindings g ticks) ++ [.glUseProgram g.gSkyboxPipelineShaderProgram])
    (bindingCalls d st pre)
  obtain ⟨l2, e2⟩ := uploadsIn_append s last (preDrawPrelude g ++
    bindingCalls d st (oceanBindings g ticks)) [.glUseProgram g.gSkyboxPipelineShaderProgram]
  obtain ⟨l3, e3⟩ := uploadsIn_append s last (preDrawPrelude g)
    (bindingCalls d st (oceanBindings g ticks))
  obtain ⟨o1, o2, _⟩ := uploadsIn_bindingCalls d st _ (oceanBindings_isUpload g ticks)
    (s.replay (preDrawPrelude g)) l3
  rw [e0, e1, e2, e3, (preDrawPrelude_replay g s last).1, o1, uploadsIn_useProgram,
    Context.replay_append, Context.replay_append, o2,
    (uploadsIn_bindingCalls d st _ hpre _ l1).1, (uploadsIn_lookup _ l0 _ _ _).1]
  simp only [List.nil_append, List.append_nil]
  rfl

theorem boundValues_bindingUploads (d : Driver) (st : GLState) (sel : GLuint)
    (bs : List UniformBinding) :
    boundValues (bindingUploads d st sel bs) = bs.map (fun b => (b.name, b.value)) := by
  induction bs with
  | nil => rfl
  | cons b rest ih =>
    simp only [bindingUploads, boundValues, List.map_cons, List.filterMap_cons] at ih ⊢
    rw [ih]

theorem boundValues_append (a b : List Upload) :
    boundValues (a ++ b) = boundValues a ++ boundValues b := by
  simp [boundValues, List.filterMap_append]

theorem valuesBound_append (p : GLuint) (name : String) (a b : List Upload) :
    valuesBound p name (a ++ b) = valuesBound p name a ++ valuesBound p name b := by
  simp [valuesBound, List.filterMap_append]

theorem valuesBound_other (d : Driver) (st : GLState) (sel p : GLuint) (name : String)
    (bs : List UniformBinding) (h : ∀ b ∈ bs, b.name ≠ name) :
    valuesBound p name (bindingUploads d st sel bs) = [] := by
  induction bs with
  | nil => rfl
  | cons b rest ih =>
    have hb : ¬ (b.program = p ∧ b.name = name) := fun hc => h b (List.mem_cons_self _ _) hc.2
    have ih' := ih (fun x hx => h x (List.mem_cons_of_mem _ hx))
    simp only [bindingUploads, valuesBound, List.map_cons, List.filterMap_cons, hb, if_false] at ih' ⊢
    exact ih'

/-- The value `PreDraw` uploads for the skybox uniform `view`. -/
theorem PreDraw_view_value (d : Driver) (ticks : Nat) (w w1 : World) (s : Context)
    (h : PreDraw d ticks w = .returned () w1) :
    ∃ new, w1.gl.calls = w.gl.calls ++ new ∧
      valuesBound w.globals.gSkyboxPipelineShaderProgram "view" (uploadsIn s none new) =
        [.matrix (.mat (Mat4.ofMat3 (Mat3.ofMat4 w.globals.gCamera.viewMatrix)))] := by
  rcases PreDraw_trichotomy d ticks w with ⟨w', e, _, c⟩ | ⟨w', _, _, _, _, e, _⟩ |
    ⟨w', _, _, _, _, e, _⟩
  · rw [e] at h
    injection h with _ h
    subst h
    refine ⟨_, c, ?_⟩
    rw [uploadsIn_preDraw_full, valuesBound_append,
      valuesBound_other d w.gl _ _ "view" (oceanBindings w.globals ticks)
        (by simp [oceanBindings])]
    simp [bindingUploads, skyboxBindings, valuesBound, UniformBinding.value, uniformUpload?]
  · rw [e] at h; cases h
  · rw [e] at h; cases h

set_option maxRecDepth 100000 in
theorem exampleMoved_returns (ticks : Nat) :
    PreDraw exampleDriver ticks exampleMovedWorld =
      .returned () (PreDraw exampleDriver ticks exampleMovedWorld).world :=
  PreDraw_returns _ _ _ (by decide)

/-- C13. Skybox view is rotation-only.  For every camera view matrix `V` (any
world in which `PreDraw` returns), the value `PreDraw` uploads for the uniform
`view` of the skybox program is one matrix `M`; each entry of rows 0 to 2 of
columns 0 to 2 of `M` is the entry of `V` at that place, the translation
column of `M` is (0, 0, 0), and its last row is (0, 0, 0, 1), as in the
identity.  Consequently a second run whose view matrix agrees with `V` on
these nine entries (in particular one that differs from `V` only in its
translation part) uploads the identical matrix. -/
theorem skybox_view_rotation_only (d : Driver) (ticks : Nat) (w w1 : World) (s : Context)
    (h : PreDraw d ticks w = .returned () w1) :
    ∃ new M, w1.gl.calls = w.gl.calls ++ new ∧
      valuesBound w.globals.gSkyboxPipelineShaderProgram "view" (uploadsIn s none new) =
        [.matrix (.mat M)] ∧
      (M.c0.x = w.globals.gCamera.viewMatrix.c0.x ∧ M.c0.y = w.globals.gCamera.viewMatrix.c0.y ∧
        M.c0.z = w.globals.gCamera.viewMatrix.c0.z ∧
        M.c1.x = w.globals.gCamera.viewMatrix.c1.x ∧ M.c1.y = w.globals.gCamera.viewMatrix.c1.y ∧
        M.c1.z = w.globals.gCamera.viewMatrix.c1.z ∧
        M.c2.x = w.globals.gCamera.viewMatrix.c2.x ∧ M.c2.y = w.globals.gCamera.viewMatrix.c2.y ∧
        M.c2.z = w.globals.gCamera.viewMatrix.c2.z) ∧
      (M.c3.x = 0 ∧ M.c3.y = 0 ∧ M.c3.z = 0) ∧
      (M.c0.w = 0 ∧ M.c1.w = 0 ∧ M.c2.w = 0 ∧ M.c3.w = 1) ∧
      ∀ (d' : Driver) (ticks' : Nat) (w' w1' : World) (s' : Context),
        PreDraw d' ticks' w' = .returned () w1' →
        w'.globals.gCamera.viewMatrix.SameBlock w.globals.gCamera.viewMatrix →
        ∃ new', w1'.gl.calls = w'.gl.calls ++ new' ∧
          valuesBound w'.globals.gSkyboxPipelineShaderProgram "view" (uploadsIn s' none new') =
            [.matrix (.mat M)] := by
  obtain ⟨new, c, v⟩ := PreDraw_view_value d ticks w w1 s h
  refine ⟨new, _, c, v, ⟨rfl, rfl, rfl, rfl, rfl, rfl, rfl, rfl, rfl⟩, ⟨rfl, rfl, rfl⟩,
    ⟨rfl, rfl, rfl, rfl⟩, ?_⟩
  intro d' ticks' w' w1' s' h' hV
  obtain ⟨new', c', v'⟩ := PreDraw_view_value d' ticks' w' w1' s' h'
  refine ⟨new', c', ?_⟩
  obtain ⟨e1, e2, e3, e4, e5, e6, e7, e8, e9⟩ := hV
  rw [v']
  simp only [Mat4.ofMat3, Mat3.ofMat4, e1, e2, e3, e4, e5, e6, e7, e8, e9]

/-- Witness for C13: the example frame with the camera at (3, 4, 5), looking
down the positive x axis: the view matrix has the translation column
(-5, -4, 3) and is not the identity on its upper-left block. -/
theorem skybox_view_rotation_only_witness :
    PreDraw exampleDriver 0 exampleMovedWorld =
      .returned () (PreDraw exampleDriver 0 exampleMovedWorld).world ∧
    exampleMovedWorld.globals.gCamera.viewMatrix =
      ⟨⟨0, 0, -1, 0⟩, ⟨0, 1, 0, 0⟩, ⟨1, 0, 0, 0⟩, ⟨-5, -4, 3, 1⟩⟩ ∧
    ∃ new M, (PreDraw exampleDriver 0 exampleMovedWorld).world.gl.calls =
        exampleMovedWorld.gl.calls ++ new ∧
      valuesBound exampleMovedWorld.globals.gSkyboxPipelineShaderProgram "view"
          (uploadsIn Context.initial none new) = [.matrix (.mat M)] ∧
      (M.c0.x = 0 ∧ M.c0.y = 0 ∧ M.c0.z = -1 ∧ M.c1.x = 0 ∧ M.c1.y = 1 ∧ M.c1.z = 0 ∧
        M.c2.x = 1 ∧ M.c2.y = 0 ∧ M.c2.z = 0) ∧
      (M.c3.x = 0 ∧ M.c3.y = 0 ∧ M.c3.z = 0) ∧
      (M.c0.w = 0 ∧ M.c1.w = 0 ∧ M.c2.w = 0 ∧ M.c3.w = 1) ∧
      ∀ (d' : Driver) (ticks' : Nat) (w' w1' : World) (s' : Context),
        PreDraw d' ticks' w' = .returned () w1' →
        w'.globals.gCamera.viewMatrix.SameBlock exampleMovedWorld.globals.gCamera.viewMatrix →
        ∃ new', w1'.gl.calls = w'.gl.calls ++ new' ∧
          valuesBound w'.globals.gSkyboxPipelineShaderProgram "view" (uploadsIn s' none new') =
            [.matrix (.mat M)] :=
  ⟨exampleMoved_returns 0, rfl,
   skybox_view_rotation_only exampleDriver 0 exampleMovedWorld _ Context.initial
     (exampleMoved_returns 0)⟩

theorem frameUniforms_eq (g : Globals) (ticks : Nat) :
    (oceanBindings g ticks ++ skyboxBindings g).map (fun b => (b.name, b.value)) =
      frameUniforms ticks g.num_of_waves g.gCamera g.gScreenWidth g.gScreenHeight := by
  simp only [oceanBindings, skyboxBindings, frameUniforms, waveConstants, List.map_cons,
    List.map_nil, List.cons_append, List.nil_append, UniformBinding.value, uniformUpload?]

/-- The values of a `PreDraw` that returns, by name. -/
theorem PreDraw_boundValues (d : Driver) (ticks : Nat) (w w1 : World) (s : Context)
    (h : PreDraw d ticks w = .returned () w1) :
    ∃ new, w1.gl.calls = w.gl.calls ++ new ∧
      boundValues (uploadsIn s none new) =
        frameUniforms ticks w.globals.num_of_waves w.globals.gCamera w.globals.gScreenWidth
          w.globals.gScreenHeight ∧
      (Context.replay s new).polygonMode = w.globals.gPolygonMode := by
  rcases PreDraw_trichotomy d ticks w with ⟨w', e, _, c⟩ | ⟨w', _, _, _, _, e, _⟩ |
    ⟨w', _, _, _, _, e, _⟩
  · rw [e] at h
    injection h with _ h
    subst h
    refine ⟨_, c, ?_, ?_⟩
    · rw [uploadsIn_preDraw_full, boundValues_append, boundValues_bindingUploads,
        boundValues_bindingUploads, ← List.map_append, frameUniforms_eq]
    · rw [Context.replay_append, Context.replay_append, Context.replay_append,
        (uploadsIn_bindingCalls d w.gl _ (skyboxBindings_isUpload w.globals) _ none).2.1,
        (uploadsIn_bindingCalls d w.gl _ (oceanBindings_isUpload w.globals ticks) _ none).2.1]
      rfl
  · rw [e] at h; cases h
  · rw [e] at h; cases h

/-- C14 (the code at any input).  In every run of `PreDraw` that returns, the
directions uploaded for the wave slots 0, 1, 2, 3 are (sin 0.32, cos 0.32),
(sin 0.75, cos 0.25), (sin 1.0, cos 1.0), (sin 0.5, cos 0.5): in slot 1 the
argument of the sine, 0.75, is not the argument of the cosine, 0.25, while the
other three slots use one constant for both. -/
theorem wave_direction_arguments (d : Driver) (ticks : Nat) (w w1 : World) (s : Context)
    (h : PreDraw d ticks w = .returned () w1) :
    ∃ new, w1.gl.calls = w.gl.calls ++ new ∧
      ["gerstner_waves[0].direction", "gerstner_waves[1].direction",
       "gerstner_waves[2].direction", "gerstner_waves[3].direction"].map
        (fun name => ((boundValues (uploadsIn s none new)).lookup name).bind directionArguments) =
        [some (0.32, 0.32), some (0.75, 0.25), some (1.0, 1.0), some (0.5, 0.5)] ∧
      ((boundValues (uploadsIn s none new)).lookup "gerstner_waves[1].direction").bind
        directionArguments ≠ some (0.75, 0.75) ∧
      ((boundValues (uploadsIn s none new)).lookup "gerstner_waves[1].direction").bind
        directionArguments ≠ some (0.25, 0.25) := by
  obtain ⟨new, c, v, _⟩ := PreDraw_boundValues d ticks w w1 s h
  refine ⟨new, c, ?_⟩
  rw [v]
  have e : ["gerstner_waves[0].direction", "gerstner_waves[1].direction",
       "gerstner_waves[2].direction", "gerstner_waves[3].direction"].map
        (fun name => ((frameUniforms ticks w.globals.num_of_waves w.globals.gCamera
          w.globals.gScreenWidth w.globals.gScreenHeight).lookup name).bind directionArguments) =
        [some (0.32, 0.32), some (0.75, 0.25), some (1.0, 1.0), some (0.5, 0.5)] := by
    simp [frameUniforms, waveConstants, List.lookup, directionArguments]
  refine ⟨e, ?_, ?_⟩
  · have e1 := congrArg (fun l => l.getD 1 none) e
    simp only [List.map_cons, List.getD_cons_succ, List.getD_cons_zero] at e1
    rw [e1]
    norm_num
  · have e1 := congrArg (fun l => l.getD 1 none) e
    simp only [List.map_cons, List.getD_cons_succ, List.getD_cons_zero] at e1
    rw [e1]
    norm_num

/-- Witness for C14: the example frame. -/
theorem wave_direction_arguments_witness :
    PreDraw exampleDriver 0 exampleFrameWorld =
      .returned () (PreDraw exampleDriver 0 exampleFrameWorld).world ∧
    ∃ new, (PreDraw exampleDriver 0 exampleFrameWorld).world.gl.calls =
        exampleFrameWorld.gl.calls ++ new ∧
      ["gerstner_waves[0].direction", "gerstner_waves[1].direction",
       "gerstner_waves[2].direction", "gerstner_waves[3].direction"].map
        (fun name => ((boundValues (uploadsIn Context.initial none new)).lookup name).bind
          directionArguments) =
        [some (0.32, 0.32), some (0.75, 0.25), some (1.0, 1.0), some (0.5, 0.5)] ∧
      ((boundValues (uploadsIn Context.initial none new)).lookup
        "gerstner_waves[1].direction").bind directionArguments ≠ some (0.75, 0.75) ∧
      ((boundValues (uploadsIn Context.initial none new)).lookup
        "gerstner_waves[1].direction").bind directionArguments ≠ some (0.25, 0.25) :=
  ⟨exampleFrame_returns 0,
   wave_direction_arguments exampleDriver 0 exampleFrameWorld _ Context.initial
     (exampleFrame_returns 0)⟩

/-- C15. Uniform determinism and non-interference.  A run of `PreDraw` that
returns uploads 30 values, and they are `frameUniforms` of the elapsed time,
`num_of_waves`, the camera and the screen dimensions: a function of these
only.  Hence a second run (any driver, any context, any polygon mode) that
agrees on these uploads identical values for all 30 uniforms, while the
polygon mode selected in the context is the one of each run.  The 20 values
of the wave slots (entries 7 to 26) are the constants `waveConstants` in
every run, for the names `gerstner_waves[i].{direction, amplitude, steepness,
frequency, speed}` of all four slots i = 0..3, whatever `num_of_waves` is. -/
theorem uniform_determinism (d : Driver) (ticks : Nat) (w w1 : World) (s : Context)
    (h : PreDraw d ticks w = .returned () w1) :
    ∃ new, w1.gl.calls = w.gl.calls ++ new ∧
      (boundValues (uploadsIn s none new)).length = 30 ∧
      boundValues (uploadsIn s none new) =
        frameUniforms ticks w.globals.num_of_waves w.globals.gCamera w.globals.gScreenWidth
          w.globals.gScreenHeight ∧
      (Context.replay s new).polygonMode = w.globals.gPolygonMode ∧
      (∀ (d' : Driver) (w' w1' : World) (s' : Context),
        PreDraw d' ticks w' = .returned () w1' →
        w'.globals.num_of_waves = w.globals.num_of_waves →
        w'.globals.gCamera = w.globals.gCamera →
        w'.globals.gScreenWidth = w.globals.gScreenWidth →
        w'.globals.gScreenHeight = w.globals.gScreenHeight →
        ∃ new', w1'.gl.calls = w'.gl.calls ++ new' ∧
          boundValues (uploadsIn s' none new') = boundValues (uploadsIn s none new) ∧
          (Context.replay s' new').polygonMode = w'.globals.gPolygonMode) ∧
      ((boundValues (uploadsIn s none new)).drop 7).take 20 = waveConstants ∧
      waveConstants.map (fun e => e.1) =
        waveUniforms "0" ++ waveUniforms "1" ++ waveUniforms "2" ++ waveUniforms "3" := by
  obtain ⟨new, c, v, p⟩ := PreDraw_boundValues d ticks w w1 s h
  refine ⟨new, c, ?_, v, p, ?_, ?_, ?_⟩
  · rw [v]; rfl
  · intro d' w' w1' s' h' e1 e2 e3 e4
    obtain ⟨new', c', v', p'⟩ := PreDraw_boundValues d' ticks w' w1' s' h'
    exact ⟨new', c', by rw [v', v, e1, e2, e3, e4], p'⟩
  · rw [v]; rfl
  · decide

/-- Witness for C15: the example frame with two active waves, in fill mode and
in wireframe mode: the same 30 values, and the slots 2 and 3 are uploaded. -/
theorem uniform_determinism_witness :
    (PreDraw exampleDriver 7 exampleTwoWaveWorld =
        .returned () (PreDraw exampleDriver 7 exampleTwoWaveWorld).world ∧
      PreDraw exampleDriver 7 exampleWireframeWorld =
        .returned () (PreDraw exampleDriver 7 exampleWireframeWorld).world ∧
      exampleWireframeWorld.globals.gPolygonMode ≠ exampleTwoWaveWorld.globals.gPolygonMode) ∧
    ∃ new, (PreDraw exampleDriver 7 exampleTwoWaveWorld).world.gl.calls =
        exampleTwoWaveWorld.gl.calls ++ new ∧
      (boundValues (uploadsIn Context.initial none new)).length = 30 ∧
      ((boundValues (uploadsIn Context.initial none new)).drop 7).take 20 = waveConstants ∧
      ∃ new', (PreDraw exampleDriver 7 exampleWireframeWorld).world.gl.calls =
          exampleWireframeWorld.gl.calls ++ new' ∧
        boundValues (uploadsIn Context.initial none new') =
          boundValues (uploadsIn Context.initial none new) ∧
        (Context.replay Context.initial new').polygonMode = GL_LINE ∧
        (Context.replay Context.initial new).polygonMode = GL_FILL := by
  refine ⟨⟨exampleTwoWave_returns 7, exampleWireframe_returns 7, by decide⟩, ?_⟩
  obtain ⟨new, c, l, _, p, two, wv, _⟩ :=
    uniform_determinism exampleDriver 7 exampleTwoWaveWorld _ Context.initial
      (exampleTwoWave_returns 7)
  obtain ⟨new', c', v', p'⟩ := two exampleDriver exampleWireframeWorld _ Context.initial
    (exampleWireframe_returns 7) rfl rfl rfl rfl
  exact ⟨new, c, l, wv, new', c', v', p', p⟩

/-- The event loop of `Input` returns; it issues no GL command and leaves
`num_of_waves` and the polygon mode as they are. -/
theorem InputEvents_eval (cam : CameraClass) (events : List SDLEvent) (statics : InputStatics)
    (w : World) :
    ∃ st w', InputEvents cam events statics w = .returned st w' ∧ w'.gl = w.gl ∧
      w'.globals.num_of_waves = w.globals.num_of_waves ∧
      w'.globals.gPolygonMode = w.globals.gPolygonMode := by
  induction events generalizing statics w with
  | nil => exact ⟨statics, w, rfl, rfl, rfl, rfl⟩
  | cons e rest ih =>
    cases e with
    | quit =>
      obtain ⟨st, w', h, h1, h2, h3⟩ := ih statics
        { w with stdout := w.stdout ++ ["Goodbye! (Leaving MainApplicationLoop())\n"],
                 globals := { w.globals with gQuit := true } }
      exact ⟨st, w', h, h1, h2, h3⟩
    | keyDown sym =>
      by_cases hs : sym = SDLK_ESCAPE
      · subst hs
        obtain ⟨st, w', h, h1, h2, h3⟩ := ih statics
          { w with stdout := w.stdout ++ ["ESC: Goodbye! (Leaving MainApplicationLoop())\n"],
                   globals := { w.globals with gQuit := true } }
        exact ⟨st, w', h, h1, h2, h3⟩
      · obtain ⟨st, w', h, h1, h2, h3⟩ := ih statics w
        refine ⟨st, w', ?_, h1, h2, h3⟩
        rw [← h]
        have hne : ¬ (SDLEvent.keyDown sym = SDLEvent.keyDown SDLK_ESCAPE) := by
          intro hc; injection hc with hc; exact hs hc
        simp [InputEvents, Prog.bind_apply, hne]
        rfl
    | mouseMotion xrel yrel =>
      let camera := cam.MouseLook w.globals.gCamera (statics.mouseX + xrel) (statics.mouseY + yrel)
      obtain ⟨st, w', h, h1, h2, h3⟩ := ih ⟨statics.mouseX + xrel, statics.mouseY + yrel⟩
        { w with globals := { w.globals with gCamera := camera } }
      exact ⟨st, w', h, h1, h2, h3⟩
    | other =>
      obtain ⟨st, w', h, h1, h2, h3⟩ := ih statics w
      exact ⟨st, w', h, h1, h2, h3⟩

theorem Prog.whenHeld_apply (b : Bool) (f : Globals → Globals) (w : World) :
    (if b = true then Prog.modify f else (pure () : Prog Unit)) w =
      .returned () { w with globals := Globals.whenHeld b f w.globals } := by
  cases b <;> rfl

theorem Prog.toggle_apply (b : Bool) (w : World) :
    (if b = true then (do
        let g ← Prog.get
        if g.gPolygonMode = GL_FILL then
          Prog.modify (fun g => { g with gPolygonMode := GL_LINE })
        else
          Prog.modify (fun g => { g with gPolygonMode := GL_FILL }))
      else (pure () : Prog Unit)) w =
      .returned () { w with globals := Globals.whenHeld b Globals.togglePolygonMode w.globals } := by
  cases b
  · rfl
  · by_cases hp : w.globals.gPolygonMode = GL_FILL
    · simp [Prog.bind_apply, Prog.get_apply, Prog.modify_apply, Globals.whenHeld,
        Globals.togglePolygonMode, hp]
    · simp [Prog.bind_apply, Prog.get_apply, Prog.modify_apply, Globals.whenHeld,
        Globals.togglePolygonMode, hp]

/-- The function `Input` returns: the event loop, then the keyboard part. -/
theorem Input_eval (cam : CameraClass) (events : List SDLEvent) (state : Nat → Bool)
    (statics : Option InputStatics) (w : World) :
    ∃ (st : InputStatics) (w1 : World), Input cam events state statics w =
        .returned st { w1 with globals := afterKeys cam state w1.globals } ∧
      w1.gl = w.gl ∧ w1.globals.num_of_waves = w.globals.num_of_waves ∧
      w1.globals.gPolygonMode = w.globals.gPolygonMode := by
  obtain ⟨st, w1, h, h1, h2, h3⟩ := InputEvents_eval cam events
    (statics.getD ⟨Int.tdiv w.globals.gScreenWidth 2, Int.tdiv w.globals.gScreenHeight 2⟩) w
  refine ⟨st, w1, ?_, h1, h2, h3⟩
  have c1 : (fun g : Globals => { g with gCamera := cam.MoveForward g.gCamera 0.1 }) =
    Globals.moveCamera cam.MoveForward := rfl
  have c2 : (fun g : Globals => { g with gCamera := cam.MoveBackward g.gCamera 0.1 }) =
    Globals.moveCamera cam.MoveBackward := rfl
  have c3 : (fun g : Globals => { g with gCamera := cam.MoveLeft g.gCamera 0.1 }) =
    Globals.moveCamera cam.MoveLeft := rfl
  have c4 : (fun g : Globals => { g with gCamera := cam.MoveRight g.gCamera 0.1 }) =
    Globals.moveCamera cam.MoveRight := rfl
  have n1 : (fun g : Globals => { g with num_of_waves := 1 }) = Globals.setWaves 1 := rfl
  have n2 : (fun g : Globals => { g with num_of_waves := 2 }) = Globals.setWaves 2 := rfl
  have n3 : (fun g : Globals => { g with num_of_waves := 3 }) = Globals.setWaves 3 := rfl
  have n4 : (fun g : Globals => { g with num_of_waves := 4 }) = Globals.setWaves 4 := rfl
  simp only [Input, Prog.bind_apply, Prog.get_apply, h, c1, c2, c3, c4, n1, n2, n3, n4,
    Prog.whenHeld_apply, Prog.toggle_apply, Prog.pure_apply, afterKeys]

theorem Globals.whenHeld_moveCamera (b : Bool) (move : Camera → CFloat → Camera) (g : Globals) :
    (Globals.whenHeld b (Globals.moveCamera move) g).num_of_waves = g.num_of_waves ∧
    (Globals.whenHeld b (Globals.moveCamera move) g).gPolygonMode = g.gPolygonMode := by
  cases b <;> exact ⟨rfl, rfl⟩

theorem Globals.whenHeld_setWaves (b : Bool) (n : Int) (g : Globals) :
    (Globals.whenHeld b (Globals.setWaves n) g).num_of_waves = (if b = true then n else g.num_of_waves) ∧
    (Globals.whenHeld b (Globals.setWaves n) g).gPolygonMode = g.gPolygonMode := by
  cases b <;> exact ⟨rfl, rfl⟩

theorem Globals.whenHeld_toggle (b : Bool) (g : Globals) :
    (Globals.whenHeld b Globals.togglePolygonMode g).num_of_waves = g.num_of_waves ∧
    (Globals.whenHeld b Globals.togglePolygonMode g).gPolygonMode =
      (if b = true then (if g.gPolygonMode = GL_FILL then GL_LINE else GL_FILL)
       else g.gPolygonMode) := by
  cases b
  · exact ⟨rfl, rfl⟩
  · by_cases hp : g.gPolygonMode = GL_FILL <;>
      simp [Globals.whenHeld, Globals.togglePolygonMode, hp]

/-- The wave count and the polygon mode after the keyboard part of `Input`. -/
theorem afterKeys_frameState (cam : CameraClass) (state : Nat → Bool) (g : Globals) :
    (afterKeys cam state g).num_of_waves =
      (if state SDL_SCANCODE_4 = true then 4 else if state SDL_SCANCODE_3 = true then 3
       else if state SDL_SCANCODE_2 = true then 2 else if state SDL_SCANCODE_1 = true then 1
       else g.num_of_waves) ∧
    (afterKeys cam state g).gPolygonMode =
      (if state SDL_SCANCODE_TAB = true then (if g.gPolygonMode = GL_FILL then GL_LINE else GL_FILL)
       else g.gPolygonMode) := by
  simp only [afterKeys, Globals.whenHeld_moveCamera, Globals.whenHeld_setWaves,
    Globals.whenHeld_toggle, and_self]

/-- One `Input` call: it returns, issues no GL command, and sets the wave count
and the polygon mode from the keyboard state. -/
theorem Input_frameState (cam : CameraClass) (events : List SDLEvent) (state : Nat → Bool)
    (statics : Option InputStatics) (w : World) :
    ∃ (st : InputStatics) (w' : World), Input cam events state statics w = .returned st w' ∧
      w'.gl = w.gl ∧
      w'.globals.num_of_waves =
        (if state SDL_SCANCODE_4 = true then 4 else if state SDL_SCANCODE_3 = true then 3
         else if state SDL_SCANCODE_2 = true then 2 else if state SDL_SCANCODE_1 = true then 1
         else w.globals.num_of_waves) ∧
      w'.globals.gPolygonMode =
        (if state SDL_SCANCODE_TAB = true then
          (if w.globals.gPolygonMode = GL_FILL then GL_LINE else GL_FILL)
         else w.globals.gPolygonMode) := by
  obtain ⟨st, w1, e, h1, h2, h3⟩ := Input_eval cam events state statics w
  obtain ⟨a1, a2⟩ := afterKeys_frameState cam state w1.globals
  refine ⟨st, _, e, h1, ?_, ?_⟩
  · show (afterKeys cam state w1.globals).num_of_waves = _
    rw [a1, h2]
  · show (afterKeys cam state w1.globals).gPolygonMode = _
    rw [a2, h3]

theorem Input_keeps_frameStateOk (cam : CameraClass) (events : List SDLEvent)
    (state : Nat → Bool) (statics : Option InputStatics) (w : World)
    (h : FrameStateOk w.globals) :
    ∃ (st : InputStatics) (w' : World), Input cam events state statics w = .returned st w' ∧
      FrameStateOk w'.globals := by
  obtain ⟨st, w', e, _, n, p⟩ := Input_frameState cam events state statics w
  refine ⟨st, w', e, ?_, ?_⟩
  · rw [n]
    split_ifs
    · exact Or.inr (Or.inr (Or.inr rfl))
    · exact Or.inr (Or.inr (Or.inl rfl))
    · exact Or.inr (Or.inl rfl)
    · exact Or.inl rfl
    · exact h.1
  · rw [p]
    split_ifs
    · exact Or.inr rfl
    · exact Or.inl rfl
    · exact h.2

theorem InputSteps_keeps_frameStateOk (cam : CameraClass)
    (steps : List (List SDLEvent × (Nat → Bool))) (statics : Option InputStatics) (w : World)
    (h : FrameStateOk w.globals) :
    ∃ w', InputSteps cam steps statics w = .returned () w' ∧ FrameStateOk w'.globals := by
  induction steps generalizing statics w with
  | nil => exact ⟨w, rfl, h⟩
  | cons step rest ih =>
    obtain ⟨st, w1, e, h1⟩ := Input_keeps_frameStateOk cam step.1 step.2 statics w h
    obtain ⟨w2, e2, h2⟩ := ih (some st) w1 h1
    refine ⟨w2, ?_, h2⟩
    simp only [InputSteps, Prog.bind_apply, e, e2]

theorem Context.step_depthFunc (s : Context) (c : GLCall) (h : depthFunc? c = none) :
    (s.step c).depthFunc = s.depthFunc := by
  cases c <;> first
    | (simp [depthFunc?] at h; done)
    | (simp only [Context.step] <;> (try split) <;> rfl)

theorem quiet_replay (s : Context) (l : List GLCall)
    (h : ∀ c ∈ l, drawCount? c = none ∧ depthFunc? c = none) :
    drawsIn s l = [] ∧ (s.replay l).depthFunc = s.depthFunc := by
  induction l generalizing s with
  | nil => exact ⟨rfl, rfl⟩
  | cons c rest ih =>
    obtain ⟨h1, h2⟩ := h c (List.mem_cons_self _ _)
    obtain ⟨i1, i2⟩ := ih (s.step c) (fun x hx => h x (List.mem_cons_of_mem _ hx))
    refine ⟨?_, ?_⟩
    · simp only [drawsIn, h1, i1, List.append_nil]
    · rw [Context.replay_cons, i2, s.step_depthFunc c h2]

theorem upload_quiet (c : GLCall) (lv : GLint × UniformValue) (h : uniformUpload? c = some lv) :
    drawCount? c = none ∧ depthFunc? c = none := by
  cases c <;> first
    | (simp [uniformUpload?] at h; done)
    | exact ⟨rfl, rfl⟩

theorem bindingCalls_quiet (d : Driver) (st : GLState) (bs : List UniformBinding)
    (hbs : ∀ b ∈ bs, b.IsUpload) :
    ∀ c ∈ bindingCalls d st bs, drawCount? c = none ∧ depthFunc? c = none := by
  induction bs with
  | nil => intro c hc; simp [bindingCalls] at hc
  | cons b rest ih =>
    intro c hc
    simp only [bindingCalls, List.mem_cons] at hc
    rcases hc with rfl | rfl | hc
    · exact ⟨rfl, rfl⟩
    · exact upload_quiet _ _ (hbs b (List.mem_cons_self _ _) _)
    · exact ih (fun x hx => hbs x (List.mem_cons_of_mem _ hx)) c hc

theorem preDrawPrelude_quiet (g : Globals) :
    ∀ c ∈ preDrawPrelude g, drawCount? c = none ∧ depthFunc? c = none := by
  intro c hc
  simp only [preDrawPrelude, List.mem_cons, List.mem_singleton, List.not_mem_nil, or_false] at hc
  rcases hc with rfl | rfl | rfl | rfl | rfl | rfl | rfl <;> exact ⟨rfl, rfl⟩

/-- However `PreDraw` ends, it issues no draw command and no `glDepthFunc`. -/
theorem PreDraw_quiet (d : Driver) (ticks : Nat) (w : World) :
    ∃ new, (PreDraw d ticks w).world.gl.calls = w.gl.calls ++ new ∧
      ∀ c ∈ new, drawCount? c = none ∧ depthFunc? c = none := by
  have hO := bindingCalls_quiet d w.gl _ (oceanBindings_isUpload w.globals ticks)
  have hS := bindingCalls_quiet d w.gl _ (skyboxBindings_isUpload w.globals)
  have hP := preDrawPrelude_quiet w.globals
  rcases PreDraw_trichotomy d ticks w with ⟨w', e, _, c⟩ | ⟨w', pre, b, post, hs, e, _, c⟩ |
    ⟨w', pre, b, post, hs, e, _, c⟩
  · rw [e]
    refine ⟨_, c, ?_⟩
    intro x hx
    simp only [List.mem_append, List.mem_singleton] at hx
    rcases hx with ((hx | hx) | rfl) | hx
    · exact hP x hx
    · exact hO x hx
    · exact ⟨rfl, rfl⟩
    · exact hS x hx
  · rw [e]
    refine ⟨_, c, ?_⟩
    have hpre := bindingCalls_quiet d w.gl pre (fun x hx =>
      oceanBindings_isUpload w.globals ticks x (by rw [hs]; exact List.mem_append_left _ hx))
    intro x hx
    simp only [List.mem_append, List.mem_singleton] at hx
    rcases hx with (hx | hx) | rfl
    · exact hP x hx
    · exact hpre x hx
    · exact ⟨rfl, rfl⟩
  · rw [e]
    refine ⟨_, c, ?_⟩
    have hpre := bindingCalls_quiet d w.gl pre (fun x hx =>
      skyboxBindings_isUpload w.globals x (by rw [hs]; exact List.mem_append_left _ hx))
    intro x hx
    simp only [List.mem_append, List.mem_singleton] at hx
    rcases hx with ((((hx | hx) | rfl) | hx) | rfl)
    · exact hP x hx
    · exact hO x hx
    · exact ⟨rfl, rfl⟩
    · exact hpre x hx
    · exact ⟨rfl, rfl⟩

/-- The draws of `Draw` and the depth comparison of each. -/
theorem drawCalls_depth (g : Globals) (s : Context) :
    drawsWithDepth s (drawCalls g) = [(GL_PATCHES, s.depthFunc), (GL_TRIANGLES, GL_LEQUAL)] ∧
    (s.replay (drawCalls g)).depthFunc = GL_LESS ∧ (s.replay (drawCalls g)).program = 0 ∧
    depthTrace (drawCalls g) =
      [.glDrawArrays GL_PATCHES 0 g.gFloorTriangles, .glDepthFunc GL_LEQUAL,
       .glDrawArrays GL_TRIANGLES 0 36, .glDepthFunc GL_LESS] := by
  refine ⟨?_, rfl, rfl, ?_⟩
  · simp [drawsWithDepth, drawCalls, drawsIn, drawCount?, Context.step]
  · simp [depthTrace, drawCalls, drawCount?, depthFunc?]

theorem drawsWithDepth_append (s : Context) (a b : List GLCall) :
    drawsWithDepth s (a ++ b) = drawsWithDepth s a ++ drawsWithDepth (s.replay a) b := by
  simp only [drawsWithDepth, drawsIn_append, List.filterMap_append]

/-- The draws of the main loop, for any number of given iterations: every
iteration that reaches `Draw` draws the ocean under `GL_LESS` and the skybox
under `GL_LEQUAL`, and leaves `GL_LESS` selected. -/
theorem MainLoopFrom_depth (d : Driver) (cam : CameraClass) (frames : List FrameInput) :
    ∀ (statics : Option InputStatics) (w : World) (s : Context), s.depthFunc = GL_LESS →
      ∃ new k, (MainLoopFrom d cam frames statics w).world.gl.calls = w.gl.calls ++ new ∧
        k ≤ frames.length ∧ drawsWithDepth s new = frameDraws k ∧
        (s.replay new).depthFunc = GL_LESS := by
  induction frames with
  | nil =>
    intro statics w s hs
    exact ⟨[], 0, by simp [MainLoopFrom, Prog.bind_apply, Prog.get_apply, Prog.pure_apply,
      Outcome.world], le_refl _, rfl, hs⟩
  | cons frame rest ih =>
    intro statics w s hs
    by_cases hq : w.globals.gQuit = true
    · exact ⟨[], 0, by simp [MainLoopFrom, Prog.bind_apply, Prog.get_apply, Prog.pure_apply,
        Outcome.world, hq], Nat.zero_le _, rfl, hs⟩
    · have hq' : w.globals.gQuit = false := by simpa using hq
      obtain ⟨st, w0, e, hgl, _, _⟩ := Input_eval cam frame.events frame.state statics w
      obtain ⟨new1, c1, q1⟩ := PreDraw_quiet d frame.ticks
        { w0 with globals := afterKeys cam frame.state w0.globals }
      obtain ⟨r1, r2⟩ := quiet_replay s new1 q1
      have c1' : (PreDraw d frame.ticks
          { w0 with globals := afterKeys cam frame.state w0.globals }).world.gl.calls =
          w.gl.calls ++ new1 := by rw [c1]; show w0.gl.calls ++ new1 = _; rw [hgl]
      cases hpd : PreDraw d frame.ticks { w0 with globals := afterKeys cam frame.state w0.globals } with
      | returned a w2 =>
        rw [hpd] at c1'
        have c2 : w2.gl.calls = w.gl.calls ++ new1 := c1'
        obtain ⟨dd1, dd2, _, _⟩ := drawCalls_depth w2.globals (s.replay new1)
        obtain ⟨new3, k, c3, hk, d3, f3⟩ := ih (some st)
          { w2 with gl := { w2.gl with calls := w2.gl.calls ++ drawCalls w2.globals } }
          ((s.replay new1).replay (drawCalls w2.globals)) dd2
        refine ⟨new1 ++ drawCalls w2.globals ++ new3, k + 1, ?_, Nat.succ_le_succ hk, ?_, ?_⟩
        · simp only [MainLoopFrom, Prog.bind_apply, Prog.get_apply, hq', Bool.false_eq_true,
            if_false, e, hpd, Draw_eval]
          rw [c3]
          show (w2.gl.calls ++ drawCalls w2.globals) ++ new3 = _
          rw [c2]
          simp only [List.append_assoc]
        · rw [drawsWithDepth_append, drawsWithDepth_append, Context.replay_append, d3, dd1, r2, hs]
          simp only [drawsWithDepth, r1, List.filterMap_nil, List.nil_append, frameDraws]
        · rw [Context.replay_append, Context.replay_append, f3]
      | exited code w2 =>
        rw [hpd] at c1'
        refine ⟨new1, 0, ?_, Nat.zero_le _, ?_, ?_⟩
        · simp only [MainLoopFrom, Prog.bind_apply, Prog.get_apply, hq', Bool.false_eq_true,
            if_false, e, hpd]
          exact c1'
        · simp only [drawsWithDepth, r1, List.filterMap_nil, frameDraws]
        · rw [r2, hs]
      | undefined w2 =>
        rw [hpd] at c1'
        refine ⟨new1, 0, ?_, Nat.zero_le _, ?_, ?_⟩
        · simp only [MainLoopFrom, Prog.bind_apply, Prog.get_apply, hq', Bool.false_eq_true,
            if_false, e, hpd]
          exact c1'
        · simp only [drawsWithDepth, r1, List.filterMap_nil, frameDraws]
        · rw [r2, hs]

/-- C16. Draw ordering and depth comparison.  Every call of `Draw` returns; its
draw and `glDepthFunc` commands are, in this order: the ocean patch draw,
`glDepthFunc(GL_LEQUAL)`, the skybox draw, `glDepthFunc(GL_LESS)`.  So the
ocean draw is issued under the comparison selected at entry, the skybox draw
under `GL_LEQUAL`, and on return `GL_LESS` is selected and no program is
(program 0).  In the main loop, for any inputs and any number of iterations,
starting from a context in which `GL_LESS` is selected: the draws are, frame
after frame, an ocean draw under `GL_LESS` followed by a skybox draw under
`GL_LEQUAL`, and `GL_LESS` is selected afterwards (also when `PreDraw` ends the
process). -/
theorem draw_order_depth (d : Driver) (cam : CameraClass) :
    (∀ (w : World) (s : Context), ∃ w' new, Draw w = .returned () w' ∧
      w'.gl.calls = w.gl.calls ++ new ∧
      depthTrace new =
        [.glDrawArrays GL_PATCHES 0 w.globals.gFloorTriangles, .glDepthFunc GL_LEQUAL,
         .glDrawArrays GL_TRIANGLES 0 36, .glDepthFunc GL_LESS] ∧
      drawsWithDepth s new = [(GL_PATCHES, s.depthFunc), (GL_TRIANGLES, GL_LEQUAL)] ∧
      (s.replay new).depthFunc = GL_LESS ∧ (s.replay new).program = 0) ∧
    (∀ (frames : List FrameInput) (w : World) (s : Context), s.depthFunc = GL_LESS →
      ∃ new k, (MainLoop d cam frames w).world.gl.calls = w.gl.calls ++ new ∧
        k ≤ frames.length ∧ drawsWithDepth s new = frameDraws k ∧
        (∀ e ∈ drawsWithDepth s new,
          (e.1 = GL_PATCHES → e.2 = GL_LESS) ∧ (e.1 = GL_TRIANGLES → e.2 = GL_LEQUAL)) ∧
        (s.replay new).depthFunc = GL_LESS) := by
  constructor
  · intro w s
    obtain ⟨h1, h2, h3, h4⟩ := drawCalls_depth w.globals s
    exact ⟨_, _, Draw_eval w, rfl, h4, h1, h2, h3⟩
  · intro frames w s hs
    obtain ⟨new, k, c, hk, hd, hf⟩ := MainLoopFrom_depth d cam frames none w s hs
    refine ⟨new, k, c, hk, hd, ?_, hf⟩
    rw [hd]
    clear hd hk c
    induction k with
    | zero => intro e he; simp [frameDraws] at he
    | succ n ih =>
      intro e he
      simp only [frameDraws, List.cons_append, List.nil_append, List.mem_cons] at he
      rcases he with rfl | rfl | he
      · exact ⟨fun _ => rfl, fun h => absurd h (by decide)⟩
      · exact ⟨fun h => absurd h (by decide), fun _ => rfl⟩
      · exact ih e he

/-- Witness for C16: two iterations of the main loop from the example frame
world, in a new context. -/
theorem draw_order_depth_witness :
    Context.initial.depthFunc = GL_LESS ∧
    ∃ new k, (MainLoop exampleDriver exampleCameraClass exampleFrames exampleFrameWorld).world.gl.calls
        = exampleFrameWorld.gl.calls ++ new ∧
      k ≤ exampleFrames.length ∧ drawsWithDepth Context.initial new = frameDraws k ∧
      (∀ e ∈ drawsWithDepth Context.initial new,
        (e.1 = GL_PATCHES → e.2 = GL_LESS) ∧ (e.1 = GL_TRIANGLES → e.2 = GL_LEQUAL)) ∧
      (Context.initial.replay new).depthFunc = GL_LESS :=
  ⟨rfl, (draw_order_depth exampleDriver exampleCameraClass).2 exampleFrames exampleFrameWorld
    Context.initial rfl⟩

theorem stageDiagnostics_all_compile (d : Driver) (stages : List (GLenum × String))
    (h : ∀ st ∈ stages, d.compiles st.1 st.2 = true) : stageDiagnostics d stages = [] := by
  induction stages with
  | nil => rfl
  | cons st rest ih =>
    obtain ⟨kind, source⟩ := st
    have h1 : d.compiles kind source = true := h (kind, source) (List.mem_cons_self _ _)
    simp only [stageDiagnostics, h1, if_true]
    exact ih (fun x hx => h x (List.mem_cons_of_mem _ hx))

/-- What a build prints and what it leaves of link and validation. -/
theorem afterBuild_diagnostics (d : Driver) (stages : List (GLenum × String)) (w : World)
    (hwf : w.gl.WellFormed) :
    w.gl.nextName ≠ 0 ∧
    (afterBuild d stages w).stdout = w.stdout ++ stageDiagnostics d stages ∧
    (∃ rest, (afterBuild d stages w).gl.calls =
      w.gl.calls ++ GLCall.glCreateProgram w.gl.nextName :: rest) ∧
    (programNamed (afterBuild d stages w).gl.programs w.gl.nextName).map
      (fun q => (q.linkStatus, q.validateStatus)) =
      some (d.links (compiledStages d stages),
        d.links (compiledStages d stages) &&
          d.validates (if d.links (compiledStages d stages) then compiledStages d stages else [])) ∧
    ((∀ st ∈ stages, d.compiles st.1 st.2 = true) → (afterBuild d stages w).stdout = w.stdout) := by
  refine ⟨?_, rfl, ⟨_, rfl⟩, ?_, ?_⟩
  · exact Nat.pos_iff_ne_zero.mp hwf.1
  · rw [programNamed_afterBuild d stages w hwf]
    rfl
  · intro h
    show w.stdout ++ stageDiagnostics d stages = w.stdout
    rw [stageDiagnostics_all_compile d stages h, List.append_nil]

set_option maxRecDepth 100000 in
/-- Counterexample to C17: with a driver that links no program, all four stages
compile and the link of the program fails (so does its validation), yet
`CreateShaderProgramWithTessellation` prints nothing; the same holds for
`CreateShaderProgram`, and for a driver that links but does not validate. -/
theorem link_failure_counterexample :
    (∃ p w', CreateShaderProgramWithTessellation exampleDriverNoLink "v" "f" "c" "e"
        (World.initial exampleCamera) = .returned p w' ∧
      (programNamed w'.gl.programs p).map (fun q => (q.linkStatus, q.validateStatus)) =
        some (false, false) ∧
      w'.stdout = (World.initial exampleCamera).stdout) ∧
    (∃ p w', CreateShaderProgram exampleDriverNoLink "v" "f"
        (World.initial exampleCamera) = .returned p w' ∧
      (programNamed w'.gl.programs p).map (fun q => (q.linkStatus, q.validateStatus)) =
        some (false, false) ∧
      w'.stdout = (World.initial exampleCamera).stdout) ∧
    (∃ p w', CreateShaderProgramWithTessellation exampleDriverNoValidate "v" "f" "c" "e"
        (World.initial exampleCamera) = .returned p w' ∧
      (programNamed w'.gl.programs p).map (fun q => (q.linkStatus, q.validateStatus)) =
        some (true, false) ∧
      w'.stdout = (World.initial exampleCamera).stdout) := by
  refine ⟨⟨_, _, CreateShaderProgramWithTessellation_eval exampleDriverNoLink "v" "f" "c" "e"
      (World.initial exampleCamera) (by decide) (by decide), by decide, by decide⟩,
    ⟨_, _, CreateShaderProgram_eval exampleDriverNoLink "v" "f"
      (World.initial exampleCamera) (by decide) (by decide), by decide, by decide⟩,
    ⟨_, _, CreateShaderProgramWithTessellation_eval exampleDriverNoValidate "v" "f" "c" "e"
      (World.initial exampleCamera) (by decide) (by decide), by decide, by decide⟩⟩

/-- C17 (amended).  `CreateShaderProgramWithTessellation` and
`CreateShaderProgram` return whenever the driver leaves an info log for each
stage it does not compile (in particular whenever all stages compile), with
the (non-zero) handle of the program object they created with their first
command.  What they print is exactly the compile diagnostics of the stages
that failed to compile: nothing is printed about the link or the validation
of the program, whose status is left in the program object (link status as the
driver decides for the stages that compiled, validation status only for a
linked program) and never queried.  When all stages compile nothing at all is
printed, whatever the link and validation result.  (The builders do not
return only when a stage fails to compile with an empty info log:
`CompileShader` then reads the diagnostic buffer it never wrote.) -/
theorem link_failure_not_logged (d : Driver) (vs fs tcs tes : String) (w : World)
    (hwf : w.gl.WellFormed) :
    ((∀ st ∈ tessellationStages vs fs tcs tes, DiagnosesFailure d st) →
      ∃ w', CreateShaderProgramWithTessellation d vs fs tcs tes w = .returned w.gl.nextName w' ∧
        w.gl.nextName ≠ 0 ∧
        w'.stdout = w.stdout ++ stageDiagnostics d (tessellationStages vs fs tcs tes) ∧
        (∃ rest, w'.gl.calls = w.gl.calls ++ GLCall.glCreateProgram w.gl.nextName :: rest) ∧
        (programNamed w'.gl.programs w.gl.nextName).map
          (fun q => (q.linkStatus, q.validateStatus)) =
          some (d.links (compiledStages d (tessellationStages vs fs tcs tes)),
            d.links (compiledStages d (tessellationStages vs fs tcs tes)) &&
              d.validates (if d.links (compiledStages d (tessellationStages vs fs tcs tes))
                then compiledStages d (tessellationStages vs fs tcs tes) else [])) ∧
        ((∀ st ∈ tessellationStages vs fs tcs tes, d.compiles st.1 st.2 = true) →
          w'.stdout = w.stdout)) ∧
    ((∀ st ∈ simpleStages vs fs, DiagnosesFailure d st) →
      ∃ w', CreateShaderProgram d vs fs w = .returned w.gl.nextName w' ∧
        w.gl.nextName ≠ 0 ∧
        w'.stdout = w.stdout ++ stageDiagnostics d (simpleStages vs fs) ∧
        (∃ rest, w'.gl.calls = w.gl.calls ++ GLCall.glCreateProgram w.gl.nextName :: rest) ∧
        (programNamed w'.gl.programs w.gl.nextName).map
          (fun q => (q.linkStatus, q.validateStatus)) =
          some (d.links (compiledStages d (simpleStages vs fs)),
            d.links (compiledStages d (simpleStages vs fs)) &&
              d.validates (if d.links (compiledStages d (simpleStages vs fs))
                then compiledStages d (simpleStages vs fs) else [])) ∧
        ((∀ st ∈ simpleStages vs fs, d.compiles st.1 st.2 = true) → w'.stdout = w.stdout)) ∧
    ((¬ ∀ st ∈ tessellationStages vs fs tcs tes, DiagnosesFailure d st) →
      ∃ w', CreateShaderProgramWithTessellation d vs fs tcs tes w = .undefined w') ∧
    ((¬ ∀ st ∈ simpleStages vs fs, DiagnosesFailure d st) →
      ∃ w', CreateShaderProgram d vs fs w = .undefined w') := by
  refine ⟨?_, ?_, CreateShaderProgramWithTessellation_undefined d vs fs tcs tes w hwf,
    CreateShaderProgram_undefined d vs fs w hwf⟩
  · intro hlog
    obtain ⟨h1, h2, h3, h4, h5⟩ :=
      afterBuild_diagnostics d (tessellationStages vs fs tcs tes) w hwf
    exact ⟨_, CreateShaderProgramWithTessellation_eval d vs fs tcs tes w hwf hlog,
      h1, h2, h3, h4, h5⟩
  · intro hlog
    obtain ⟨h1, h2, h3, h4, h5⟩ := afterBuild_diagnostics d (simpleStages vs fs) w hwf
    exact ⟨_, CreateShaderProgram_eval d vs fs w hwf hlog, h1, h2, h3, h4, h5⟩

set_option maxRecDepth 100000 in
/-- Witness for C17 (amended): start-up with the driver that links no program. -/
theorem link_failure_not_logged_witness :
    (World.initial exampleCamera).gl.WellFormed ∧
    (∀ st ∈ simpleStages "v" "f", DiagnosesFailure exampleDriverNoLink st) ∧
    ∃ w', CreateShaderProgram exampleDriverNoLink "v" "f" (World.initial exampleCamera) =
        .returned (World.initial exampleCamera).gl.nextName w' ∧
      (World.initial exampleCamera).gl.nextName ≠ 0 ∧
      w'.stdout = (World.initial exampleCamera).stdout ++
        stageDiagnostics exampleDriverNoLink (simpleStages "v" "f") ∧
      (∃ rest, w'.gl.calls = (World.initial exampleCamera).gl.calls ++
        GLCall.glCreateProgram (World.initial exampleCamera).gl.nextName :: rest) ∧
      (programNamed w'.gl.programs (World.initial exampleCamera).gl.nextName).map
        (fun q => (q.linkStatus, q.validateStatus)) =
        some (exampleDriverNoLink.links (compiledStages exampleDriverNoLink (simpleStages "v" "f")),
          exampleDriverNoLink.links (compiledStages exampleDriverNoLink (simpleStages "v" "f")) &&
            exampleDriverNoLink.validates
              (if exampleDriverNoLink.links (compiledStages exampleDriverNoLink (simpleStages "v" "f"))
                then compiledStages exampleDriverNoLink (simpleStages "v" "f") else [])) ∧
      ((∀ st ∈ simpleStages "v" "f", exampleDriverNoLink.compiles st.1 st.2 = true) →
        w'.stdout = (World.initial exampleCamera).stdout) :=
  ⟨by decide, by decide, (link_failure_not_logged exampleDriverNoLink "v" "f" "" ""
    (World.initial exampleCamera) (by decide)).2.1 (by decide)⟩

theorem oceanBindings_program (g : Globals) (ticks : Nat) :
    ∀ b ∈ oceanBindings g ticks, b.program = g.gGraphicsPipelineShaderProgram := by
  simp [oceanBindings]

theorem skyboxBindings_program (g : Globals) :
    ∀ b ∈ skyboxBindings g, b.program = g.gSkyboxPipelineShaderProgram := by
  simp [skyboxBindings]

theorem bindingUploads_consistent (d : Driver) (st : GLState) (sel : GLuint)
    (bs : List UniformBinding) (h : ∀ b ∈ bs, b.program = sel) :
    ∀ u ∈ bindingUploads d st sel bs, u.Consistent := by
  intro u hu
  simp only [bindingUploads, List.mem_map] at hu
  obtain ⟨b, hb, rfl⟩ := hu
  exact ⟨b.name, by rw [h b hb]⟩

theorem bindingUploads_lookups (d : Driver) (st : GLState) (sel : GLuint)
    (bs : List UniformBinding) (h : ∀ b ∈ bs, b.program = sel) :
    (bindingUploads d st sel bs).map (fun u => (u.selected, u.lookup.map (fun r => r.2.1))) =
      bs.map (fun b => (b.program, some b.name)) := by
  simp only [bindingUploads, List.map_map]
  apply List.map_congr_left
  intro b hb
  simp [h b hb]

/-- The draws of `Draw` and the selections of each. -/
theorem drawCalls_selection (g : Globals) (s : Context) :
    drawsWithSelection s (drawCalls g) =
      [(GL_PATCHES, g.gGraphicsPipelineShaderProgram, g.gVertexArrayObjectFloor, GL_TEXTURE0,
          g.gCubeTexId),
       (GL_TRIANGLES, g.gSkyboxPipelineShaderProgram, g.gVertexArrayObjectSkybox, GL_TEXTURE0,
          g.gCubeTexId)] ∧
    uploadsIn s none (drawCalls g) = [] := by
  refine ⟨?_, rfl⟩
  simp [drawsWithSelection, drawCalls, drawsIn, drawCount?, Context.step]

/-- The uploads of `PreDraw`, however it ends, are consistent, and it draws
nothing. -/
theorem PreDraw_consistent (d : Driver) (ticks : Nat) (w : World) (s : Context) :
    ∃ new, (PreDraw d ticks w).world.gl.calls = w.gl.calls ++ new ∧
      (∀ u ∈ uploadsIn s none new, u.Consistent) ∧ drawsIn s new = [] := by
  obtain ⟨new, c, q⟩ := PreDraw_quiet d ticks w
  refine ⟨new, c, ?_, (quiet_replay s new q).1⟩
  have hO := bindingUploads_consistent d w.gl _ _ (oceanBindings_program w.globals ticks)
  have hS := bindingUploads_consistent d w.gl _ _ (skyboxBindings_program w.globals)
  rcases PreDraw_trichotomy d ticks w with ⟨w', e, _, c'⟩ | ⟨w', pre, b, post, hs, e, _, c'⟩ |
    ⟨w', pre, b, post, hs, e, _, c'⟩
  · rw [e] at c
    have hn := List.append_cancel_left (c.symm.trans c')
    subst hn
    rw [uploadsIn_preDraw_full]
    intro u hu
    rcases List.mem_append.mp hu with hu | hu
    · exact hO u hu
    · exact hS u hu
  · rw [e] at c
    have hn := List.append_cancel_left (c.symm.trans c')
    subst hn
    rw [uploadsIn_preDraw_ocean d w.gl w.globals ticks pre b post hs]
    exact bindingUploads_consistent d w.gl _ pre (fun x hx =>
      oceanBindings_program w.globals ticks x (by rw [hs]; exact List.mem_append_left _ hx))
  · rw [e] at c
    have hn := List.append_cancel_left (c.symm.trans c')
    subst hn
    rw [uploadsIn_preDraw_skybox d w.gl w.globals ticks pre b post hs]
    intro u hu
    rcases List.mem_append.mp hu with hu | hu
    · exact hO u hu
    · exact bindingUploads_consistent d w.gl _ pre (fun x hx =>
        skyboxBindings_program w.globals x (by rw [hs]; exact List.mem_append_left _ hx)) u hu

/-- C18. Active-program consistency within a frame.  However `PreDraw` ends,
every uniform upload it made is issued at the location its lookup handed
back, while the program of that lookup is the selected program, and `PreDraw`
draws nothing.  When `PreDraw` returns, its uploads are the 27 ocean uniforms
under the ocean program followed by the 3 skybox uniforms under the skybox
program, and it returns with the skybox program selected; `Draw` then returns,
uploads nothing, and issues two draws: the ocean patches with the ocean
program and the ocean vertex array selected, then the skybox triangles with
the skybox program and the skybox vertex array selected, both with texture
unit 0 active and the cubemap bound to it. -/
theorem active_program_consistency (d : Driver) (ticks : Nat) (w : World) (s : Context) :
    (∃ new, (PreDraw d ticks w).world.gl.calls = w.gl.calls ++ new ∧
      (∀ u ∈ uploadsIn s none new, u.Consistent) ∧ drawsIn s new = []) ∧
    (∀ w1, PreDraw d ticks w = .returned () w1 →
      ∃ new1, w1.gl.calls = w.gl.calls ++ new1 ∧
        (uploadsIn s none new1).map (fun u => (u.selected, u.lookup.map (fun r => r.2.1))) =
          (requiredLookups w.globals).map (fun r => (r.1, some r.2)) ∧
        (requiredLookups w.globals).map (fun r => r.1) =
          List.replicate 27 w.globals.gGraphicsPipelineShaderProgram ++
          List.replicate 3 w.globals.gSkyboxPipelineShaderProgram ∧
        (s.replay new1).program = w.globals.gSkyboxPipelineShaderProgram ∧
        ∃ w2 new2, Draw w1 = .returned () w2 ∧ w2.gl.calls = w1.gl.calls ++ new2 ∧
          uploadsIn (s.replay new1) none new2 = [] ∧
          drawsWithSelection (s.replay new1) new2 =
            [(GL_PATCHES, w.globals.gGraphicsPipelineShaderProgram,
                w.globals.gVertexArrayObjectFloor, GL_TEXTURE0, w.globals.gCubeTexId),
             (GL_TRIANGLES, w.globals.gSkyboxPipelineShaderProgram,
                w.globals.gVertexArrayObjectSkybox, GL_TEXTURE0, w.globals.gCubeTexId)]) := by
  refine ⟨PreDraw_consistent d ticks w s, ?_⟩
  intro w1 h
  rcases PreDraw_trichotomy d ticks w with ⟨w', e, g', c'⟩ | ⟨w', _, _, _, _, e, _⟩ |
    ⟨w', _, _, _, _, e, _⟩
  · rw [e] at h
    injection h with _ h
    subst h
    obtain ⟨d1, d2⟩ := drawCalls_selection w'.globals (s.replay (preDrawPrelude w.globals ++
      bindingCalls d w.gl (oceanBindings w.globals ticks) ++
      [.glUseProgram w.globals.gSkyboxPipelineShaderProgram] ++
      bindingCalls d w.gl (skyboxBindings w.globals)))
    refine ⟨_, c', ?_, ?_, ?_, _, _, Draw_eval w', rfl, d2, ?_⟩
    · rw [uploadsIn_preDraw_full, List.map_append,
        bindingUploads_lookups d w.gl _ _ (oceanBindings_program w.globals ticks),
        bindingUploads_lookups d w.gl _ _ (skyboxBindings_program w.globals),
        requiredLookups_eq w.globals ticks, ← List.map_append, List.map_map]
      rfl
    · simp [requiredLookups, requiredOceanUniforms, requiredSkyboxUniforms, waveUniforms,
        waveFields, List.replicate]
    · rw [Context.replay_append,
        (uploadsIn_bindingCalls d w.gl _ (skyboxBindings_isUpload w.globals) _ none).2.1,
        Context.replay_append]
      rfl
    · rw [d1, g']
  · rw [e] at h; cases h
  · rw [e] at h; cases h

/-- Witness for C18: the example frame, in a new context. -/
theorem active_program_consistency_witness :
    PreDraw exampleDriver 0 exampleFrameWorld =
      .returned () (PreDraw exampleDriver 0 exampleFrameWorld).world ∧
    ∃ new1, (PreDraw exampleDriver 0 exampleFrameWorld).world.gl.calls =
        exampleFrameWorld.gl.calls ++ new1 ∧
      (uploadsIn Context.initial none new1).map
          (fun u => (u.selected, u.lookup.map (fun r => r.2.1))) =
        (requiredLookups exampleFrameWorld.globals).map (fun r => (r.1, some r.2)) ∧
      (requiredLookups exampleFrameWorld.globals).map (fun r => r.1) =
        List.replicate 27 exampleFrameWorld.globals.gGraphicsPipelineShaderProgram ++
        List.replicate 3 exampleFrameWorld.globals.gSkyboxPipelineShaderProgram ∧
      (Context.initial.replay new1).program =
        exampleFrameWorld.globals.gSkyboxPipelineShaderProgram ∧
      ∃ w2 new2, Draw (PreDraw exampleDriver 0 exampleFrameWorld).world = .returned () w2 ∧
        w2.gl.calls = (PreDraw exampleDriver 0 exampleFrameWorld).world.gl.calls ++ new2 ∧
        uploadsIn (Context.initial.replay new1) none new2 = [] ∧
        drawsWithSelection (Context.initial.replay new1) new2 =
          [(GL_PATCHES, exampleFrameWorld.globals.gGraphicsPipelineShaderProgram,
              exampleFrameWorld.globals.gVertexArrayObjectFloor, GL_TEXTURE0,
              exampleFrameWorld.globals.gCubeTexId),
           (GL_TRIANGLES, exampleFrameWorld.globals.gSkyboxPipelineShaderProgram,
              exampleFrameWorld.globals.gVertexArrayObjectSkybox, GL_TEXTURE0,
              exampleFrameWorld.globals.gCubeTexId)] :=
  ⟨exampleFrame_returns 0,
   (active_program_consistency exampleDriver 0 exampleFrameWorld Context.initial).2 _
     (exampleFrame_returns 0)⟩

theorem attribCommand_geometry (c : GLCall) (h : geometryCommand c = false) :
    attribCommand c = false := by
  cases c <;> first
    | rfl
    | simp [geometryCommand] at h

theorem attribProtocol_append_inert (xs ys : List GLCall)
    (h : ∀ c ∈ ys, geometryCommand c = false) :
    attribProtocol (xs ++ ys) = attribProtocol xs := by
  have hy : List.filter attribCommand ys = [] :=
    List.filter_eq_nil_iff.mpr (fun c hc => by simp [attribCommand_geometry c (h c hc)])
  simp only [attribProtocol, List.filter_append, hy, List.append_nil]

/-- The attribute configuration commands of `VertexSpecification`, when names
start at `n`. -/
theorem attribProtocol_geometryCalls (h : CFloat) (n : GLuint) :
    attribProtocol (geometryCalls h n) =
      [ .glBindVertexArray n,
        .glEnableVertexAttribArray 0, .glVertexAttribPointer 0 3 GL_FLOAT GL_FALSE 32 0,
        .glEnableVertexAttribArray 1, .glVertexAttribPointer 1 3 GL_FLOAT GL_FALSE 32 12,
        .glEnableVertexAttribArray 2, .glVertexAttribPointer 2 3 GL_FLOAT GL_FALSE 32 20,
        .glBindVertexArray 0,
        .glDisableVertexAttribArray 0, .glDisableVertexAttribArray 1,
        .glDisableVertexAttribArray 2,
        .glBindVertexArray (n + 2),
        .glEnableVertexAttribArray 0, .glVertexAttribPointer 0 3 GL_FLOAT GL_FALSE 12 0,
        .glBindVertexArray 0,
        .glDisableVertexAttribArray 0 ] := by
  simp [attribProtocol, geometryCalls, attribCommand, sizeof_GL_FLOAT]

set_option maxRecDepth 100000 in
/-- Counterexample to C19: in the commands of `VertexSpecification` at start-up
an attribute array is enabled before its layout is declared (the first
`glEnableVertexAttribArray(0)` precedes every `glVertexAttribPointer`). -/
theorem declare_before_enable_counterexample :
    ∃ w', VertexSpecification examplePPM (World.initial exampleCamera) = .returned () w' ∧
      declaredBeforeEnabled [] w'.gl.calls = false ∧
      (attribProtocol w'.gl.calls).take 3 =
        [.glBindVertexArray 1, .glEnableVertexAttribArray 0,
         .glVertexAttribPointer 0 3 GL_FLOAT GL_FALSE 32 0] := by
  refine ⟨_, VertexSpecification_eval examplePPM (World.initial exampleCamera), ?_, ?_⟩
  · decide
  · decide

/-- C19 (amended).  The attribute configuration commands of
`VertexSpecification` are, for both geometries: bind the vertex array; for
each attribute, enable its array and then declare its layout (index,
component count, stride, offset), the enable command immediately before the
declaration; bind vertex array 0; then one disable command for each attribute
that was enabled.  So every attribute is enabled before (not after) its layout
is declared, and every enabled attribute gets a disable command after the
configuration, issued while no vertex array is bound.  At start-up, in the
core profile, the ocean vertex array ends with the attributes 0, 1, 2 enabled
and the skybox vertex array, bound after it, with attribute 0 only. -/
theorem attribute_protocol (ppm : String → PPM) (w : World) :
    (∃ w' new, VertexSpecification ppm w = .returned () w' ∧ w'.gl.calls = w.gl.calls ++ new ∧
      attribProtocol new =
        [ .glBindVertexArray w'.globals.gVertexArrayObjectFloor,
          .glEnableVertexAttribArray 0, .glVertexAttribPointer 0 3 GL_FLOAT GL_FALSE 32 0,
          .glEnableVertexAttribArray 1, .glVertexAttribPointer 1 3 GL_FLOAT GL_FALSE 32 12,
          .glEnableVertexAttribArray 2, .glVertexAttribPointer 2 3 GL_FLOAT GL_FALSE 32 20,
          .glBindVertexArray 0,
          .glDisableVertexAttribArray 0, .glDisableVertexAttribArray 1,
          .glDisableVertexAttribArray 2,
          .glBindVertexArray w'.globals.gVertexArrayObjectSkybox,
          .glEnableVertexAttribArray 0, .glVertexAttribPointer 0 3 GL_FLOAT GL_FALSE 12 0,
          .glBindVertexArray 0,
          .glDisableVertexAttribArray 0 ] ∧
      enabledBeforeDeclared [] (attribProtocol new) = true ∧
      declaredBeforeEnabled [] (attribProtocol new) = false) ∧
    (∀ camera : Camera, ∃ w', VertexSpecification ppm (World.initial camera) = .returned () w' ∧
      (Context.initial.replay w'.gl.calls).enabledOf w'.globals.gVertexArrayObjectFloor =
        [0, 1, 2] ∧
      (Context.initial.replay w'.gl.calls).enabledOf w'.globals.gVertexArrayObjectSkybox = [0] ∧
      (Context.initial.replay w'.gl.calls).enabledOf 0 = []) := by
  constructor
  · have hp : attribProtocol (geometryCalls w.globals.gOceanSize w.gl.nextName ++
        cubemapCalls ppm faces (w.gl.nextName + 4)) = _ :=
      (attribProtocol_append_inert _ _ (cubemapCalls_keep_geometry ppm faces _)).trans
        (attribProtocol_geometryCalls _ _)
    refine ⟨_, _, VertexSpecification_eval ppm w, rfl, hp, ?_, ?_⟩
    · rw [hp]; rfl
    · rw [hp]; rfl
  · intro camera
    refine ⟨_, VertexSpecification_eval ppm _, ?_⟩
    obtain ⟨_, _, g3, _⟩ := geometryCalls_replay 1500
    obtain ⟨_, _, _, _, c4, _⟩ := (Context.initial.replay (geometryCalls 1500 1)).replay_keeps_geometry
      _ (cubemapCalls_keep_geometry ppm faces (1 + 4))
    have he : (Context.initial.replay (afterVertexSpecification ppm (World.initial camera)).gl.calls).enabled
        = [(3, 0), (1, 2), (1, 1), (1, 0)] := by
      show (Context.initial.replay ([] ++ (geometryCalls 1500 1 ++
        cubemapCalls ppm faces (1 + 4)))).enabled = _
      rw [List.nil_append, Context.replay_append, c4, g3]
    have hf : (afterVertexSpecification ppm (World.initial camera)).globals.gVertexArrayObjectFloor
        = 1 := rfl
    have hk : (afterVertexSpecification ppm (World.initial camera)).globals.gVertexArrayObjectSkybox
        = 3 := rfl
    simp only [Context.enabledOf, he, hf, hk]
    exact ⟨by decide, by decide, by decide⟩

/-- C20. FrameState domain invariant.  The initial state has `num_of_waves = 1`
and polygon mode fill.  Every sequence of `Input` calls from the initial state,
with arbitrary event queues and keyboard states, returns, and afterwards
`num_of_waves` is 1, 2, 3 or 4 and the polygon mode is fill or line.  One
`Input` call, in any state: it returns; with none of the keys 1-4 held
`num_of_waves` is unchanged; with exactly key k of 1-4 held it is k; with Tab
not held the polygon mode is unchanged; with Tab held fill becomes line and
line becomes fill.  Two calls with Tab held restore the polygon mode of a state
of the domain. -/
theorem frame_state_domain (cam : CameraClass) :
    (∀ camera : Camera, (Globals.initial camera).num_of_waves = 1 ∧
      (Globals.initial camera).gPolygonMode = GL_FILL) ∧
    (∀ (camera : Camera) (steps : List (List SDLEvent × (Nat → Bool))),
      ∃ w', InputSteps cam steps none (World.initial camera) = .returned () w' ∧
        FrameStateOk w'.globals) ∧
    (∀ (events : List SDLEvent) (state : Nat → Bool) (statics : Option InputStatics) (w : World),
      ∃ (st : InputStatics) (w' : World), Input cam events state statics w = .returned st w' ∧
        (state SDL_SCANCODE_1 = false ∧ state SDL_SCANCODE_2 = false ∧
          state SDL_SCANCODE_3 = false ∧ state SDL_SCANCODE_4 = false →
          w'.globals.num_of_waves = w.globals.num_of_waves) ∧
        (state SDL_SCANCODE_1 = true ∧ state SDL_SCANCODE_2 = false ∧
          state SDL_SCANCODE_3 = false ∧ state SDL_SCANCODE_4 = false →
          w'.globals.num_of_waves = 1) ∧
        (state SDL_SCANCODE_1 = false ∧ state SDL_SCANCODE_2 = true ∧
          state SDL_SCANCODE_3 = false ∧ state SDL_SCANCODE_4 = false →
          w'.globals.num_of_waves = 2) ∧
        (state SDL_SCANCODE_1 = false ∧ state SDL_SCANCODE_2 = false ∧
          state SDL_SCANCODE_3 = true ∧ state SDL_SCANCODE_4 = false →
          w'.globals.num_of_waves = 3) ∧
        (state SDL_SCANCODE_1 = false ∧ state SDL_SCANCODE_2 = false ∧
          state SDL_SCANCODE_3 = false ∧ state SDL_SCANCODE_4 = true →
          w'.globals.num_of_waves = 4) ∧
        (state SDL_SCANCODE_TAB = false → w'.globals.gPolygonMode = w.globals.gPolygonMode) ∧
        (state SDL_SCANCODE_TAB = true → w.globals.gPolygonMode = GL_FILL →
          w'.globals.gPolygonMode = GL_LINE) ∧
        (state SDL_SCANCODE_TAB = true → w.globals.gPolygonMode = GL_LINE →
          w'.globals.gPolygonMode = GL_FILL) ∧
        (FrameStateOk w.globals → FrameStateOk w'.globals)) ∧
    (∀ (events1 events2 : List SDLEvent) (state1 state2 : Nat → Bool)
      (statics : Option InputStatics) (w : World),
      FrameStateOk w.globals → state1 SDL_SCANCODE_TAB = true → state2 SDL_SCANCODE_TAB = true →
      ∃ (st1 st2 : InputStatics) (w1 w2 : World),
        Input cam events1 state1 statics w = .returned st1 w1 ∧
        Input cam events2 state2 (some st1) w1 = .returned st2 w2 ∧
        w1.globals.gPolygonMode ≠ w.globals.gPolygonMode ∧
        w2.globals.gPolygonMode = w.globals.gPolygonMode) := by
  refine ⟨fun _ => ⟨rfl, rfl⟩, ?_, ?_, ?_⟩
  · intro camera steps
    exact InputSteps_keeps_frameStateOk cam steps none (World.initial camera)
      ⟨Or.inl rfl, Or.inl rfl⟩
  · intro events state statics w
    obtain ⟨st, w', e, _, n, p⟩ := Input_frameState cam events state statics w
    refine ⟨st, w', e, ?_, ?_, ?_, ?_, ?_, ?_, ?_, ?_, ?_⟩
    · rintro ⟨h1, h2, h3, h4⟩; rw [n]; simp [h1, h2, h3, h4]
    · rintro ⟨h1, h2, h3, h4⟩; rw [n]; simp [h1, h2, h3, h4]
    · rintro ⟨h1, h2, h3, h4⟩; rw [n]; simp [h1, h2, h3, h4]
    · rintro ⟨h1, h2, h3, h4⟩; rw [n]; simp [h1, h2, h3, h4]
    · rintro ⟨h1, h2, h3, h4⟩; rw [n]; simp [h1, h2, h3, h4]
    · intro ht; rw [p]; simp [ht]
    · intro ht hm; rw [p]; simp [ht, hm]
    · intro ht hm
      rw [p]
      have hne : ¬ (GL_LINE = GL_FILL) := by decide
      simp [ht, hm, hne]
    · intro hok
      obtain ⟨st2, w2, e2, hok2⟩ := Input_keeps_frameStateOk cam events state statics w hok
      rw [e] at e2
      injection e2 with _ e2
      subst e2
      exact hok2
  · intro events1 events2 state1 state2 statics w hok ht1 ht2
    obtain ⟨st1, w1, e1, _, _, p1⟩ := Input_frameState cam events1 state1 statics w
    obtain ⟨st2, w2, e2, _, _, p2⟩ := Input_frameState cam events2 state2 (some st1) w1
    refine ⟨st1, st2, w1, w2, e1, e2, ?_, ?_⟩
    · rw [p1]
      rcases hok.2 with hm | hm
      · simp [ht1, hm]; decide
      · have hne : ¬ (GL_LINE = GL_FILL) := by decide
        simp [ht1, hm, hne]; decide
    · rw [p2, p1]
      have hne : ¬ (GL_LINE = GL_FILL) := by decide
      rcases hok.2 with hm | hm
      · simp [ht1, ht2, hm, hne]
      · simp [ht1, ht2, hm, hne]

/-- Witness for C20: from the initial state, a call with exactly key 3 held
sets `num_of_waves` to 3, and two calls with Tab held restore the polygon
mode. -/
theorem frame_state_domain_witness :
    (∃ (st : InputStatics) (w' : World),
      Input exampleCameraClass [.mouseMotion 3 (-2)] (keysHeld [SDL_SCANCODE_3]) none
        (World.initial exampleCamera) = .returned st w' ∧ w'.globals.num_of_waves = 3) ∧
    (FrameStateOk (World.initial exampleCamera).globals ∧
      ∃ (st1 st2 : InputStatics) (w1 w2 : World),
        Input exampleCameraClass [] (keysHeld [SDL_SCANCODE_TAB]) none
          (World.initial exampleCamera) = .returned st1 w1 ∧
        Input exampleCameraClass [.quit] (keysHeld [SDL_SCANCODE_TAB, SDL_SCANCODE_W]) (some st1) w1 =
          .returned st2 w2 ∧
        w1.globals.gPolygonMode ≠ (World.initial exampleCamera).globals.gPolygonMode ∧
        w2.globals.gPolygonMode = (World.initial exampleCamera).globals.gPolygonMode) := by
  constructor
  · obtain ⟨st, w', e, _, _, _, h3, _⟩ := (frame_state_domain exampleCameraClass).2.2.1
      [.mouseMotion 3 (-2)] (keysHeld [SDL_SCANCODE_3]) none (World.initial exampleCamera)
    exact ⟨st, w', e, h3 (by decide)⟩
  · exact ⟨by decide, (frame_state_domain exampleCameraClass).2.2.2 [] [.quit]
      (keysHeld [SDL_SCANCODE_TAB]) (keysHeld [SDL_SCANCODE_TAB, SDL_SCANCODE_W]) none
      (World.initial exampleCamera) (by decide) (by decide) (by decide)⟩

/-! ## Claims on shader source files -/

theorem getline_nil : getline [] = none := rfl

theorem getline_cons (c : Char) (cs : List Char) :
    getline (c :: cs) =
      some (String.mk ((c :: cs).takeWhile (fun x => x != newline)),
        (c :: cs).drop (((c :: cs).takeWhile (fun x => x != newline)).length + 1)) := by
  simp [getline]

/-- The first line of a non-empty text is what `std::getline` extracts, and the
other lines are the lines of what it leaves unread. -/
theorem fileLines_cons (c : Char) (cs : List Char) :
    fileLines (c :: cs) =
      (c :: cs).takeWhile (fun x => x != newline) ::
        fileLines ((c :: cs).drop (((c :: cs).takeWhile (fun x => x != newline)).length + 1)) := by
  induction cs generalizing c with
  | nil =>
    by_cases hc : c = newline
    · simp [fileLines, hc]
    · simp [fileLines, hc]
  | cons d ds ih =>
    by_cases hc : c = newline
    · simp [fileLines, hc]
    · have hb : (fun x : Char => x != newline) c = true := by simpa using hc
      have ht : (c :: d :: ds).takeWhile (fun x => x != newline) =
          c :: (d :: ds).takeWhile (fun x => x != newline) := List.takeWhile_cons_of_pos hb
      rw [fileLines, if_neg hc, ih d, ht, List.length_cons]
      simp only [List.drop_succ_cons]

theorem LoadShaderLines_eq (stream : List Char) (result : String) :
    LoadShaderLines stream result = result ++ String.mk (terminatedLines stream) := by
  generalize hn : stream.length = n
  induction n using Nat.strong_induction_on generalizing stream result with
  | _ n ih =>
    cases stream with
    | nil =>
      rw [LoadShaderLines]
      simp [getline_nil, terminatedLines, fileLines]
    | cons c cs =>
      rw [LoadShaderLines, getline_cons]
      simp only []
      have hlt : ((c :: cs).drop (((c :: cs).takeWhile (fun x => x != newline)).length + 1)).length
          < n := by
        rw [← hn]
        simp only [List.length_drop, List.length_cons]
        omega
      rw [ih _ hlt _ _ rfl]
      simp only [terminatedLines, fileLines_cons c cs, List.map_cons, List.flatten_cons]
      apply String.ext
      simp [String.push, String.data_append, List.append_assoc]

theorem terminatedLines_cons_cons (c d : Char) (ds : List Char) :
    terminatedLines (c :: d :: ds) = c :: terminatedLines (d :: ds) := by
  by_cases hc : c = newline
  · simp [terminatedLines, fileLines, hc]
  · simp only [terminatedLines]
    rw [fileLines, if_neg hc, fileLines_cons d ds]
    simp

theorem terminatedLines_eq (text : List Char) :
    terminatedLines text =
      if text = [] ∨ text.getLast? = some newline then text else text ++ [newline] := by
  induction text with
  | nil => simp [terminatedLines, fileLines]
  | cons c cs ih =>
    cases cs with
    | nil =>
      by_cases hc : c = newline
      · simp [terminatedLines, fileLines, hc]
      · simp [terminatedLines, fileLines, hc]
    | cons d ds =>
      rw [terminatedLines_cons_cons, ih, List.getLast?_cons_cons]
      by_cases h : (d :: ds).getLast? = some newline
      · simp [h]
      · simp [h]

theorem fileLines_no_newline (text : List Char) : ∀ l ∈ fileLines text, newline ∉ l := by
  induction text with
  | nil => intro l hl; simp [fileLines] at hl
  | cons c cs ih =>
    intro l hl
    by_cases hc : c = newline
    · simp only [fileLines, hc, if_true, List.mem_cons] at hl
      rcases hl with rfl | hl
      · simp
      · exact ih l hl
    · rw [fileLines, if_neg hc] at hl
      cases hf : fileLines cs with
      | nil =>
        rw [hf] at hl
        simp only [List.mem_singleton] at hl
        subst hl
        simpa using fun h => hc h.symm
      | cons a rest =>
        rw [hf] at hl ih
        simp only [List.mem_cons] at hl
        rcases hl with rfl | hl
        · have ha := ih a (List.mem_cons_self _ _)
          intro hmem
          rcases List.mem_cons.mp hmem with h | h
          · exact hc h.symm
          · exact ha h
        · exact ih l (List.mem_cons_of_mem _ hl)

/-- C21. `LoadShaderAsString` returns the empty string when the file cannot be
opened.  For a file that opens it returns the lines of the file in order, each
followed by exactly one newline (no line contains a newline); so the result is
the content of the file when the content is empty or ends with a newline, and
the content plus one newline otherwise. -/
theorem LoadShaderAsString_contract (fs : FileSystem) (filename : String) :
    (fs filename = none → LoadShaderAsString fs filename = "") ∧
    (∀ content : String, fs filename = some content →
      (LoadShaderAsString fs filename).data =
        ((fileLines content.data).map (fun l => l ++ [newline])).flatten ∧
      (∀ l ∈ fileLines content.data, newline ∉ l) ∧
      (content = "" ∨ content.data.getLast? = some newline →
        LoadShaderAsString fs filename = content) ∧
      (¬ (content = "" ∨ content.data.getLast? = some newline) →
        LoadShaderAsString fs filename = content ++ "\n")) := by
  constructor
  · intro h
    simp only [LoadShaderAsString, h]
  · intro content h
    have e : LoadShaderAsString fs filename = String.mk (terminatedLines content.data) := by
      simp only [LoadShaderAsString, h, LoadShaderLines_eq]
      apply String.ext
      simp
    have hempty : content = "" ↔ content.data = [] := by
      constructor
      · intro hc; rw [hc]
      · intro hc; exact String.ext hc
    refine ⟨?_, fileLines_no_newline _, ?_, ?_⟩
    · rw [e]; rfl
    · intro hc
      rw [e, terminatedLines_eq, if_pos (by rwa [← hempty])]
    · intro hc
      rw [e, terminatedLines_eq, if_neg (by rwa [← hempty])]
      apply String.ext
      simp [newline]

/-- Witness for C21: a path that cannot be opened, and a shader file whose
content does not end with a newline. -/
theorem LoadShaderAsString_contract_witness :
    (exampleFiles "./shaders/frag.glsl" = none ∧
      LoadShaderAsString exampleFiles "./shaders/frag.glsl" = "") ∧
    (exampleFiles "./shaders/vert.glsl" = some "void main()\n{}" ∧
      ¬ (("void main()\n{}" : String) = "" ∨
        ("void main()\n{}" : String).data.getLast? = some newline) ∧
      LoadShaderAsString exampleFiles "./shaders/vert.glsl" = "void main()\n{}" ++ "\n") :=
  ⟨⟨by decide, (LoadShaderAsString_contract exampleFiles "./shaders/frag.glsl").1 (by decide)⟩,
   ⟨by decide, by decide,
    ((LoadShaderAsString_contract exampleFiles "./shaders/vert.glsl").2 "void main()\n{}"
      (by decide)).2.2.2 (by decide)⟩⟩

end GerstnerWaves
